import Mathlib

/-!
# Verification of `zerver/lib/retention.py`

A shallow embedding of the Zulip data-retention/archival engine
(`zerver/lib/retention.py`) and proofs of the specification's claims about it.

The relational store is modelled as lists of rows.  Each SQL / Django-ORM
operation of the source module is translated into an explicit function on a
`Store` record.  Timestamps and dates are modelled at day granularity as `Int`
(the SQL `EXTRACT(DAY FROM (CURRENT_DATE - pub_date))` is `now - pub_date`).
Django's `.delete()` on a queryset removes the matching rows by primary key and
cascades to rows that hold a foreign key onto a deleted row (for `Message`:
`UserMessage` rows and the `zerver_attachment_messages` m2m rows; for
`Attachment` / `ArchivedMessage` / `ArchivedAttachment`: their m2m rows); the
cascades are translated explicitly below.
-/

set_option maxHeartbeats 1000000

namespace Retention

/-- A tenant (`zerver_realm`): retention window in days, or `none` for
indefinite retention. -/
structure Realm where
  id : Nat
  message_retention_days : Option Nat
deriving DecidableEq

/-- A user (`zerver_userprofile`); only the realm link matters to the engine. -/
structure UserProfile where
  id : Nat
  realm_id : Nat
deriving DecidableEq

/-- A live message row (`zerver_message`); `pub_date` is a day number. -/
structure Message where
  id : Nat
  sender_id : Nat
  pub_date : Int
deriving DecidableEq

/-- A per-recipient delivery record (`zerver_usermessage`). -/
structure UserMessage where
  id : Nat
  user_profile_id : Nat
  message_id : Nat
deriving DecidableEq

/-- A live attachment row (`zerver_attachment`); `path_id` identifies the blob. -/
structure Attachment where
  id : Nat
  path_id : Nat
deriving DecidableEq

/-- A row of the m2m join table `zerver_attachment_messages`. -/
structure AttachmentMessage where
  id : Nat
  attachment_id : Nat
  message_id : Nat
deriving DecidableEq

/-- A row of `zerver_archivedmessage`: the full `Message` column snapshot plus
`archive_timestamp`. -/
structure ArchivedMessage where
  msg : Message
  archive_timestamp : Int
deriving DecidableEq

/-- A row of `zerver_archivedusermessage`. -/
structure ArchivedUserMessage where
  um : UserMessage
  archive_timestamp : Int
deriving DecidableEq

/-- A row of `zerver_archivedattachment`. -/
structure ArchivedAttachment where
  att : Attachment
  archive_timestamp : Int
deriving DecidableEq

/-- A row of `zerver_archivedattachment_messages` (no timestamp column:
the insert in `move_expired_attachments_message_rows_to_archive` copies only
`(id, archivedattachment_id, archivedmessage_id)`). -/
structure ArchivedAttachmentMessage where
  id : Nat
  archivedattachment_id : Nat
  archivedmessage_id : Nat
deriving DecidableEq

/-- The relational store: the live tables, their archive mirrors, and the
configuration tables the retention queries join against. -/
structure Store where
  realms : List Realm
  userprofiles : List UserProfile
  messages : List Message
  usermessages : List UserMessage
  attachments : List Attachment
  attachment_messages : List AttachmentMessage
  archivedmessages : List ArchivedMessage
  archivedusermessages : List ArchivedUserMessage
  archivedattachments : List ArchivedAttachment
  archivedattachment_messages : List ArchivedAttachmentMessage
deriving DecidableEq

/-- `zerver_realm.message_retention_days IS NOT NULL AND
EXTRACT(DAY FROM (CURRENT_DATE - zerver_message.pub_date)) >= message_retention_days`. -/
def retentionElapsed (r : Realm) (now : Int) (m : Message) : Bool :=
  match r.message_retention_days with
  | some d => decide ((d : Int) ≤ now - m.pub_date)
  | none => false

/-- The `usermessage → userprofile → realm` join chain of the retention
queries, applied to message `m`: the delivery record's own user's realm has a
retention window that `m`'s age meets or exceeds. -/
def umChainElapsed (st : Store) (now : Int) (um : UserMessage) (m : Message) : Bool :=
  st.userprofiles.any fun up =>
    up.id == um.user_profile_id &&
      st.realms.any fun r => r.id == up.realm_id && retentionElapsed r now m

/-- The `WHERE` clause of `move_expired_messages_to_archive`'s select for a
live message: some live delivery record of `m` joins to a realm whose
retention window has elapsed for `m`. -/
def messageExpired (st : Store) (now : Int) (m : Message) : Bool :=
  st.usermessages.any fun um => um.message_id == m.id && umChainElapsed st now um m

/-- The `WHERE` clause of `move_expired_user_messages_to_archive`'s select for
a live delivery record: it joins to a live message and to a realm whose
retention has elapsed for that message. -/
def umEligible (st : Store) (now : Int) (um : UserMessage) : Bool :=
  st.messages.any fun m => m.id == um.message_id && umChainElapsed st now um m

/-- The `WHERE` clause of `move_expired_attachments_to_archive`'s select for a
live attachment: some m2m link joins it to a live expired message. -/
def attachmentEligible (st : Store) (now : Int) (a : Attachment) : Bool :=
  st.attachment_messages.any fun l =>
    l.attachment_id == a.id &&
      st.messages.any fun m => m.id == l.message_id && messageExpired st now m

/-- The `WHERE` clause of `move_expired_attachments_message_rows_to_archive`'s
select for a live m2m link row: it joins to a live expired message. -/
def linkEligible (st : Store) (now : Int) (l : AttachmentMessage) : Bool :=
  st.messages.any fun m => m.id == l.message_id && messageExpired st now m

/-- `id IN (SELECT id FROM zerver_archivedmessage)`. -/
def archivedMsgId (st : Store) (i : Nat) : Bool :=
  st.archivedmessages.any fun am => am.msg.id == i

/-- `id IN (SELECT id FROM zerver_archivedusermessage)`. -/
def archivedUMId (st : Store) (i : Nat) : Bool :=
  st.archivedusermessages.any fun aum => aum.um.id == i

/-- `id IN (SELECT id FROM zerver_archivedattachment)`. -/
def archivedAttId (st : Store) (i : Nat) : Bool :=
  st.archivedattachments.any fun aa => aa.att.id == i

/-- `id IN (SELECT id FROM zerver_archivedattachment_messages)`. -/
def archivedLinkId (st : Store) (i : Nat) : Bool :=
  st.archivedattachment_messages.any fun al => al.id == i

/-- Some live delivery record references message id `i`
(negation of `usermessage__isnull=True`). -/
def hasLiveUM (st : Store) (i : Nat) : Bool :=
  st.usermessages.any fun um => um.message_id == i

/-- Some live m2m link references attachment id `i`
(negation of `messages__isnull=True`). -/
def hasLiveLink (st : Store) (i : Nat) : Bool :=
  st.attachment_messages.any fun l => l.attachment_id == i

/-- `id IN (SELECT id FROM zerver_message)`. -/
def liveMsgId (st : Store) (i : Nat) : Bool :=
  st.messages.any fun m => m.id == i

/-- `id IN (SELECT id FROM zerver_usermessage)`. -/
def liveUMId (st : Store) (i : Nat) : Bool :=
  st.usermessages.any fun um => um.id == i

/-- `id IN (SELECT id FROM zerver_attachment)`. -/
def liveAttId (st : Store) (i : Nat) : Bool :=
  st.attachments.any fun a => a.id == i

/-- `id IN (SELECT id FROM zerver_attachment_messages)`. -/
def liveLinkId (st : Store) (i : Nat) : Bool :=
  st.attachment_messages.any fun l => l.id == i

/-- The candidate set of `move_expired_messages_to_archive`: live expired
messages anti-joined against `zerver_archivedmessage` (`GROUP BY id` collapses
the join multiplicity). -/
def expiredMessagesCandidates (now : Int) (st : Store) : List Message :=
  st.messages.filter fun m => messageExpired st now m && !(archivedMsgId st m.id)

/-- The candidate set of `move_expired_user_messages_to_archive`. -/
def expiredUserMessagesCandidates (now : Int) (st : Store) : List UserMessage :=
  st.usermessages.filter fun um => umEligible st now um && !(archivedUMId st um.id)

/-- The candidate set of `move_expired_attachments_to_archive`. -/
def expiredAttachmentsCandidates (now : Int) (st : Store) : List Attachment :=
  st.attachments.filter fun a => attachmentEligible st now a && !(archivedAttId st a.id)

/-- The candidate set of `move_expired_attachments_message_rows_to_archive`. -/
def expiredLinkCandidates (now : Int) (st : Store) : List AttachmentMessage :=
  st.attachment_messages.filter fun l => linkEligible st now l && !(archivedLinkId st l.id)

/-- Non-dry-run `move_expired_messages_to_archive`: bulk-insert the candidate
snapshots, stamped with the current time, into `zerver_archivedmessage`. -/
def move_expired_messages_to_archive (now : Int) (st : Store) : Store :=
  { st with archivedmessages :=
      st.archivedmessages ++ (expiredMessagesCandidates now st).map fun m => ⟨m, now⟩ }

/-- Non-dry-run `move_expired_user_messages_to_archive`. -/
def move_expired_user_messages_to_archive (now : Int) (st : Store) : Store :=
  { st with archivedusermessages :=
      st.archivedusermessages ++ (expiredUserMessagesCandidates now st).map fun um => ⟨um, now⟩ }

/-- Non-dry-run `move_expired_attachments_to_archive`. -/
def move_expired_attachments_to_archive (now : Int) (st : Store) : Store :=
  { st with archivedattachments :=
      st.archivedattachments ++ (expiredAttachmentsCandidates now st).map fun a => ⟨a, now⟩ }

/-- Non-dry-run `move_expired_attachments_message_rows_to_archive`: the insert
copies `(id, attachment_id, message_id)` into
`(id, archivedattachment_id, archivedmessage_id)`; no timestamp column. -/
def move_expired_attachments_message_rows_to_archive (now : Int) (st : Store) : Store :=
  { st with archivedattachment_messages :=
      st.archivedattachment_messages ++
        (expiredLinkCandidates now st).map fun l => ⟨l.id, l.attachment_id, l.message_id⟩ }

/-- `delete_expired_user_messages`: delete live delivery records whose id is
already in the archive. -/
def delete_expired_user_messages (st : Store) : Store :=
  { st with usermessages := st.usermessages.filter fun um => !(archivedUMId st um.id) }

/-- The queryset `removing_messages` of `delete_expired_messages`: live
messages with no live delivery record (`usermessage__isnull=True`) that
already have an archive copy (`id__in=ArchivedMessage`). -/
def removing_messages (st : Store) : List Message :=
  st.messages.filter fun m => !(hasLiveUM st m.id) && archivedMsgId st m.id

/-- `delete_expired_messages`: delete the `removing_messages` queryset.
Django's delete cascades to rows holding a foreign key onto a deleted message:
its `UserMessage` rows (vacuous here, the filter requires there are none) and
its `zerver_attachment_messages` rows. -/
def delete_expired_messages (st : Store) : Store :=
  { st with
    messages := st.messages.filter fun m =>
      !((removing_messages st).any fun rm => rm.id == m.id),
    usermessages := st.usermessages.filter fun um =>
      !((removing_messages st).any fun rm => rm.id == um.message_id),
    attachment_messages := st.attachment_messages.filter fun l =>
      !((removing_messages st).any fun rm => rm.id == l.message_id) }

/-- The queryset `attachments_to_remove` of `delete_expired_attachments`:
live attachments with no live m2m link (`messages__isnull=True`) that already
have an archive copy. -/
def attachments_to_remove (st : Store) : List Attachment :=
  st.attachments.filter fun a => !(hasLiveLink st a.id) && archivedAttId st a.id

/-- `delete_expired_attachments`: delete the `attachments_to_remove` queryset;
the cascade to their m2m link rows is vacuous (the filter requires none
exist). -/
def delete_expired_attachments (st : Store) : Store :=
  { st with
    attachments := st.attachments.filter fun a =>
      !((attachments_to_remove st).any fun ra => ra.id == a.id),
    attachment_messages := st.attachment_messages.filter fun l =>
      !((attachments_to_remove st).any fun ra => ra.id == l.attachment_id) }

/-- The counts dictionary returned by `archive_messages(dry_run=True)`. -/
structure ArchiveCounts where
  exp_messages : Nat
  exp_user_messages : Nat
  exp_attachments : Nat
  exp_attachments_messages : Nat
deriving DecidableEq

/-- `archive_messages(dry_run)`: the four copy phases in order (each phase's
candidate query runs on the state left by the previous phase), then the three
purge phases; with `dry_run` only the four selects run (no mutation) and their
row counts are returned. -/
def archive_messages (dry_run : Bool) (now : Int) (st : Store) :
    Store × Option ArchiveCounts :=
  if dry_run then
    (st, some { exp_messages := (expiredMessagesCandidates now st).length
              , exp_user_messages := (expiredUserMessagesCandidates now st).length
              , exp_attachments := (expiredAttachmentsCandidates now st).length
              , exp_attachments_messages := (expiredLinkCandidates now st).length })
  else
    (delete_expired_attachments <| delete_expired_messages <| delete_expired_user_messages <|
      move_expired_attachments_message_rows_to_archive now <|
        move_expired_attachments_to_archive now <|
          move_expired_user_messages_to_archive now <|
            move_expired_messages_to_archive now st, none)

/-- Result of the blob store's delete operation. -/
inductive BlobDeleteResult where
  | ok
  | not_found
deriving DecidableEq

/-- Modelled from the spec: `delete_message_image` (`zerver/lib/upload.py`,
not under `src/`) is the BlobStore collaborator's delete operation,
`BlobStore.delete(path) -> ok | not_found`; a missing blob yields `not_found`
rather than an error, and the operation does not raise.  The blob store is a
list of paths; the result is the store after the delete and the outcome. -/
def delete_message_image (blobs : List Nat) (path : Nat) : List Nat × BlobDeleteResult :=
  if blobs.contains path then
    (blobs.filter fun p => !(p == path), BlobDeleteResult.ok)
  else
    (blobs, BlobDeleteResult.not_found)

/-- The queryset `arc_attachments` of `delete_expired_archived_attachments`:
the passed queryset narrowed to archived attachments with no remaining
archived m2m link (`messages__isnull=True`). -/
def arc_attachments (query : List ArchivedAttachment) (st : Store) : List ArchivedAttachment :=
  query.filter fun aa =>
    !(st.archivedattachment_messages.any fun al => al.archivedattachment_id == aa.att.id)

/-- `delete_expired_archived_attachments(query)`: narrow the passed queryset
to `arc_attachments`, call `delete_message_image` on each one's `path_id` (its
result is ignored), then delete the rows (the cascade to archived m2m link
rows is vacuous: the filter requires none exist).  Returns the new store, the
new blob store, and the list of paths `delete_message_image` was invoked on,
in call order. -/
def delete_expired_archived_attachments (query : List ArchivedAttachment) (st : Store)
    (blobs : List Nat) : Store × List Nat × List Nat :=
  ({ st with
      archivedattachments := st.archivedattachments.filter fun aa =>
        !((arc_attachments query st).any fun d => d.att.id == aa.att.id),
      archivedattachment_messages := st.archivedattachment_messages.filter fun al =>
        !((arc_attachments query st).any fun d => d.att.id == al.archivedattachment_id) },
    ((arc_attachments query st).foldl
      (fun (acc : List Nat × List Nat) aa =>
        ((delete_message_image acc.1 aa.att.path_id).1, acc.2 ++ [aa.att.path_id]))
      (blobs, [])).1,
    ((arc_attachments query st).foldl
      (fun (acc : List Nat × List Nat) aa =>
        ((delete_message_image acc.1 aa.att.path_id).1, acc.2 ++ [aa.att.path_id]))
      (blobs, [])).2)

/-- The first delete of `delete_expired_archived_data`: remove archived user
messages stamped before the cutoff (`archive_timestamp__lt`). -/
def purge_arc_usermessages (cutoff : Int) (st : Store) : Store :=
  { st with archivedusermessages :=
      st.archivedusermessages.filter fun aum => !(decide (aum.archive_timestamp < cutoff)) }

/-- The queryset `del_arc_messages.filter(archivedusermessage__isnull=True)`
of `delete_expired_archived_data`: archived messages stamped before the cutoff
that no archived user message references — evaluated lazily, i.e. against the
state after the first delete. -/
def removing_arc_messages (cutoff : Int) (st : Store) : List ArchivedMessage :=
  st.archivedmessages.filter fun am =>
    decide (am.archive_timestamp < cutoff) &&
      !(st.archivedusermessages.any fun aum => aum.um.message_id == am.msg.id)

/-- The second delete of `delete_expired_archived_data`: remove the
`removing_arc_messages` queryset; the delete cascades to the archived m2m link
rows referencing a removed archived message. -/
def purge_arc_messages (cutoff : Int) (st : Store) : Store :=
  { st with
    archivedmessages := st.archivedmessages.filter fun am =>
      !((removing_arc_messages cutoff st).any fun d => d.msg.id == am.msg.id),
    archivedattachment_messages := st.archivedattachment_messages.filter fun al =>
      !((removing_arc_messages cutoff st).any fun d => d.msg.id == al.archivedmessage_id) }

/-- The queryset `del_arc_attachments` of `delete_expired_archived_data`:
archived attachments stamped before the cutoff with no live counterpart
(`exclude(id__in=Attachment)`). -/
def del_arc_attachments (cutoff : Int) (st : Store) : List ArchivedAttachment :=
  st.archivedattachments.filter fun aa =>
    decide (aa.archive_timestamp < cutoff) && !(liveAttId st aa.att.id)

/-- The counts dictionary returned by `delete_expired_archived_data(dry_run=True)`. -/
structure DeleteArchivedCounts where
  del_arc_user_messages : Nat
  del_arc_messages : Nat
  del_arc_attachments : Nat
deriving DecidableEq

/-- The result of `delete_expired_archived_data`: the store, the blob store,
the `delete_message_image` call log, and (dry run only) the counts. -/
structure PurgeResult where
  store : Store
  blobs : List Nat
  blob_calls : List Nat
  counts : Option DeleteArchivedCounts
deriving DecidableEq

/-- `delete_expired_archived_data(dry_run)`: with
`cutoff = now - ARCHIVED_DATA_RETENTION_DAYS`, delete archived user messages
stamped before the cutoff; then archived messages stamped before the cutoff
that no (remaining) archived user message references — the querysets are lazy,
so this filter sees the state after the first delete — whose deletion cascades
to the archived m2m link rows referencing them; then pass the archived
attachments stamped before the cutoff that have no live counterpart
(`exclude(id__in=Attachment)`) to `delete_expired_archived_attachments`.
With `dry_run` the three querysets are counted against the entry state and
nothing is mutated. -/
def delete_expired_archived_data (dry_run : Bool) (arc_retention_days : Nat) (now : Int)
    (st : Store) (blobs : List Nat) : PurgeResult :=
  let cutoff := now - (arc_retention_days : Int)
  if dry_run then
    { store := st, blobs := blobs, blob_calls := []
    , counts := some
        { del_arc_user_messages :=
            (st.archivedusermessages.filter fun aum =>
              decide (aum.archive_timestamp < cutoff)).length
        , del_arc_messages :=
            (st.archivedmessages.filter fun am =>
              decide (am.archive_timestamp < cutoff)).length
        , del_arc_attachments :=
            (st.archivedattachments.filter fun aa =>
              decide (aa.archive_timestamp < cutoff) && !(liveAttId st aa.att.id)).length } }
  else
    let stA := purge_arc_usermessages cutoff st
    let stB := purge_arc_messages cutoff stA
    let res := delete_expired_archived_attachments (del_arc_attachments cutoff stB) stB blobs
    { store := res.1, blobs := res.2.1, blob_calls := res.2.2, counts := none }

/-- The candidate set of `restore_archived_messages_by_realm`: archived
messages having an archived delivery record whose user's realm is `realm_id`,
anti-joined against live `zerver_message` (`GROUP BY id` collapses the join
multiplicity). -/
def restoreMessagesCandidates (realm_id : Nat) (st : Store) : List ArchivedMessage :=
  st.archivedmessages.filter fun am =>
    (st.archivedusermessages.any fun aum =>
      aum.um.message_id == am.msg.id &&
        st.userprofiles.any fun up =>
          up.id == aum.um.user_profile_id && up.realm_id == realm_id) &&
      !(liveMsgId st am.msg.id)

/-- Non-dry-run `restore_archived_messages_by_realm`: insert the candidates'
`Message` column snapshots back into `zerver_message`. -/
def restore_archived_messages_by_realm (realm_id : Nat) (st : Store) : Store :=
  { st with messages := st.messages ++ (restoreMessagesCandidates realm_id st).map (·.msg) }

/-- The candidate set of `restore_archived_usermessages_by_realm`'s insert
select: archived delivery records of the realm, anti-joined against live
`zerver_usermessage`, whose message is live again.  (The dry-run branch of the
source returns a different set: all of the realm's archived user messages.) -/
def restoreUserMessagesCandidates (realm_id : Nat) (st : Store) : List ArchivedUserMessage :=
  st.archivedusermessages.filter fun aum =>
    (st.userprofiles.any fun up =>
      up.id == aum.um.user_profile_id && up.realm_id == realm_id) &&
      !(liveUMId st aum.um.id) && liveMsgId st aum.um.message_id

/-- Non-dry-run `restore_archived_usermessages_by_realm`. -/
def restore_archived_usermessages_by_realm (realm_id : Nat) (st : Store) : Store :=
  { st with usermessages :=
      st.usermessages ++ (restoreUserMessagesCandidates realm_id st).map (·.um) }

/-- The candidate set of `restore_archived_attachments_by_realm`: archived
attachments joined through an archived link to an archived message having an
archived delivery record in the realm, anti-joined against live
`zerver_attachment`. -/
def restoreAttachmentsCandidates (realm_id : Nat) (st : Store) : List ArchivedAttachment :=
  st.archivedattachments.filter fun aa =>
    (st.archivedattachment_messages.any fun al =>
      al.archivedattachment_id == aa.att.id &&
        st.archivedmessages.any fun am =>
          am.msg.id == al.archivedmessage_id &&
            st.archivedusermessages.any fun aum =>
              aum.um.message_id == am.msg.id &&
                st.userprofiles.any fun up =>
                  up.id == aum.um.user_profile_id && up.realm_id == realm_id) &&
      !(liveAttId st aa.att.id)

/-- Non-dry-run `restore_archived_attachments_by_realm`. -/
def restore_archived_attachments_by_realm (realm_id : Nat) (st : Store) : Store :=
  { st with attachments :=
      st.attachments ++ (restoreAttachmentsCandidates realm_id st).map (·.att) }

/-- The candidate set of `restore_archived_attachments_message_rows_by_realm`:
archived m2m link rows whose archived message has an archived delivery record
in the realm, anti-joined by id against live `zerver_attachment_messages`. -/
def restoreLinkCandidates (realm_id : Nat) (st : Store) : List ArchivedAttachmentMessage :=
  st.archivedattachment_messages.filter fun al =>
    (st.archivedmessages.any fun am =>
      am.msg.id == al.archivedmessage_id &&
        st.archivedusermessages.any fun aum =>
          aum.um.message_id == am.msg.id &&
            st.userprofiles.any fun up =>
              up.id == aum.um.user_profile_id && up.realm_id == realm_id) &&
      !(liveLinkId st al.id)

/-- Non-dry-run `restore_archived_attachments_message_rows_by_realm`: the
insert copies `(id, archivedattachment_id, archivedmessage_id)` into
`(id, attachment_id, message_id)`. -/
def restore_archived_attachments_message_rows_by_realm (realm_id : Nat) (st : Store) : Store :=
  { st with attachment_messages :=
      st.attachment_messages ++ (restoreLinkCandidates realm_id st).map fun al =>
        ⟨al.id, al.archivedattachment_id, al.archivedmessage_id⟩ }

/-- The counts dictionary returned by `restore_realm_archived_data(dry_run=True)`.
The user-message entry is the length of the queryset the source's dry-run
branch returns: all archived user messages whose user profile's realm is the
given realm (`ArchivedUserMessage.objects.filter(user_profile__realm_id=realm_id)`),
not the insert select. -/
structure RestoreCounts where
  restoring_arc_messages : Nat
  restoring_arc_user_messages : Nat
  restoring_arc_attachemnts : Nat
  rest_arc_attachments_messages : Nat
deriving DecidableEq

/-- `restore_realm_archived_data(realm_id, dry_run)`: the four restore phases
in order (each phase's candidate query runs on the state left by the previous
phase); afterwards, for a non-dry run, the realm's `message_retention_days` is
set to `None` (`Realm.objects.get(id=realm_id)` requires the realm to exist;
claims below hypothesise it).  With `dry_run` nothing is mutated and the four
queryset sizes are returned. -/
def restore_realm_archived_data (dry_run : Bool) (realm_id : Nat) (st : Store) :
    Store × Option RestoreCounts :=
  if dry_run then
    (st, some { restoring_arc_messages := (restoreMessagesCandidates realm_id st).length
              , restoring_arc_user_messages :=
                  (st.archivedusermessages.filter fun aum =>
                    st.userprofiles.any fun up =>
                      up.id == aum.um.user_profile_id && up.realm_id == realm_id).length
              , restoring_arc_attachemnts := (restoreAttachmentsCandidates realm_id st).length
              , rest_arc_attachments_messages := (restoreLinkCandidates realm_id st).length })
  else
    let st4 :=
      restore_archived_attachments_message_rows_by_realm realm_id <|
        restore_archived_attachments_by_realm realm_id <|
          restore_archived_usermessages_by_realm realm_id <|
            restore_archived_messages_by_realm realm_id st
    ({ st4 with realms := st4.realms.map fun r =>
        if r.id == realm_id then { r with message_retention_days := none } else r }, none)

/-! ## Projection lemmas: how each operation acts on each table. -/

@[simp] theorem move_expired_messages_to_archive_realms (now : Int) (st : Store) :
    (move_expired_messages_to_archive now st).realms = st.realms := rfl

@[simp] theorem move_expired_messages_to_archive_userprofiles (now : Int) (st : Store) :
    (move_expired_messages_to_archive now st).userprofiles = st.userprofiles := rfl

@[simp] theorem move_expired_messages_to_archive_messages (now : Int) (st : Store) :
    (move_expired_messages_to_archive now st).messages = st.messages := rfl

@[simp] theorem move_expired_messages_to_archive_usermessages (now : Int) (st : Store) :
    (move_expired_messages_to_archive now st).usermessages = st.usermessages := rfl

@[simp] theorem move_expired_messages_to_archive_attachments (now : Int) (st : Store) :
    (move_expired_messages_to_archive now st).attachments = st.attachments := rfl

@[simp] theorem move_expired_messages_to_archive_attachment_messages (now : Int) (st : Store) :
    (move_expired_messages_to_archive now st).attachment_messages = st.attachment_messages := rfl

@[simp] theorem move_expired_messages_to_archive_archivedmessages (now : Int) (st : Store) :
    (move_expired_messages_to_archive now st).archivedmessages = st.archivedmessages ++ (expiredMessagesCandidates now st).map fun m => ⟨m, now⟩ := rfl

@[simp] theorem move_expired_messages_to_archive_archivedusermessages (now : Int) (st : Store) :
    (move_expired_messages_to_archive now st).archivedusermessages = st.archivedusermessages := rfl

@[simp] theorem move_expired_messages_to_archive_archivedattachments (now : Int) (st : Store) :
    (move_expired_messages_to_archive now st).archivedattachments = st.archivedattachments := rfl

@[simp] theorem move_expired_messages_to_archive_archivedattachment_messages (now : Int) (st : Store) :
    (move_expired_messages_to_archive now st).archivedattachment_messages = st.archivedattachment_messages := rfl

@[simp] theorem move_expired_user_messages_to_archive_realms (now : Int) (st : Store) :
    (move_expired_user_messages_to_archive now st).realms = st.realms := rfl

@[simp] theorem move_expired_user_messages_to_archive_userprofiles (now : Int) (st : Store) :
    (move_expired_user_messages_to_archive now st).userprofiles = st.userprofiles := rfl

@[simp] theorem move_expired_user_messages_to_archive_messages (now : Int) (st : Store) :
    (move_expired_user_messages_to_archive now st).messages = st.messages := rfl

@[simp] theorem move_expired_user_messages_to_archive_usermessages (now : Int) (st : Store) :
    (move_expired_user_messages_to_archive now st).usermessages = st.usermessages := rfl

@[simp] theorem move_expired_user_messages_to_archive_attachments (now : Int) (st : Store) :
    (move_expired_user_messages_to_archive now st).attachments = st.attachments := rfl

@[simp] theorem move_expired_user_messages_to_archive_attachment_messages (now : Int) (st : Store) :
    (move_expired_user_messages_to_archive now st).attachment_messages = st.attachment_messages := rfl

@[simp] theorem move_expired_user_messages_to_archive_archivedmessages (now : Int) (st : Store) :
    (move_expired_user_messages_to_archive now st).archivedmessages = st.archivedmessages := rfl

@[simp] theorem move_expired_user_messages_to_archive_archivedusermessages (now : Int) (st : Store) :
    (move_expired_user_messages_to_archive now st).archivedusermessages = st.archivedusermessages ++ (expiredUserMessagesCandidates now st).map fun um => ⟨um, now⟩ := rfl

@[simp] theorem move_expired_user_messages_to_archive_archivedattachments (now : Int) (st : Store) :
    (move_expired_user_messages_to_archive now st).archivedattachments = st.archivedattachments := rfl

@[simp] theorem move_expired_user_messages_to_archive_archivedattachment_messages (now : Int) (st : Store) :
    (move_expired_user_messages_to_archive now st).archivedattachment_messages = st.archivedattachment_messages := rfl

@[simp] theorem move_expired_attachments_to_archive_realms (now : Int) (st : Store) :
    (move_expired_attachments_to_archive now st).realms = st.realms := rfl

@[simp] theorem move_expired_attachments_to_archive_userprofiles (now : Int) (st : Store) :
    (move_expired_attachments_to_archive now st).userprofiles = st.userprofiles := rfl

@[simp] theorem move_expired_attachments_to_archive_messages (now : Int) (st : Store) :
    (move_expired_attachments_to_archive now st).messages = st.messages := rfl

@[simp] theorem move_expired_attachments_to_archive_usermessages (now : Int) (st : Store) :
    (move_expired_attachments_to_archive now st).usermessages = st.usermessages := rfl

@[simp] theorem move_expired_attachments_to_archive_attachments (now : Int) (st : Store) :
    (move_expired_attachments_to_archive now st).attachments = st.attachments := rfl

@[simp] theorem move_expired_attachments_to_archive_attachment_messages (now : Int) (st : Store) :
    (move_expired_attachments_to_archive now st).attachment_messages = st.attachment_messages := rfl

@[simp] theorem move_expired_attachments_to_archive_archivedmessages (now : Int) (st : Store) :
    (move_expired_attachments_to_archive now st).archivedmessages = st.archivedmessages := rfl

@[simp] theorem move_expired_attachments_to_archive_archivedusermessages (now : Int) (st : Store) :
    (move_expired_attachments_to_archive now st).archivedusermessages = st.archivedusermessages := rfl

@[simp] theorem move_expired_attachments_to_archive_archivedattachments (now : Int) (st : Store) :
    (move_expired_attachments_to_archive now st).archivedattachments = st.archivedattachments ++ (expiredAttachmentsCandidates now st).map fun a => ⟨a, now⟩ := rfl

@[simp] theorem move_expired_attachments_to_archive_archivedattachment_messages (now : Int) (st : Store) :
    (move_expired_attachments_to_archive now st).archivedattachment_messages = st.archivedattachment_messages := rfl

@[simp] theorem move_expired_attachments_message_rows_to_archive_realms (now : Int) (st : Store) :
    (move_expired_attachments_message_rows_to_archive now st).realms = st.realms := rfl

@[simp] theorem move_expired_attachments_message_rows_to_archive_userprofiles (now : Int) (st : Store) :
    (move_expired_attachments_message_rows_to_archive now st).userprofiles = st.userprofiles := rfl

@[simp] theorem move_expired_attachments_message_rows_to_archive_messages (now : Int) (st : Store) :
    (move_expired_attachments_message_rows_to_archive now st).messages = st.messages := rfl

@[simp] theorem move_expired_attachments_message_rows_to_archive_usermessages (now : Int) (st : Store) :
    (move_expired_attachments_message_rows_to_archive now st).usermessages = st.usermessages := rfl

@[simp] theorem move_expired_attachments_message_rows_to_archive_attachments (now : Int) (st : Store) :
    (move_expired_attachments_message_rows_to_archive now st).attachments = st.attachments := rfl

@[simp] theorem move_expired_attachments_message_rows_to_archive_attachment_messages (now : Int) (st : Store) :
    (move_expired_attachments_message_rows_to_archive now st).attachment_messages = st.attachment_messages := rfl

@[simp] theorem move_expired_attachments_message_rows_to_archive_archivedmessages (now : Int) (st : Store) :
    (move_expired_attachments_message_rows_to_archive now st).archivedmessages = st.archivedmessages := rfl

@[simp] theorem move_expired_attachments_message_rows_to_archive_archivedusermessages (now : Int) (st : Store) :
    (move_expired_attachments_message_rows_to_archive now st).archivedusermessages = st.archivedusermessages := rfl

@[simp] theorem move_expired_attachments_message_rows_to_archive_archivedattachments (now : Int) (st : Store) :
    (move_expired_attachments_message_rows_to_archive now st).archivedattachments = st.archivedattachments := rfl

@[simp] theorem move_expired_attachments_message_rows_to_archive_archivedattachment_messages (now : Int) (st : Store) :
    (move_expired_attachments_message_rows_to_archive now st).archivedattachment_messages = st.archivedattachment_messages ++ (expiredLinkCandidates now st).map fun l => ⟨l.id, l.attachment_id, l.message_id⟩ := rfl

@[simp] theorem delete_expired_user_messages_realms (st : Store) :
    (delete_expired_user_messages st).realms = st.realms := rfl

@[simp] theorem delete_expired_user_messages_userprofiles (st : Store) :
    (delete_expired_user_messages st).userprofiles = st.userprofiles := rfl

@[simp] theorem delete_expired_user_messages_messages (st : Store) :
    (delete_expired_user_messages st).messages = st.messages := rfl

@[simp] theorem delete_expired_user_messages_usermessages (st : Store) :
    (delete_expired_user_messages st).usermessages = st.usermessages.filter fun um => !(archivedUMId st um.id) := rfl

@[simp] theorem delete_expired_user_messages_attachments (st : Store) :
    (delete_expired_user_messages st).attachments = st.attachments := rfl

@[simp] theorem delete_expired_user_messages_attachment_messages (st : Store) :
    (delete_expired_user_messages st).attachment_messages = st.attachment_messages := rfl

@[simp] theorem delete_expired_user_messages_archivedmessages (st : Store) :
    (delete_expired_user_messages st).archivedmessages = st.archivedmessages := rfl

@[simp] theorem delete_expired_user_messages_archivedusermessages (st : Store) :
    (delete_expired_user_messages st).archivedusermessages = st.archivedusermessages := rfl

@[simp] theorem delete_expired_user_messages_archivedattachments (st : Store) :
    (delete_expired_user_messages st).archivedattachments = st.archivedattachments := rfl

@[simp] theorem delete_expired_user_messages_archivedattachment_messages (st : Store) :
    (delete_expired_user_messages st).archivedattachment_messages = st.archivedattachment_messages := rfl

@[simp] theorem delete_expired_messages_realms (st : Store) :
    (delete_expired_messages st).realms = st.realms := rfl

@[simp] theorem delete_expired_messages_userprofiles (st : Store) :
    (delete_expired_messages st).userprofiles = st.userprofiles := rfl

@[simp] theorem delete_expired_messages_messages (st : Store) :
    (delete_expired_messages st).messages = st.messages.filter fun m => !((removing_messages st).any fun rm => rm.id == m.id) := rfl

@[simp] theorem delete_expired_messages_usermessages (st : Store) :
    (delete_expired_messages st).usermessages = st.usermessages.filter fun um => !((removing_messages st).any fun rm => rm.id == um.message_id) := rfl

@[simp] theorem delete_expired_messages_attachments (st : Store) :
    (delete_expired_messages st).attachments = st.attachments := rfl

@[simp] theorem delete_expired_messages_attachment_messages (st : Store) :
    (delete_expired_messages st).attachment_messages = st.attachment_messages.filter fun l => !((removing_messages st).any fun rm => rm.id == l.message_id) := rfl

@[simp] theorem delete_expired_messages_archivedmessages (st : Store) :
    (delete_expired_messages st).archivedmessages = st.archivedmessages := rfl

@[simp] theorem delete_expired_messages_archivedusermessages (st : Store) :
    (delete_expired_messages st).archivedusermessages = st.archivedusermessages := rfl

@[simp] theorem delete_expired_messages_archivedattachments (st : Store) :
    (delete_expired_messages st).archivedattachments = st.archivedattachments := rfl

@[simp] theorem delete_expired_messages_archivedattachment_messages (st : Store) :
    (delete_expired_messages st).archivedattachment_messages = st.archivedattachment_messages := rfl

@[simp] theorem delete_expired_attachments_realms (st : Store) :
    (delete_expired_attachments st).realms = st.realms := rfl

@[simp] theorem delete_expired_attachments_userprofiles (st : Store) :
    (delete_expired_attachments st).userprofiles = st.userprofiles := rfl

@[simp] theorem delete_expired_attachments_messages (st : Store) :
    (delete_expired_attachments st).messages = st.messages := rfl

@[simp] theorem delete_expired_attachments_usermessages (st : Store) :
    (delete_expired_attachments st).usermessages = st.usermessages := rfl

@[simp] theorem delete_expired_attachments_attachments (st : Store) :
    (delete_expired_attachments st).attachments = st.attachments.filter fun a => !((attachments_to_remove st).any fun ra => ra.id == a.id) := rfl

@[simp] theorem delete_expired_attachments_attachment_messages (st : Store) :
    (delete_expired_attachments st).attachment_messages = st.attachment_messages.filter fun l => !((attachments_to_remove st).any fun ra => ra.id == l.attachment_id) := rfl

@[simp] theorem delete_expired_attachments_archivedmessages (st : Store) :
    (delete_expired_attachments st).archivedmessages = st.archivedmessages := rfl

@[simp] theorem delete_expired_attachments_archivedusermessages (st : Store) :
    (delete_expired_attachments st).archivedusermessages = st.archivedusermessages := rfl

@[simp] theorem delete_expired_attachments_archivedattachments (st : Store) :
    (delete_expired_attachments st).archivedattachments = st.archivedattachments := rfl

@[simp] theorem delete_expired_attachments_archivedattachment_messages (st : Store) :
    (delete_expired_attachments st).archivedattachment_messages = st.archivedattachment_messages := rfl

@[simp] theorem restore_archived_messages_by_realm_realms (rid : Nat) (st : Store) :
    (restore_archived_messages_by_realm rid st).realms = st.realms := rfl

@[simp] theorem restore_archived_messages_by_realm_userprofiles (rid : Nat) (st : Store) :
    (restore_archived_messages_by_realm rid st).userprofiles = st.userprofiles := rfl

@[simp] theorem restore_archived_messages_by_realm_messages (rid : Nat) (st : Store) :
    (restore_archived_messages_by_realm rid st).messages = st.messages ++ (restoreMessagesCandidates rid st).map (·.msg) := rfl

@[simp] theorem restore_archived_messages_by_realm_usermessages (rid : Nat) (st : Store) :
    (restore_archived_messages_by_realm rid st).usermessages = st.usermessages := rfl

@[simp] theorem restore_archived_messages_by_realm_attachments (rid : Nat) (st : Store) :
    (restore_archived_messages_by_realm rid st).attachments = st.attachments := rfl

@[simp] theorem restore_archived_messages_by_realm_attachment_messages (rid : Nat) (st : Store) :
    (restore_archived_messages_by_realm rid st).attachment_messages = st.attachment_messages := rfl

@[simp] theorem restore_archived_messages_by_realm_archivedmessages (rid : Nat) (st : Store) :
    (restore_archived_messages_by_realm rid st).archivedmessages = st.archivedmessages := rfl

@[simp] theorem restore_archived_messages_by_realm_archivedusermessages (rid : Nat) (st : Store) :
    (restore_archived_messages_by_realm rid st).archivedusermessages = st.archivedusermessages := rfl

@[simp] theorem restore_archived_messages_by_realm_archivedattachments (rid : Nat) (st : Store) :
    (restore_archived_messages_by_realm rid st).archivedattachments = st.archivedattachments := rfl

@[simp] theorem restore_archived_messages_by_realm_archivedattachment_messages (rid : Nat) (st : Store) :
    (restore_archived_messages_by_realm rid st).archivedattachment_messages = st.archivedattachment_messages := rfl

@[simp] theorem restore_archived_usermessages_by_realm_realms (rid : Nat) (st : Store) :
    (restore_archived_usermessages_by_realm rid st).realms = st.realms := rfl

@[simp] theorem restore_archived_usermessages_by_realm_userprofiles (rid : Nat) (st : Store) :
    (restore_archived_usermessages_by_realm rid st).userprofiles = st.userprofiles := rfl

@[simp] theorem restore_archived_usermessages_by_realm_messages (rid : Nat) (st : Store) :
    (restore_archived_usermessages_by_realm rid st).messages = st.messages := rfl

@[simp] theorem restore_archived_usermessages_by_realm_usermessages (rid : Nat) (st : Store) :
    (restore_archived_usermessages_by_realm rid st).usermessages = st.usermessages ++ (restoreUserMessagesCandidates rid st).map (·.um) := rfl

@[simp] theorem restore_archived_usermessages_by_realm_attachments (rid : Nat) (st : Store) :
    (restore_archived_usermessages_by_realm rid st).attachments = st.attachments := rfl

@[simp] theorem restore_archived_usermessages_by_realm_attachment_messages (rid : Nat) (st : Store) :
    (restore_archived_usermessages_by_realm rid st).attachment_messages = st.attachment_messages := rfl

@[simp] theorem restore_archived_usermessages_by_realm_archivedmessages (rid : Nat) (st : Store) :
    (restore_archived_usermessages_by_realm rid st).archivedmessages = st.archivedmessages := rfl

@[simp] theorem restore_archived_usermessages_by_realm_archivedusermessages (rid : Nat) (st : Store) :
    (restore_archived_usermessages_by_realm rid st).archivedusermessages = st.archivedusermessages := rfl

@[simp] theorem restore_archived_usermessages_by_realm_archivedattachments (rid : Nat) (st : Store) :
    (restore_archived_usermessages_by_realm rid st).archivedattachments = st.archivedattachments := rfl

@[simp] theorem restore_archived_usermessages_by_realm_archivedattachment_messages (rid : Nat) (st : Store) :
    (restore_archived_usermessages_by_realm rid st).archivedattachment_messages = st.archivedattachment_messages := rfl

@[simp] theorem restore_archived_attachments_by_realm_realms (rid : Nat) (st : Store) :
    (restore_archived_attachments_by_realm rid st).realms = st.realms := rfl

@[simp] theorem restore_archived_attachments_by_realm_userprofiles (rid : Nat) (st : Store) :
    (restore_archived_attachments_by_realm rid st).userprofiles = st.userprofiles := rfl

@[simp] theorem restore_archived_attachments_by_realm_messages (rid : Nat) (st : Store) :
    (restore_archived_attachments_by_realm rid st).messages = st.messages := rfl

@[simp] theorem restore_archived_attachments_by_realm_usermessages (rid : Nat) (st : Store) :
    (restore_archived_attachments_by_realm rid st).usermessages = st.usermessages := rfl

@[simp] theorem restore_archived_attachments_by_realm_attachments (rid : Nat) (st : Store) :
    (restore_archived_attachments_by_realm rid st).attachments = st.attachments ++ (restoreAttachmentsCandidates rid st).map (·.att) := rfl

@[simp] theorem restore_archived_attachments_by_realm_attachment_messages (rid : Nat) (st : Store) :
    (restore_archived_attachments_by_realm rid st).attachment_messages = st.attachment_messages := rfl

@[simp] theorem restore_archived_attachments_by_realm_archivedmessages (rid : Nat) (st : Store) :
    (restore_archived_attachments_by_realm rid st).archivedmessages = st.archivedmessages := rfl

@[simp] theorem restore_archived_attachments_by_realm_archivedusermessages (rid : Nat) (st : Store) :
    (restore_archived_attachments_by_realm rid st).archivedusermessages = st.archivedusermessages := rfl

@[simp] theorem restore_archived_attachments_by_realm_archivedattachments (rid : Nat) (st : Store) :
    (restore_archived_attachments_by_realm rid st).archivedattachments = st.archivedattachments := rfl

@[simp] theorem restore_archived_attachments_by_realm_archivedattachment_messages (rid : Nat) (st : Store) :
    (restore_archived_attachments_by_realm rid st).archivedattachment_messages = st.archivedattachment_messages := rfl

@[simp] theorem restore_archived_attachments_message_rows_by_realm_realms (rid : Nat) (st : Store) :
    (restore_archived_attachments_message_rows_by_realm rid st).realms = st.realms := rfl

@[simp] theorem restore_archived_attachments_message_rows_by_realm_userprofiles (rid : Nat) (st : Store) :
    (restore_archived_attachments_message_rows_by_realm rid st).userprofiles = st.userprofiles := rfl

@[simp] theorem restore_archived_attachments_message_rows_by_realm_messages (rid : Nat) (st : Store) :
    (restore_archived_attachments_message_rows_by_realm rid st).messages = st.messages := rfl

@[simp] theorem restore_archived_attachments_message_rows_by_realm_usermessages (rid : Nat) (st : Store) :
    (restore_archived_attachments_message_rows_by_realm rid st).usermessages = st.usermessages := rfl

@[simp] theorem restore_archived_attachments_message_rows_by_realm_attachments (rid : Nat) (st : Store) :
    (restore_archived_attachments_message_rows_by_realm rid st).attachments = st.attachments := rfl

@[simp] theorem restore_archived_attachments_message_rows_by_realm_attachment_messages (rid : Nat) (st : Store) :
    (restore_archived_attachments_message_rows_by_realm rid st).attachment_messages = st.attachment_messages ++ (restoreLinkCandidates rid st).map fun al => ⟨al.id, al.archivedattachment_id, al.archivedmessage_id⟩ := rfl

@[simp] theorem restore_archived_attachments_message_rows_by_realm_archivedmessages (rid : Nat) (st : Store) :
    (restore_archived_attachments_message_rows_by_realm rid st).archivedmessages = st.archivedmessages := rfl

@[simp] theorem restore_archived_attachments_message_rows_by_realm_archivedusermessages (rid : Nat) (st : Store) :
    (restore_archived_attachments_message_rows_by_realm rid st).archivedusermessages = st.archivedusermessages := rfl

@[simp] theorem restore_archived_attachments_message_rows_by_realm_archivedattachments (rid : Nat) (st : Store) :
    (restore_archived_attachments_message_rows_by_realm rid st).archivedattachments = st.archivedattachments := rfl

@[simp] theorem restore_archived_attachments_message_rows_by_realm_archivedattachment_messages (rid : Nat) (st : Store) :
    (restore_archived_attachments_message_rows_by_realm rid st).archivedattachment_messages = st.archivedattachment_messages := rfl


/-! ## Characterization and congruence lemmas. -/

theorem umChainElapsed_congr {s t : Store} (now : Int) (um : UserMessage) (m : Message)
    (h1 : s.userprofiles = t.userprofiles) (h2 : s.realms = t.realms) :
    umChainElapsed s now um m = umChainElapsed t now um m := by
  unfold umChainElapsed
  rw [h1, h2]

theorem messageExpired_mono {s t : Store} (now : Int) (m : Message)
    (h0 : ∀ um : UserMessage, um ∈ s.usermessages → um ∈ t.usermessages)
    (h1 : s.userprofiles = t.userprofiles) (h2 : s.realms = t.realms)
    (h : messageExpired s now m = true) : messageExpired t now m = true := by
  unfold messageExpired at h ⊢
  rw [List.any_eq_true] at h ⊢
  obtain ⟨um, hum, hcond⟩ := h
  rw [Bool.and_eq_true] at hcond
  exact ⟨um, h0 um hum, by
    rw [Bool.and_eq_true]
    exact ⟨hcond.1, by rw [← umChainElapsed_congr now um m h1 h2]; exact hcond.2⟩⟩

theorem umEligible_mono {s t : Store} (now : Int) (um : UserMessage)
    (h0 : ∀ m : Message, m ∈ s.messages → m ∈ t.messages)
    (h1 : s.userprofiles = t.userprofiles) (h2 : s.realms = t.realms)
    (h : umEligible s now um = true) : umEligible t now um = true := by
  unfold umEligible at h ⊢
  rw [List.any_eq_true] at h ⊢
  obtain ⟨m, hm, hcond⟩ := h
  rw [Bool.and_eq_true] at hcond
  exact ⟨m, h0 m hm, by
    rw [Bool.and_eq_true]
    exact ⟨hcond.1, by rw [← umChainElapsed_congr now um m h1 h2]; exact hcond.2⟩⟩

theorem archivedMsgId_congr {s t : Store} (i : Nat)
    (h : s.archivedmessages = t.archivedmessages) : archivedMsgId s i = archivedMsgId t i := by
  unfold archivedMsgId
  rw [h]

theorem archivedUMId_congr {s t : Store} (i : Nat)
    (h : s.archivedusermessages = t.archivedusermessages) :
    archivedUMId s i = archivedUMId t i := by
  unfold archivedUMId
  rw [h]

theorem archivedAttId_congr {s t : Store} (i : Nat)
    (h : s.archivedattachments = t.archivedattachments) :
    archivedAttId s i = archivedAttId t i := by
  unfold archivedAttId
  rw [h]

theorem mem_expiredMessagesCandidates {now : Int} {st : Store} {m : Message} :
    m ∈ expiredMessagesCandidates now st ↔
      m ∈ st.messages ∧ messageExpired st now m = true ∧ archivedMsgId st m.id = false := by
  simp [expiredMessagesCandidates, List.mem_filter]

theorem mem_expiredUserMessagesCandidates {now : Int} {st : Store} {um : UserMessage} :
    um ∈ expiredUserMessagesCandidates now st ↔
      um ∈ st.usermessages ∧ umEligible st now um = true ∧ archivedUMId st um.id = false := by
  simp [expiredUserMessagesCandidates, List.mem_filter]

theorem mem_expiredAttachmentsCandidates {now : Int} {st : Store} {a : Attachment} :
    a ∈ expiredAttachmentsCandidates now st ↔
      a ∈ st.attachments ∧ attachmentEligible st now a = true ∧ archivedAttId st a.id = false := by
  simp [expiredAttachmentsCandidates, List.mem_filter]

theorem mem_expiredLinkCandidates {now : Int} {st : Store} {l : AttachmentMessage} :
    l ∈ expiredLinkCandidates now st ↔
      l ∈ st.attachment_messages ∧ linkEligible st now l = true ∧
        archivedLinkId st l.id = false := by
  simp [expiredLinkCandidates, List.mem_filter]

theorem mem_removing_messages {st : Store} {rm : Message} :
    rm ∈ removing_messages st ↔
      rm ∈ st.messages ∧ hasLiveUM st rm.id = false ∧ archivedMsgId st rm.id = true := by
  simp [removing_messages, List.mem_filter]

theorem mem_attachments_to_remove {st : Store} {ra : Attachment} :
    ra ∈ attachments_to_remove st ↔
      ra ∈ st.attachments ∧ hasLiveLink st ra.id = false ∧ archivedAttId st ra.id = true := by
  simp [attachments_to_remove, List.mem_filter]

/-- The composition the non-dry-run `archive_messages` performs. -/
theorem archive_messages_false_eq (now : Int) (st : Store) :
    (archive_messages false now st).1 =
      delete_expired_attachments (delete_expired_messages (delete_expired_user_messages
        (move_expired_attachments_message_rows_to_archive now
          (move_expired_attachments_to_archive now
            (move_expired_user_messages_to_archive now
              (move_expired_messages_to_archive now st)))))) := rfl


/-- The second copy phase sees the same live tables and the same
`zerver_archivedusermessage` anti-join target as the first. -/
theorem expiredUserMessagesCandidates_stable (now : Int) (st : Store) :
    expiredUserMessagesCandidates now (move_expired_messages_to_archive now st) =
      expiredUserMessagesCandidates now st := rfl

/-- The third copy phase sees the same live tables and the same
`zerver_archivedattachment` anti-join target as the first. -/
theorem expiredAttachmentsCandidates_stable (now : Int) (st : Store) :
    expiredAttachmentsCandidates now
      (move_expired_user_messages_to_archive now (move_expired_messages_to_archive now st)) =
      expiredAttachmentsCandidates now st := rfl

/-- The fourth copy phase sees the same live tables and the same
`zerver_archivedattachment_messages` anti-join target as the first. -/
theorem expiredLinkCandidates_stable (now : Int) (st : Store) :
    expiredLinkCandidates now
      (move_expired_attachments_to_archive now
        (move_expired_user_messages_to_archive now
          (move_expired_messages_to_archive now st))) =
      expiredLinkCandidates now st := rfl

/-- The sweep appends exactly the message candidate snapshots to the archive. -/
theorem sweep_archivedmessages (now : Int) (st : Store) :
    ((archive_messages false now st).1).archivedmessages =
      st.archivedmessages ++ (expiredMessagesCandidates now st).map (fun m => ⟨m, now⟩) := by
  rw [archive_messages_false_eq]
  simp only [delete_expired_attachments_archivedmessages,
    delete_expired_messages_archivedmessages, delete_expired_user_messages_archivedmessages,
    move_expired_attachments_message_rows_to_archive_archivedmessages,
    move_expired_attachments_to_archive_archivedmessages,
    move_expired_user_messages_to_archive_archivedmessages,
    move_expired_messages_to_archive_archivedmessages]

/-- The sweep appends exactly the delivery-record candidate snapshots. -/
theorem sweep_archivedusermessages (now : Int) (st : Store) :
    ((archive_messages false now st).1).archivedusermessages =
      st.archivedusermessages ++
        (expiredUserMessagesCandidates now st).map (fun um => ⟨um, now⟩) := by
  rw [archive_messages_false_eq]
  simp only [delete_expired_attachments_archivedusermessages,
    delete_expired_messages_archivedusermessages,
    delete_expired_user_messages_archivedusermessages,
    move_expired_attachments_message_rows_to_archive_archivedusermessages,
    move_expired_attachments_to_archive_archivedusermessages,
    move_expired_user_messages_to_archive_archivedusermessages,
    move_expired_messages_to_archive_archivedusermessages,
    expiredUserMessagesCandidates_stable]

/-- The sweep appends exactly the attachment candidate snapshots. -/
theorem sweep_archivedattachments (now : Int) (st : Store) :
    ((archive_messages false now st).1).archivedattachments =
      st.archivedattachments ++
        (expiredAttachmentsCandidates now st).map (fun a => ⟨a, now⟩) := by
  rw [archive_messages_false_eq]
  simp only [delete_expired_attachments_archivedattachments,
    delete_expired_messages_archivedattachments,
    delete_expired_user_messages_archivedattachments,
    move_expired_attachments_message_rows_to_archive_archivedattachments,
    move_expired_attachments_to_archive_archivedattachments,
    move_expired_user_messages_to_archive_archivedattachments,
    move_expired_messages_to_archive_archivedattachments,
    expiredAttachmentsCandidates_stable]

/-- The sweep appends exactly the link candidate rows. -/
theorem sweep_archivedattachment_messages (now : Int) (st : Store) :
    ((archive_messages false now st).1).archivedattachment_messages =
      st.archivedattachment_messages ++ (expiredLinkCandidates now st).map
        (fun l => ⟨l.id, l.attachment_id, l.message_id⟩) := by
  rw [archive_messages_false_eq]
  simp only [delete_expired_attachments_archivedattachment_messages,
    delete_expired_messages_archivedattachment_messages,
    delete_expired_user_messages_archivedattachment_messages,
    move_expired_attachments_message_rows_to_archive_archivedattachment_messages,
    move_expired_attachments_to_archive_archivedattachment_messages,
    move_expired_user_messages_to_archive_archivedattachment_messages,
    move_expired_messages_to_archive_archivedattachment_messages,
    expiredLinkCandidates_stable]

theorem sweep_realms (now : Int) (st : Store) :
    ((archive_messages false now st).1).realms = st.realms := by
  rw [archive_messages_false_eq]
  simp only [delete_expired_attachments_realms, delete_expired_messages_realms,
    delete_expired_user_messages_realms,
    move_expired_attachments_message_rows_to_archive_realms,
    move_expired_attachments_to_archive_realms,
    move_expired_user_messages_to_archive_realms, move_expired_messages_to_archive_realms]

theorem sweep_userprofiles (now : Int) (st : Store) :
    ((archive_messages false now st).1).userprofiles = st.userprofiles := by
  rw [archive_messages_false_eq]
  simp only [delete_expired_attachments_userprofiles, delete_expired_messages_userprofiles,
    delete_expired_user_messages_userprofiles,
    move_expired_attachments_message_rows_to_archive_userprofiles,
    move_expired_attachments_to_archive_userprofiles,
    move_expired_user_messages_to_archive_userprofiles,
    move_expired_messages_to_archive_userprofiles]

/-- A delivery record deleted by `delete_expired_user_messages` already had an
archive copy (by id). -/
theorem delete_expired_user_messages_removed {st : Store} {um : UserMessage}
    (hum : um ∈ st.usermessages)
    (h : um ∉ (delete_expired_user_messages st).usermessages) :
    archivedUMId st um.id = true := by
  rw [delete_expired_user_messages_usermessages, List.mem_filter] at h
  rcases Bool.eq_false_or_eq_true (archivedUMId st um.id) with ht | hf
  · exact ht
  · exact absurd ⟨hum, by simp [hf]⟩ h

/-- A message deleted by `delete_expired_messages` already had an archive copy
and no remaining live delivery record. -/
theorem delete_expired_messages_removed {st : Store} {m : Message}
    (hm : m ∈ st.messages) (h : m ∉ (delete_expired_messages st).messages) :
    archivedMsgId st m.id = true ∧ hasLiveUM st m.id = false := by
  rw [delete_expired_messages_messages, List.mem_filter] at h
  have hany : ((removing_messages st).any fun rm => rm.id == m.id) = true := by
    rcases Bool.eq_false_or_eq_true ((removing_messages st).any fun rm => rm.id == m.id)
      with ht | hf
    · exact ht
    · exact absurd ⟨hm, by simp [hf]⟩ h
  rw [List.any_eq_true] at hany
  obtain ⟨rm, hrm, hid⟩ := hany
  rw [beq_iff_eq] at hid
  rw [mem_removing_messages] at hrm
  rw [← hid]
  exact ⟨hrm.2.2, hrm.2.1⟩

/-- An attachment deleted by `delete_expired_attachments` already had an
archive copy and no remaining live m2m link. -/
theorem delete_expired_attachments_removed {st : Store} {a : Attachment}
    (ha : a ∈ st.attachments) (h : a ∉ (delete_expired_attachments st).attachments) :
    archivedAttId st a.id = true ∧ hasLiveLink st a.id = false := by
  rw [delete_expired_attachments_attachments, List.mem_filter] at h
  have hany : ((attachments_to_remove st).any fun ra => ra.id == a.id) = true := by
    rcases Bool.eq_false_or_eq_true ((attachments_to_remove st).any fun ra => ra.id == a.id)
      with ht | hf
    · exact ht
    · exact absurd ⟨ha, by simp [hf]⟩ h
  rw [List.any_eq_true] at hany
  obtain ⟨ra, hra, hid⟩ := hany
  rw [beq_iff_eq] at hid
  rw [mem_attachments_to_remove] at hra
  rw [← hid]
  exact ⟨hra.2.2, hra.2.1⟩


/-- After the purge chain of one sweep run, a live message either survives or
its id was archived before the purge. -/
theorem deletechain_message_live_or_archived (s : Store) (m : Message)
    (hm : m ∈ s.messages)
    (h : m ∉ (delete_expired_attachments (delete_expired_messages
      (delete_expired_user_messages s))).messages) :
    archivedMsgId s m.id = true := by
  rw [delete_expired_attachments_messages] at h
  have hm5 : m ∈ (delete_expired_user_messages s).messages := by
    rw [delete_expired_user_messages_messages]
    exact hm
  have hres := (delete_expired_messages_removed hm5 h).1
  rw [archivedMsgId_congr m.id (delete_expired_user_messages_archivedmessages s)] at hres
  exact hres

/-- After the purge chain of one sweep run, a live delivery record either
survives or its id was archived before the purge. -/
theorem deletechain_um_live_or_archived (s : Store) (um : UserMessage)
    (hum : um ∈ s.usermessages)
    (h : um ∉ (delete_expired_attachments (delete_expired_messages
      (delete_expired_user_messages s))).usermessages) :
    archivedUMId s um.id = true := by
  rw [delete_expired_attachments_usermessages] at h
  by_cases h5 : um ∈ (delete_expired_user_messages s).usermessages
  · -- the record survived the direct delete, so it was dropped by the
    -- `Message` cascade — impossible, since it is itself a live delivery
    -- record of the removed message
    exfalso
    rw [delete_expired_messages_usermessages, List.mem_filter] at h
    have hany : ((removing_messages (delete_expired_user_messages s)).any
        fun rm => rm.id == um.message_id) = true := by
      rcases Bool.eq_false_or_eq_true ((removing_messages (delete_expired_user_messages s)).any
          fun rm => rm.id == um.message_id) with ht | hf
      · exact ht
      · exact absurd ⟨h5, by simp [hf]⟩ h
    rw [List.any_eq_true] at hany
    obtain ⟨rm, hrm, hid⟩ := hany
    rw [beq_iff_eq] at hid
    rw [mem_removing_messages] at hrm
    have hlive : hasLiveUM (delete_expired_user_messages s) rm.id = true := by
      unfold hasLiveUM
      rw [List.any_eq_true]
      exact ⟨um, h5, by rw [beq_iff_eq, hid]⟩
    rw [hrm.2.1] at hlive
    exact Bool.false_ne_true hlive
  · exact delete_expired_user_messages_removed hum h5

/-- After the purge chain of one sweep run, a live attachment either survives
or its id was archived before the purge. -/
theorem deletechain_att_live_or_archived (s : Store) (a : Attachment)
    (ha : a ∈ s.attachments)
    (h : a ∉ (delete_expired_attachments (delete_expired_messages
      (delete_expired_user_messages s))).attachments) :
    archivedAttId s a.id = true := by
  have ha6 : a ∈ (delete_expired_messages (delete_expired_user_messages s)).attachments := by
    rw [delete_expired_messages_attachments, delete_expired_user_messages_attachments]
    exact ha
  have hres := (delete_expired_attachments_removed ha6 h).1
  rw [archivedAttId_congr a.id (delete_expired_messages_archivedattachments
    (delete_expired_user_messages s))] at hres
  rw [archivedAttId_congr a.id (delete_expired_user_messages_archivedattachments s)] at hres
  exact hres

/-- The live tables are untouched by the four copy phases. -/
theorem moves_messages (now : Int) (st : Store) :
    (move_expired_attachments_message_rows_to_archive now
      (move_expired_attachments_to_archive now
        (move_expired_user_messages_to_archive now
          (move_expired_messages_to_archive now st)))).messages = st.messages := by
  simp only [move_expired_attachments_message_rows_to_archive_messages,
    move_expired_attachments_to_archive_messages,
    move_expired_user_messages_to_archive_messages,
    move_expired_messages_to_archive_messages]

theorem moves_usermessages (now : Int) (st : Store) :
    (move_expired_attachments_message_rows_to_archive now
      (move_expired_attachments_to_archive now
        (move_expired_user_messages_to_archive now
          (move_expired_messages_to_archive now st)))).usermessages = st.usermessages := by
  simp only [move_expired_attachments_message_rows_to_archive_usermessages,
    move_expired_attachments_to_archive_usermessages,
    move_expired_user_messages_to_archive_usermessages,
    move_expired_messages_to_archive_usermessages]

theorem moves_attachments (now : Int) (st : Store) :
    (move_expired_attachments_message_rows_to_archive now
      (move_expired_attachments_to_archive now
        (move_expired_user_messages_to_archive now
          (move_expired_messages_to_archive now st)))).attachments = st.attachments := by
  simp only [move_expired_attachments_message_rows_to_archive_attachments,
    move_expired_attachments_to_archive_attachments,
    move_expired_user_messages_to_archive_attachments,
    move_expired_messages_to_archive_attachments]

/-- A live message either survives one sweep run or its id is archived
afterwards. -/
theorem sweep_message_live_or_archived (t : Int) (s : Store) (m : Message)
    (hm : m ∈ s.messages) :
    m ∈ ((archive_messages false t s).1).messages ∨
      archivedMsgId ((archive_messages false t s).1) m.id = true := by
  by_cases h : m ∈ ((archive_messages false t s).1).messages
  · exact Or.inl h
  · right
    rw [archive_messages_false_eq] at h
    have hm4 : m ∈ (move_expired_attachments_message_rows_to_archive t
        (move_expired_attachments_to_archive t
          (move_expired_user_messages_to_archive t
            (move_expired_messages_to_archive t s)))).messages := by
      rw [moves_messages]
      exact hm
    have hres := deletechain_message_live_or_archived _ m hm4 h
    have heq : (delete_expired_attachments (delete_expired_messages
        (delete_expired_user_messages
          (move_expired_attachments_message_rows_to_archive t
            (move_expired_attachments_to_archive t
              (move_expired_user_messages_to_archive t
                (move_expired_messages_to_archive t s))))))).archivedmessages =
        (move_expired_attachments_message_rows_to_archive t
          (move_expired_attachments_to_archive t
            (move_expired_user_messages_to_archive t
              (move_expired_messages_to_archive t s)))).archivedmessages := by
      simp only [delete_expired_attachments_archivedmessages,
        delete_expired_messages_archivedmessages,
        delete_expired_user_messages_archivedmessages]
    rw [archive_messages_false_eq, archivedMsgId_congr m.id heq]
    exact hres

/-- A live delivery record either survives one sweep run or its id is archived
afterwards. -/
theorem sweep_um_live_or_archived (t : Int) (s : Store) (um : UserMessage)
    (hum : um ∈ s.usermessages) :
    um ∈ ((archive_messages false t s).1).usermessages ∨
      archivedUMId ((archive_messages false t s).1) um.id = true := by
  by_cases h : um ∈ ((archive_messages false t s).1).usermessages
  · exact Or.inl h
  · right
    rw [archive_messages_false_eq] at h
    have hum4 : um ∈ (move_expired_attachments_message_rows_to_archive t
        (move_expired_attachments_to_archive t
          (move_expired_user_messages_to_archive t
            (move_expired_messages_to_archive t s)))).usermessages := by
      rw [moves_usermessages]
      exact hum
    have hres := deletechain_um_live_or_archived _ um hum4 h
    have heq : (delete_expired_attachments (delete_expired_messages
        (delete_expired_user_messages
          (move_expired_attachments_message_rows_to_archive t
            (move_expired_attachments_to_archive t
              (move_expired_user_messages_to_archive t
                (move_expired_messages_to_archive t s))))))).archivedusermessages =
        (move_expired_attachments_message_rows_to_archive t
          (move_expired_attachments_to_archive t
            (move_expired_user_messages_to_archive t
              (move_expired_messages_to_archive t s)))).archivedusermessages := by
      simp only [delete_expired_attachments_archivedusermessages,
        delete_expired_messages_archivedusermessages,
        delete_expired_user_messages_archivedusermessages]
    rw [archive_messages_false_eq, archivedUMId_congr um.id heq]
    exact hres

/-- A live attachment either survives one sweep run or its id is archived
afterwards. -/
theorem sweep_att_live_or_archived (t : Int) (s : Store) (a : Attachment)
    (ha : a ∈ s.attachments) :
    a ∈ ((archive_messages false t s).1).attachments ∨
      archivedAttId ((archive_messages false t s).1) a.id = true := by
  by_cases h : a ∈ ((archive_messages false t s).1).attachments
  · exact Or.inl h
  · right
    rw [archive_messages_false_eq] at h
    have ha4 : a ∈ (move_expired_attachments_message_rows_to_archive t
        (move_expired_attachments_to_archive t
          (move_expired_user_messages_to_archive t
            (move_expired_messages_to_archive t s)))).attachments := by
      rw [moves_attachments]
      exact ha
    have hres := deletechain_att_live_or_archived _ a ha4 h
    have heq : (delete_expired_attachments (delete_expired_messages
        (delete_expired_user_messages
          (move_expired_attachments_message_rows_to_archive t
            (move_expired_attachments_to_archive t
              (move_expired_user_messages_to_archive t
                (move_expired_messages_to_archive t s))))))).archivedattachments =
        (move_expired_attachments_message_rows_to_archive t
          (move_expired_attachments_to_archive t
            (move_expired_user_messages_to_archive t
              (move_expired_messages_to_archive t s)))).archivedattachments := by
      simp only [delete_expired_attachments_archivedattachments,
        delete_expired_messages_archivedattachments,
        delete_expired_user_messages_archivedattachments]
    rw [archive_messages_false_eq, archivedAttId_congr a.id heq]
    exact hres

theorem sweep_archivedMsgId_mono (t : Int) (s : Store) (i : Nat)
    (h : archivedMsgId s i = true) :
    archivedMsgId ((archive_messages false t s).1) i = true := by
  unfold archivedMsgId at h ⊢
  rw [sweep_archivedmessages, List.any_append, h, Bool.true_or]

theorem sweep_archivedUMId_mono (t : Int) (s : Store) (i : Nat)
    (h : archivedUMId s i = true) :
    archivedUMId ((archive_messages false t s).1) i = true := by
  unfold archivedUMId at h ⊢
  rw [sweep_archivedusermessages, List.any_append, h, Bool.true_or]

theorem sweep_archivedAttId_mono (t : Int) (s : Store) (i : Nat)
    (h : archivedAttId s i = true) :
    archivedAttId ((archive_messages false t s).1) i = true := by
  unfold archivedAttId at h ⊢
  rw [sweep_archivedattachments, List.any_append, h, Bool.true_or]

/-- A finite sequence of non-dry-run `archive_messages` runs at the given
current times. -/
def sweepSeq (ts : List Int) (st : Store) : Store :=
  ts.foldl (fun s t => (archive_messages false t s).1) st

theorem sweepSeq_nil (st : Store) : sweepSeq [] st = st := by
  unfold sweepSeq
  rw [List.foldl_nil]

theorem sweepSeq_cons (t : Int) (ts : List Int) (st : Store) :
    sweepSeq (t :: ts) st = sweepSeq ts ((archive_messages false t st).1) := by
  unfold sweepSeq
  rw [List.foldl_cons]

theorem sweepSeq_archivedMsgId_mono (ts : List Int) (s : Store) (i : Nat)
    (h : archivedMsgId s i = true) : archivedMsgId (sweepSeq ts s) i = true := by
  induction ts generalizing s with
  | nil => exact h
  | cons t ts ih =>
    rw [sweepSeq_cons]
    exact ih _ (sweep_archivedMsgId_mono t s i h)

theorem sweepSeq_archivedUMId_mono (ts : List Int) (s : Store) (i : Nat)
    (h : archivedUMId s i = true) : archivedUMId (sweepSeq ts s) i = true := by
  induction ts generalizing s with
  | nil => exact h
  | cons t ts ih =>
    rw [sweepSeq_cons]
    exact ih _ (sweep_archivedUMId_mono t s i h)

theorem sweepSeq_archivedAttId_mono (ts : List Int) (s : Store) (i : Nat)
    (h : archivedAttId s i = true) : archivedAttId (sweepSeq ts s) i = true := by
  induction ts generalizing s with
  | nil => exact h
  | cons t ts ih =>
    rw [sweepSeq_cons]
    exact ih _ (sweep_archivedAttId_mono t s i h)


/-! ## Claims. -/

/-- Witness stores for the purge-gating claim. -/
def storeUMPurge : Store :=
  { realms := [⟨1, some 10⟩], userprofiles := [⟨1, 1⟩]
  , messages := [⟨1, 1, 0⟩], usermessages := [⟨1, 1, 1⟩]
  , attachments := [], attachment_messages := []
  , archivedmessages := [], archivedusermessages := [⟨⟨1, 1, 1⟩, 50⟩]
  , archivedattachments := [], archivedattachment_messages := [] }

def storeMsgPurge : Store :=
  { realms := [⟨1, some 10⟩], userprofiles := [⟨1, 1⟩]
  , messages := [⟨1, 1, 0⟩], usermessages := []
  , attachments := [], attachment_messages := []
  , archivedmessages := [⟨⟨1, 1, 0⟩, 50⟩], archivedusermessages := []
  , archivedattachments := [], archivedattachment_messages := [] }

def storeAttPurge : Store :=
  { realms := [⟨1, some 10⟩], userprofiles := [⟨1, 1⟩]
  , messages := [], usermessages := []
  , attachments := [⟨1, 7⟩], attachment_messages := []
  , archivedmessages := [], archivedusermessages := []
  , archivedattachments := [⟨⟨1, 7⟩, 50⟩], archivedattachment_messages := [] }

/-- C2: every purge of a live row is gated on its archive copy:
`delete_expired_messages`, `delete_expired_user_messages` and
`delete_expired_attachments` only delete live rows whose id already exists in
the corresponding archive table, `delete_expired_messages` deletes a message
only when additionally no live delivery record for it remains (and
`delete_expired_attachments` only when no live m2m link remains); hence after
any sequence of sweep runs, a live row of any of the three kinds is either
still live or its id is in the corresponding archive table of the final
state — it is never purged before its archive copy exists. -/
theorem c2_live_purge_gated_on_archive :
    (∀ (st : Store) (um : UserMessage), um ∈ st.usermessages →
      um ∉ (delete_expired_user_messages st).usermessages →
      archivedUMId st um.id = true) ∧
    (∀ (st : Store) (m : Message), m ∈ st.messages →
      m ∉ (delete_expired_messages st).messages →
      archivedMsgId st m.id = true ∧ hasLiveUM st m.id = false) ∧
    (∀ (st : Store) (a : Attachment), a ∈ st.attachments →
      a ∉ (delete_expired_attachments st).attachments →
      archivedAttId st a.id = true ∧ hasLiveLink st a.id = false) ∧
    (∀ (ts : List Int) (st : Store),
      (∀ m : Message, m ∈ st.messages →
        m ∈ (sweepSeq ts st).messages ∨ archivedMsgId (sweepSeq ts st) m.id = true) ∧
      (∀ um : UserMessage, um ∈ st.usermessages →
        um ∈ (sweepSeq ts st).usermessages ∨ archivedUMId (sweepSeq ts st) um.id = true) ∧
      (∀ a : Attachment, a ∈ st.attachments →
        a ∈ (sweepSeq ts st).attachments ∨ archivedAttId (sweepSeq ts st) a.id = true)) := by
  refine ⟨fun st um hum h => delete_expired_user_messages_removed hum h,
    fun st m hm h => delete_expired_messages_removed hm h,
    fun st a ha h => delete_expired_attachments_removed ha h,
    fun ts => ?_⟩
  induction ts with
  | nil => exact fun st => ⟨fun m hm => by rw [sweepSeq_nil]; exact Or.inl hm,
      fun um hum => by rw [sweepSeq_nil]; exact Or.inl hum,
      fun a ha => by rw [sweepSeq_nil]; exact Or.inl ha⟩
  | cons t ts ih =>
    intro st
    refine ⟨fun m hm => ?_, fun um hum => ?_, fun a ha => ?_⟩
    · rw [sweepSeq_cons]
      rcases sweep_message_live_or_archived t st m hm with h | h
      · exact (ih _).1 m h
      · exact Or.inr (sweepSeq_archivedMsgId_mono ts _ m.id h)
    · rw [sweepSeq_cons]
      rcases sweep_um_live_or_archived t st um hum with h | h
      · exact (ih _).2.1 um h
      · exact Or.inr (sweepSeq_archivedUMId_mono ts _ um.id h)
    · rw [sweepSeq_cons]
      rcases sweep_att_live_or_archived t st a ha with h | h
      · exact (ih _).2.2 a h
      · exact Or.inr (sweepSeq_archivedAttId_mono ts _ a.id h)

/-- Witness for C2 at concrete inputs: a delivery record, a message and an
attachment that the purge functions each delete, and a message surviving a
concrete sweep sequence in archived form. -/
theorem c2_witness :
    archivedUMId storeUMPurge 1 = true ∧
    (archivedMsgId storeMsgPurge 1 = true ∧ hasLiveUM storeMsgPurge 1 = false) ∧
    (archivedAttId storeAttPurge 1 = true ∧ hasLiveLink storeAttPurge 1 = false) ∧
    ((⟨1, 1, 0⟩ : Message) ∈ (sweepSeq [100] storeMsgPurge).messages ∨
      archivedMsgId (sweepSeq [100] storeMsgPurge) 1 = true) :=
  ⟨c2_live_purge_gated_on_archive.1 storeUMPurge ⟨1, 1, 1⟩ (List.Mem.head _)
      (by rw [show (delete_expired_user_messages storeUMPurge).usermessages =
          ([] : List UserMessage) from rfl]; exact List.not_mem_nil _),
   c2_live_purge_gated_on_archive.2.1 storeMsgPurge ⟨1, 1, 0⟩ (List.Mem.head _)
      (by rw [show (delete_expired_messages storeMsgPurge).messages =
          ([] : List Message) from rfl]; exact List.not_mem_nil _),
   c2_live_purge_gated_on_archive.2.2.1 storeAttPurge ⟨1, 7⟩ (List.Mem.head _)
      (by rw [show (delete_expired_attachments storeAttPurge).attachments =
          ([] : List Attachment) from rfl]; exact List.not_mem_nil _),
   (c2_live_purge_gated_on_archive.2.2.2 [100] storeMsgPurge).1 ⟨1, 1, 0⟩ (List.Mem.head _)⟩


/-- If every delivery-record chain that resolves for message `m` ends in a
realm whose retention has not elapsed for `m`, the message is not expired. -/
theorem messageExpired_eq_false (st : Store) (now : Int) (m : Message)
    (hall : ∀ um' ∈ st.usermessages, um'.message_id = m.id →
      ∀ up' ∈ st.userprofiles, up'.id = um'.user_profile_id →
        ∀ r' ∈ st.realms, r'.id = up'.realm_id → retentionElapsed r' now m = false) :
    messageExpired st now m = false := by
  rcases Bool.eq_false_or_eq_true (messageExpired st now m) with ht | hf
  swap
  · exact hf
  · exfalso
    unfold messageExpired at ht
    rw [List.any_eq_true] at ht
    obtain ⟨um', hum', hc⟩ := ht
    rw [Bool.and_eq_true, beq_iff_eq] at hc
    obtain ⟨hmid, hchain⟩ := hc
    unfold umChainElapsed at hchain
    rw [List.any_eq_true] at hchain
    obtain ⟨up', hup', hc2⟩ := hchain
    rw [Bool.and_eq_true, beq_iff_eq] at hc2
    obtain ⟨hupid, hc3⟩ := hc2
    rw [List.any_eq_true] at hc3
    obtain ⟨r', hr', hc4⟩ := hc3
    rw [Bool.and_eq_true, beq_iff_eq] at hc4
    obtain ⟨hrid, helapsed⟩ := hc4
    rw [hall um' hum' hmid up' hup' hupid r' hr' hrid] at helapsed
    exact Bool.false_ne_true helapsed

/-- If some delivery-record chain resolves for message `m` to a realm whose
retention has elapsed, the message is expired. -/
theorem messageExpired_eq_true (st : Store) (now : Int) (m : Message)
    (um : UserMessage) (hum : um ∈ st.usermessages) (humm : um.message_id = m.id)
    (up : UserProfile) (hup : up ∈ st.userprofiles) (hupid : up.id = um.user_profile_id)
    (r : Realm) (hr : r ∈ st.realms) (hrid : r.id = up.realm_id)
    (helapsed : retentionElapsed r now m = true) :
    messageExpired st now m = true := by
  unfold messageExpired
  rw [List.any_eq_true]
  refine ⟨um, hum, ?_⟩
  rw [Bool.and_eq_true, beq_iff_eq]
  refine ⟨humm, ?_⟩
  unfold umChainElapsed
  rw [List.any_eq_true]
  refine ⟨up, hup, ?_⟩
  rw [Bool.and_eq_true, beq_iff_eq]
  refine ⟨hupid, ?_⟩
  rw [List.any_eq_true]
  exact ⟨r, hr, by rw [Bool.and_eq_true, beq_iff_eq]; exact ⟨hrid, helapsed⟩⟩

/-- A message whose snapshot is never in the archive and which is not expired
is still absent from the archive after a sweep run. -/
theorem sweep_not_archived (now : Int) (st : Store) (m : Message)
    (hnot : ∀ ts : Int, (⟨m, ts⟩ : ArchivedMessage) ∉ st.archivedmessages)
    (hexp : messageExpired st now m = false) :
    ∀ ts : Int, (⟨m, ts⟩ : ArchivedMessage) ∉
      ((archive_messages false now st).1).archivedmessages := by
  intro ts hmem
  rw [sweep_archivedmessages, List.mem_append] at hmem
  rcases hmem with h | h
  · exact hnot ts h
  · rw [List.mem_map] at h
    obtain ⟨m', hm', heq⟩ := h
    have hm2 : m' = m := congrArg ArchivedMessage.msg heq
    rw [mem_expiredMessagesCandidates] at hm'
    rw [hm2, hexp] at hm'
    exact Bool.false_ne_true hm'.2.1

/-- C9: eligibility boundary.  For a tenant with `retention_days = R` (`R ≥ 1`)
and current time `now`: a live message dated `now − (R+1)` with a delivery
record in that tenant and no archive copy yet is selected and archived by the
sweep; a message dated `now − (R−1)` all of whose delivery-record chains
resolve to retention `R` is not selected; and a message all of whose
delivery-record chains resolve to realms with unset retention is never
selected. -/
theorem c9_eligibility_boundary (st : Store) (now : Int) (R : Nat) (_hR : 1 ≤ R)
    (r : Realm) (hr : r ∈ st.realms) (hrd : r.message_retention_days = some R)
    (up : UserProfile) (hup : up ∈ st.userprofiles) (hupr : up.realm_id = r.id)
    (m : Message) (hm : m ∈ st.messages) (hage : m.pub_date = now - (R + 1 : Nat))
    (um : UserMessage) (hum : um ∈ st.usermessages)
    (humm : um.message_id = m.id) (humu : um.user_profile_id = up.id)
    (hnotarch : archivedMsgId st m.id = false)
    (m2 : Message) (hage2 : m2.pub_date = now - ((R : Int) - 1))
    (hall2 : ∀ um' ∈ st.usermessages, um'.message_id = m2.id →
      ∀ up' ∈ st.userprofiles, up'.id = um'.user_profile_id →
        ∀ r' ∈ st.realms, r'.id = up'.realm_id → r'.message_retention_days = some R)
    (hnot2 : ∀ ts : Int, (⟨m2, ts⟩ : ArchivedMessage) ∉ st.archivedmessages)
    (m3 : Message)
    (hall3 : ∀ um' ∈ st.usermessages, um'.message_id = m3.id →
      ∀ up' ∈ st.userprofiles, up'.id = um'.user_profile_id →
        ∀ r' ∈ st.realms, r'.id = up'.realm_id → r'.message_retention_days = none)
    (hnot3 : ∀ ts : Int, (⟨m3, ts⟩ : ArchivedMessage) ∉ st.archivedmessages) :
    (⟨m, now⟩ : ArchivedMessage) ∈ ((archive_messages false now st).1).archivedmessages ∧
    (∀ ts : Int, (⟨m2, ts⟩ : ArchivedMessage) ∉
      ((archive_messages false now st).1).archivedmessages) ∧
    (∀ ts : Int, (⟨m3, ts⟩ : ArchivedMessage) ∉
      ((archive_messages false now st).1).archivedmessages) := by
  refine ⟨?_, ?_, ?_⟩
  · rw [sweep_archivedmessages, List.mem_append, List.mem_map]
    refine Or.inr ⟨m, ?_, rfl⟩
    rw [mem_expiredMessagesCandidates]
    refine ⟨hm, ?_, hnotarch⟩
    refine messageExpired_eq_true st now m um hum humm up hup humu.symm r hr hupr.symm ?_
    unfold retentionElapsed
    rw [hrd, hage]
    simp only [decide_eq_true_eq]
    push_cast
    omega
  · refine sweep_not_archived now st m2 hnot2 ?_
    refine messageExpired_eq_false st now m2 ?_
    intro um' hum' hmid up' hup' hupid r' hr' hrid
    unfold retentionElapsed
    rw [hall2 um' hum' hmid up' hup' hupid r' hr' hrid]
    simp only [hage2, decide_eq_false_iff_not]
    omega
  · refine sweep_not_archived now st m3 hnot3 ?_
    refine messageExpired_eq_false st now m3 ?_
    intro um' hum' hmid up' hup' hupid r' hr' hrid
    unfold retentionElapsed
    rw [hall3 um' hum' hmid up' hup' hupid r' hr' hrid]

/-- Concrete store for the eligibility-boundary witness: realm 1 has
`retention_days = 30`; message 1 is 31 days old, message 2 is 29 days old,
message 3 is old but visible only in realm 2, which has no retention. -/
def storeBoundary : Store :=
  { realms := [⟨1, some 30⟩, ⟨2, none⟩]
  , userprofiles := [⟨1, 1⟩, ⟨2, 2⟩]
  , messages := [⟨1, 1, 69⟩, ⟨2, 1, 71⟩, ⟨3, 1, 0⟩]
  , usermessages := [⟨1, 1, 1⟩, ⟨2, 1, 2⟩, ⟨3, 2, 3⟩]
  , attachments := [], attachment_messages := []
  , archivedmessages := [], archivedusermessages := []
  , archivedattachments := [], archivedattachment_messages := [] }

/-- Witness for C9 at `now = 100`, `R = 30` on `storeBoundary`. -/
theorem c9_witness :
    (⟨⟨1, 1, 69⟩, 100⟩ : ArchivedMessage) ∈
      ((archive_messages false 100 storeBoundary).1).archivedmessages ∧
    (∀ ts : Int, (⟨⟨2, 1, 71⟩, ts⟩ : ArchivedMessage) ∉
      ((archive_messages false 100 storeBoundary).1).archivedmessages) ∧
    (∀ ts : Int, (⟨⟨3, 1, 0⟩, ts⟩ : ArchivedMessage) ∉
      ((archive_messages false 100 storeBoundary).1).archivedmessages) :=
  c9_eligibility_boundary storeBoundary 100 30 (by decide)
    ⟨1, some 30⟩ (List.Mem.head _) rfl
    ⟨1, 1⟩ (List.Mem.head _) rfl
    ⟨1, 1, 69⟩ (List.Mem.head _) (by decide)
    ⟨1, 1, 1⟩ (List.Mem.head _) rfl rfl
    (by decide)
    ⟨2, 1, 71⟩ (by decide)
    (by decide)
    (fun ts => List.not_mem_nil _)
    ⟨3, 1, 0⟩
    (by decide)
    (fun ts => List.not_mem_nil _)


theorem retentionElapsed_iff (r : Realm) (now : Int) (m : Message) :
    retentionElapsed r now m = true ↔
      ∃ d : Nat, r.message_retention_days = some d ∧ (d : Int) ≤ now - m.pub_date := by
  cases h : r.message_retention_days with
  | none => simp [retentionElapsed, h]
  | some d => simp [retentionElapsed, h]

/-- A message is expired exactly when one of its delivery records belongs to a
user whose realm has a configured retention window the message's age meets or
exceeds.  The sender column is not consulted. -/
theorem messageExpired_iff (st : Store) (now : Int) (m : Message) :
    messageExpired st now m = true ↔
      ∃ um ∈ st.usermessages, um.message_id = m.id ∧
        ∃ up ∈ st.userprofiles, up.id = um.user_profile_id ∧
          ∃ r ∈ st.realms, r.id = up.realm_id ∧
            ∃ d : Nat, r.message_retention_days = some d ∧ (d : Int) ≤ now - m.pub_date := by
  simp [messageExpired, umChainElapsed, List.any_eq_true, retentionElapsed_iff]

theorem moves_attachment_messages (now : Int) (st : Store) :
    (move_expired_attachments_message_rows_to_archive now
      (move_expired_attachments_to_archive now
        (move_expired_user_messages_to_archive now
          (move_expired_messages_to_archive now st)))).attachment_messages =
      st.attachment_messages := by
  simp only [move_expired_attachments_message_rows_to_archive_attachment_messages,
    move_expired_attachments_to_archive_attachment_messages,
    move_expired_user_messages_to_archive_attachment_messages,
    move_expired_messages_to_archive_attachment_messages]

theorem moves_archivedmessages (now : Int) (st : Store) :
    (move_expired_attachments_message_rows_to_archive now
      (move_expired_attachments_to_archive now
        (move_expired_user_messages_to_archive now
          (move_expired_messages_to_archive now st)))).archivedmessages =
      st.archivedmessages ++ (expiredMessagesCandidates now st).map (fun m => ⟨m, now⟩) := by
  simp only [move_expired_attachments_message_rows_to_archive_archivedmessages,
    move_expired_attachments_to_archive_archivedmessages,
    move_expired_user_messages_to_archive_archivedmessages,
    move_expired_messages_to_archive_archivedmessages]

theorem moves_archivedusermessages (now : Int) (st : Store) :
    (move_expired_attachments_message_rows_to_archive now
      (move_expired_attachments_to_archive now
        (move_expired_user_messages_to_archive now
          (move_expired_messages_to_archive now st)))).archivedusermessages =
      st.archivedusermessages ++
        (expiredUserMessagesCandidates now st).map (fun um => ⟨um, now⟩) := by
  simp only [move_expired_attachments_message_rows_to_archive_archivedusermessages,
    move_expired_attachments_to_archive_archivedusermessages,
    move_expired_user_messages_to_archive_archivedusermessages,
    move_expired_messages_to_archive_archivedusermessages,
    expiredUserMessagesCandidates_stable]

theorem moves_archivedattachments (now : Int) (st : Store) :
    (move_expired_attachments_message_rows_to_archive now
      (move_expired_attachments_to_archive now
        (move_expired_user_messages_to_archive now
          (move_expired_messages_to_archive now st)))).archivedattachments =
      st.archivedattachments ++
        (expiredAttachmentsCandidates now st).map (fun a => ⟨a, now⟩) := by
  simp only [move_expired_attachments_message_rows_to_archive_archivedattachments,
    move_expired_attachments_to_archive_archivedattachments,
    move_expired_user_messages_to_archive_archivedattachments,
    move_expired_messages_to_archive_archivedattachments,
    expiredAttachmentsCandidates_stable]

theorem moves_archivedattachment_messages (now : Int) (st : Store) :
    (move_expired_attachments_message_rows_to_archive now
      (move_expired_attachments_to_archive now
        (move_expired_user_messages_to_archive now
          (move_expired_messages_to_archive now st)))).archivedattachment_messages =
      st.archivedattachment_messages ++ (expiredLinkCandidates now st).map
        (fun l => ⟨l.id, l.attachment_id, l.message_id⟩) := by
  simp only [move_expired_attachments_message_rows_to_archive_archivedattachment_messages,
    move_expired_attachments_to_archive_archivedattachment_messages,
    move_expired_user_messages_to_archive_archivedattachment_messages,
    move_expired_messages_to_archive_archivedattachment_messages,
    expiredLinkCandidates_stable]


/-- If a removed message is involved, no surviving delivery record references
its id after the purge chain. -/
theorem deletechain_removed_message_no_um (s : Store) (m : Message)
    (hm : m ∈ s.messages)
    (h : m ∉ (delete_expired_attachments (delete_expired_messages
      (delete_expired_user_messages s))).messages) :
    ∀ um ∈ (delete_expired_attachments (delete_expired_messages
      (delete_expired_user_messages s))).usermessages, um.message_id ≠ m.id := by
  rw [delete_expired_attachments_messages] at h
  have hm5 : m ∈ (delete_expired_user_messages s).messages := by
    rw [delete_expired_user_messages_messages]
    exact hm
  rw [delete_expired_messages_messages, List.mem_filter] at h
  have hany : ((removing_messages (delete_expired_user_messages s)).any
      fun rm => rm.id == m.id) = true := by
    rcases Bool.eq_false_or_eq_true ((removing_messages (delete_expired_user_messages s)).any
        fun rm => rm.id == m.id) with ht | hf
    · exact ht
    · exact absurd ⟨hm5, by simp [hf]⟩ h
  rw [List.any_eq_true] at hany
  obtain ⟨rm, hrm, hid⟩ := hany
  rw [beq_iff_eq] at hid
  intro um hum hmid
  rw [delete_expired_attachments_usermessages, delete_expired_messages_usermessages,
    List.mem_filter] at hum
  have hkeep := hum.2
  rw [Bool.not_eq_true'] at hkeep
  have : ((removing_messages (delete_expired_user_messages s)).any
      fun rm' => rm'.id == um.message_id) = true := by
    rw [List.any_eq_true]
    exact ⟨rm, hrm, by rw [beq_iff_eq, hid, hmid]⟩
  rw [hkeep] at this
  exact Bool.false_ne_true this

/-- A live message with a live delivery record whose id is not archived after
the copy phases survives the purge chain, together with that record. -/
theorem deletechain_message_with_live_um_survives (s : Store) (m : Message)
    (hm : m ∈ s.messages)
    (huniq : ∀ m' ∈ s.messages, m'.id = m.id → m' = m)
    (um : UserMessage) (hum : um ∈ s.usermessages) (hmid : um.message_id = m.id)
    (harch : archivedUMId s um.id = false) :
    m ∈ (delete_expired_attachments (delete_expired_messages
      (delete_expired_user_messages s))).messages ∧
    um ∈ (delete_expired_attachments (delete_expired_messages
      (delete_expired_user_messages s))).usermessages := by
  have hum5 : um ∈ (delete_expired_user_messages s).usermessages := by
    rw [delete_expired_user_messages_usermessages, List.mem_filter]
    exact ⟨hum, by rw [harch]; rfl⟩
  have hnorm : ∀ rm ∈ removing_messages (delete_expired_user_messages s), rm.id ≠ m.id := by
    intro rm hrm hid
    rw [mem_removing_messages] at hrm
    have hrmm : rm ∈ s.messages := by
      rw [delete_expired_user_messages_messages] at hrm
      exact hrm.1
    have hrmeq : rm = m := huniq rm hrmm hid
    have hlive : hasLiveUM (delete_expired_user_messages s) rm.id = true := by
      unfold hasLiveUM
      rw [List.any_eq_true]
      exact ⟨um, hum5, by rw [beq_iff_eq, hid, hmid]⟩
    rw [hrm.2.1] at hlive
    exact Bool.false_ne_true hlive
  have hanyf : ∀ i : Nat, i = m.id →
      ((removing_messages (delete_expired_user_messages s)).any
        fun rm => rm.id == i) = false := by
    intro i hieq
    rcases Bool.eq_false_or_eq_true ((removing_messages (delete_expired_user_messages s)).any
        fun rm => rm.id == i) with ht | hf
    · exfalso
      rw [List.any_eq_true] at ht
      obtain ⟨rm, hrm, hid⟩ := ht
      rw [beq_iff_eq, hieq] at hid
      exact hnorm rm hrm hid
    · exact hf
  constructor
  · rw [delete_expired_attachments_messages, delete_expired_messages_messages,
      List.mem_filter]
    refine ⟨by rw [delete_expired_user_messages_messages]; exact hm, ?_⟩
    rw [hanyf m.id rfl]
    rfl
  · rw [delete_expired_attachments_usermessages, delete_expired_messages_usermessages,
      List.mem_filter]
    refine ⟨hum5, ?_⟩
    rw [hanyf um.message_id hmid]
    rfl

/-- C10: the cross-tenant eligibility policy the code implements.  (i) A
message snapshot is added to the archive by a sweep exactly when the message
is live, not yet archived by id, and at least one of its delivery records
belongs to a user whose realm has a configured retention window the message's
age meets or exceeds — only delivery-record chains are consulted, never the
sender's realm.  (ii) When a sweep deletes a live message, no live delivery
record for it remains afterwards.  (iii) A message expired for one recipient
tenant but with a delivery record that is not eligible and not archived stays
live together with that delivery record, while its snapshot is copied to the
archive. -/
theorem c10_cross_tenant_policy :
    (∀ (now : Int) (st : Store) (m : Message),
      (⟨m, now⟩ : ArchivedMessage) ∈ ((archive_messages false now st).1).archivedmessages ↔
        (⟨m, now⟩ : ArchivedMessage) ∈ st.archivedmessages ∨
          (m ∈ st.messages ∧
            (∃ um ∈ st.usermessages, um.message_id = m.id ∧
              ∃ up ∈ st.userprofiles, up.id = um.user_profile_id ∧
                ∃ r ∈ st.realms, r.id = up.realm_id ∧
                  ∃ d : Nat, r.message_retention_days = some d ∧
                    (d : Int) ≤ now - m.pub_date) ∧
            archivedMsgId st m.id = false)) ∧
    (∀ (now : Int) (st : Store) (m : Message), m ∈ st.messages →
      m ∉ ((archive_messages false now st).1).messages →
      ∀ um ∈ ((archive_messages false now st).1).usermessages, um.message_id ≠ m.id) ∧
    (∀ (now : Int) (st : Store) (m : Message), m ∈ st.messages →
      (∀ m' ∈ st.messages, m'.id = m.id → m' = m) →
      archivedMsgId st m.id = false →
      ∀ um1 ∈ st.usermessages, um1.message_id = m.id →
      umEligible st now um1 = true →
      ∀ um2 ∈ st.usermessages, um2.message_id = m.id →
      umEligible st now um2 = false →
      archivedUMId st um2.id = false →
      (∀ um' ∈ st.usermessages, um'.id = um2.id → um' = um2) →
      (⟨m, now⟩ : ArchivedMessage) ∈ ((archive_messages false now st).1).archivedmessages ∧
        m ∈ ((archive_messages false now st).1).messages ∧
        um2 ∈ ((archive_messages false now st).1).usermessages) := by
  refine ⟨?_, ?_, ?_⟩
  · intro now st m
    rw [sweep_archivedmessages, List.mem_append]
    apply or_congr Iff.rfl
    rw [List.mem_map]
    constructor
    · rintro ⟨m', hm', heq⟩
      have hmm : m' = m := congrArg ArchivedMessage.msg heq
      subst hmm
      rw [mem_expiredMessagesCandidates] at hm'
      exact ⟨hm'.1, (messageExpired_iff st now m').mp hm'.2.1, hm'.2.2⟩
    · rintro ⟨hmem, hex, hnarch⟩
      refine ⟨m, ?_, rfl⟩
      rw [mem_expiredMessagesCandidates]
      exact ⟨hmem, (messageExpired_iff st now m).mpr hex, hnarch⟩
  · intro now st m hm hnot
    rw [archive_messages_false_eq] at hnot ⊢
    have hm4 : m ∈ (move_expired_attachments_message_rows_to_archive now
        (move_expired_attachments_to_archive now
          (move_expired_user_messages_to_archive now
            (move_expired_messages_to_archive now st)))).messages := by
      rw [moves_messages]
      exact hm
    exact deletechain_removed_message_no_um _ m hm4 hnot
  · intro now st m hm hmuniq hnotarchm um1 hum1 h1mid helig1 um2 hum2 h2mid helig2
      harchum2 hum2uniq
    have humElig : umEligible st now um1 = true := helig1
    -- expiry of m via um1's chain
    have hexp : messageExpired st now m = true := by
      unfold umEligible at humElig
      rw [List.any_eq_true] at humElig
      obtain ⟨m', hm', hc⟩ := humElig
      rw [Bool.and_eq_true, beq_iff_eq] at hc
      unfold messageExpired
      rw [List.any_eq_true]
      refine ⟨um1, hum1, ?_⟩
      rw [Bool.and_eq_true, beq_iff_eq]
      refine ⟨h1mid, ?_⟩
      have : m' = m := hmuniq m' hm' (by rw [hc.1, h1mid])
      rw [← this]
      exact hc.2
    refine ⟨?_, ?_⟩
    · rw [sweep_archivedmessages, List.mem_append, List.mem_map]
      refine Or.inr ⟨m, ?_, rfl⟩
      rw [mem_expiredMessagesCandidates]
      exact ⟨hm, hexp, hnotarchm⟩
    · -- um2 is not an archive candidate, so it survives, and with it m
      have harch4 : archivedUMId (move_expired_attachments_message_rows_to_archive now
          (move_expired_attachments_to_archive now
            (move_expired_user_messages_to_archive now
              (move_expired_messages_to_archive now st)))) um2.id = false := by
        unfold archivedUMId
        rw [moves_archivedusermessages, List.any_append]
        have h1 : (st.archivedusermessages.any fun aum => aum.um.id == um2.id) = false :=
          harchum2
        rw [h1, Bool.false_or]
        rcases Bool.eq_false_or_eq_true
            (((expiredUserMessagesCandidates now st).map
              (fun um => (⟨um, now⟩ : ArchivedUserMessage))).any
              fun aum => aum.um.id == um2.id) with ht | hf
        · exfalso
          rw [List.any_eq_true] at ht
          obtain ⟨aum, haum, hid⟩ := ht
          rw [List.mem_map] at haum
          obtain ⟨um', hum', heq⟩ := haum
          rw [← heq, beq_iff_eq] at hid
          rw [mem_expiredUserMessagesCandidates] at hum'
          have heq2 : um' = um2 := hum2uniq um' hum'.1 hid
          rw [heq2, helig2] at hum'
          exact Bool.false_ne_true hum'.2.1
        · exact hf
      have hm4 : m ∈ (move_expired_attachments_message_rows_to_archive now
          (move_expired_attachments_to_archive now
            (move_expired_user_messages_to_archive now
              (move_expired_messages_to_archive now st)))).messages := by
        rw [moves_messages]
        exact hm
      have huniq4 : ∀ m' ∈ (move_expired_attachments_message_rows_to_archive now
          (move_expired_attachments_to_archive now
            (move_expired_user_messages_to_archive now
              (move_expired_messages_to_archive now st)))).messages, m'.id = m.id → m' = m := by
        rw [moves_messages]
        exact hmuniq
      have hum4 : um2 ∈ (move_expired_attachments_message_rows_to_archive now
          (move_expired_attachments_to_archive now
            (move_expired_user_messages_to_archive now
              (move_expired_messages_to_archive now st)))).usermessages := by
        rw [moves_usermessages]
        exact hum2
      have := deletechain_message_with_live_um_survives _ m hm4 huniq4 um2 hum4 h2mid harch4
      rw [archive_messages_false_eq]
      exact this

/-- Concrete store for the cross-tenant witness: realm 1 (retention 30) and
realm 2 (retention 100); message 1 is 50 days old with a delivery record in
each realm, so it is expired for realm 1 only. -/
def storeCrossTenant : Store :=
  { realms := [⟨1, some 30⟩, ⟨2, some 100⟩]
  , userprofiles := [⟨1, 1⟩, ⟨2, 2⟩]
  , messages := [⟨1, 1, 50⟩]
  , usermessages := [⟨1, 1, 1⟩, ⟨2, 2, 1⟩]
  , attachments := [], attachment_messages := []
  , archivedmessages := [], archivedusermessages := []
  , archivedattachments := [], archivedattachment_messages := [] }

/-- Witness for C10 at `now = 100` on `storeCrossTenant`: message 1 (expired
for realm 1 only) is copied to the archive while its live row and realm 2's
delivery record stay live. -/
theorem c10_witness :
    (⟨⟨1, 1, 50⟩, 100⟩ : ArchivedMessage) ∈
      ((archive_messages false 100 storeCrossTenant).1).archivedmessages ∧
    (⟨1, 1, 50⟩ : Message) ∈ ((archive_messages false 100 storeCrossTenant).1).messages ∧
    (⟨2, 2, 1⟩ : UserMessage) ∈
      ((archive_messages false 100 storeCrossTenant).1).usermessages :=
  c10_cross_tenant_policy.2.2 100 storeCrossTenant ⟨1, 1, 50⟩ (List.Mem.head _)
    (by decide) (by decide)
    ⟨1, 1, 1⟩ (List.Mem.head _) (by decide) (by decide)
    ⟨2, 2, 1⟩ (by decide) (by decide) (by decide) (by decide) (by decide)


/-- If a sweep's purge chain removed an attachment, no surviving m2m link
references it. -/
theorem deletechain_removed_attachment_no_link (s : Store) (a : Attachment)
    (ha : a ∈ s.attachments)
    (h : a ∉ (delete_expired_attachments (delete_expired_messages
      (delete_expired_user_messages s))).attachments) :
    ∀ l ∈ (delete_expired_attachments (delete_expired_messages
      (delete_expired_user_messages s))).attachment_messages, l.attachment_id ≠ a.id := by
  have ha6 : a ∈ (delete_expired_messages (delete_expired_user_messages s)).attachments := by
    rw [delete_expired_messages_attachments, delete_expired_user_messages_attachments]
    exact ha
  rw [delete_expired_attachments_attachments, List.mem_filter] at h
  have hany : ((attachments_to_remove (delete_expired_messages
      (delete_expired_user_messages s))).any fun ra => ra.id == a.id) = true := by
    rcases Bool.eq_false_or_eq_true ((attachments_to_remove (delete_expired_messages
        (delete_expired_user_messages s))).any fun ra => ra.id == a.id) with ht | hf
    · exact ht
    · exact absurd ⟨ha6, by simp [hf]⟩ h
  rw [List.any_eq_true] at hany
  obtain ⟨ra, hra, hid⟩ := hany
  rw [beq_iff_eq] at hid
  rw [mem_attachments_to_remove] at hra
  intro l hl hla
  rw [delete_expired_attachments_attachment_messages, List.mem_filter] at hl
  have hlive : hasLiveLink (delete_expired_messages (delete_expired_user_messages s))
      ra.id = true := by
    unfold hasLiveLink
    rw [List.any_eq_true]
    exact ⟨l, hl.1, by rw [beq_iff_eq, hla, hid]⟩
  rw [hra.2.1] at hlive
  exact Bool.false_ne_true hlive

/-- An attachment with a live m2m link whose message the purge chain does not
remove survives the chain, together with that link. -/
theorem deletechain_attachment_with_live_link_survives (s : Store) (a : Attachment)
    (ha : a ∈ s.attachments)
    (l2 : AttachmentMessage) (hl2 : l2 ∈ s.attachment_messages)
    (hl2a : l2.attachment_id = a.id)
    (hnorm : ∀ rm ∈ removing_messages (delete_expired_user_messages s),
      rm.id ≠ l2.message_id) :
    a ∈ (delete_expired_attachments (delete_expired_messages
      (delete_expired_user_messages s))).attachments ∧
    l2 ∈ (delete_expired_attachments (delete_expired_messages
      (delete_expired_user_messages s))).attachment_messages := by
  have hl26 : l2 ∈ (delete_expired_messages
      (delete_expired_user_messages s)).attachment_messages := by
    rw [delete_expired_messages_attachment_messages, List.mem_filter]
    refine ⟨by rw [delete_expired_user_messages_attachment_messages]; exact hl2, ?_⟩
    rcases Bool.eq_false_or_eq_true ((removing_messages (delete_expired_user_messages s)).any
        fun rm => rm.id == l2.message_id) with ht | hf
    · exfalso
      rw [List.any_eq_true] at ht
      obtain ⟨rm, hrm, hid⟩ := ht
      rw [beq_iff_eq] at hid
      exact hnorm rm hrm hid
    · rw [hf]
      rfl
  have hlive : hasLiveLink (delete_expired_messages (delete_expired_user_messages s))
      a.id = true := by
    unfold hasLiveLink
    rw [List.any_eq_true]
    exact ⟨l2, hl26, by rw [beq_iff_eq, hl2a]⟩
  have hanyf : ∀ i : Nat, i = a.id →
      ((attachments_to_remove (delete_expired_messages (delete_expired_user_messages s))).any
        fun ra => ra.id == i) = false := by
    intro i hieq
    rcases Bool.eq_false_or_eq_true ((attachments_to_remove (delete_expired_messages
        (delete_expired_user_messages s))).any fun ra => ra.id == i) with ht | hf
    · exfalso
      rw [List.any_eq_true] at ht
      obtain ⟨ra, hra, hid⟩ := ht
      rw [beq_iff_eq, hieq] at hid
      rw [mem_attachments_to_remove] at hra
      rw [hid] at hra
      rw [hra.2.1] at hlive
      exact Bool.false_ne_true hlive
    · exact hf
  constructor
  · rw [delete_expired_attachments_attachments, List.mem_filter]
    refine ⟨by rw [delete_expired_messages_attachments,
      delete_expired_user_messages_attachments]; exact ha, ?_⟩
    rw [hanyf a.id rfl]
    rfl
  · rw [delete_expired_attachments_attachment_messages, List.mem_filter]
    refine ⟨hl26, ?_⟩
    rw [hanyf l2.attachment_id hl2a]
    rfl


/-- C4: attachment gating.  An attachment linked to an expired message and to
a live unexpired message is copied to the archive together with the expired
link row, but its live row survives the sweep; and in general a sweep deletes
a live attachment only when no live m2m link to it remains afterwards. -/
theorem c4_attachment_gating :
    (∀ (now : Int) (st : Store) (a : Attachment) (m1 m2 : Message)
        (l1 l2 : AttachmentMessage),
      a ∈ st.attachments →
      l1 ∈ st.attachment_messages → l1.attachment_id = a.id → l1.message_id = m1.id →
      l2 ∈ st.attachment_messages → l2.attachment_id = a.id → l2.message_id = m2.id →
      m1 ∈ st.messages → messageExpired st now m1 = true →
      messageExpired st now m2 = false →
      (∀ m' ∈ st.messages, m'.id = m2.id → m' = m2) →
      archivedMsgId st m2.id = false →
      archivedAttId st a.id = false →
      archivedLinkId st l1.id = false →
      (⟨a, now⟩ : ArchivedAttachment) ∈
        ((archive_messages false now st).1).archivedattachments ∧
      (⟨l1.id, a.id, m1.id⟩ : ArchivedAttachmentMessage) ∈
        ((archive_messages false now st).1).archivedattachment_messages ∧
      a ∈ ((archive_messages false now st).1).attachments) ∧
    (∀ (now : Int) (st : Store) (a : Attachment),
      a ∈ st.attachments → a ∉ ((archive_messages false now st).1).attachments →
      ∀ l ∈ ((archive_messages false now st).1).attachment_messages,
        l.attachment_id ≠ a.id) := by
  constructor
  · intro now st a m1 m2 l1 l2 ha hl1 hl1a hl1m hl2 hl2a hl2m hm1 hexp1 hexp2 hm2uniq
      hnotarchm2 hnotarcha hnotarchl1
    have heligA : attachmentEligible st now a = true := by
      unfold attachmentEligible
      rw [List.any_eq_true]
      refine ⟨l1, hl1, ?_⟩
      rw [Bool.and_eq_true, beq_iff_eq]
      refine ⟨hl1a, ?_⟩
      rw [List.any_eq_true]
      exact ⟨m1, hm1, by rw [Bool.and_eq_true, beq_iff_eq]; exact ⟨hl1m.symm, hexp1⟩⟩
    have heligL : linkEligible st now l1 = true := by
      unfold linkEligible
      rw [List.any_eq_true]
      exact ⟨m1, hm1, by rw [Bool.and_eq_true, beq_iff_eq]; exact ⟨hl1m.symm, hexp1⟩⟩
    refine ⟨?_, ?_, ?_⟩
    · rw [sweep_archivedattachments, List.mem_append, List.mem_map]
      refine Or.inr ⟨a, ?_, rfl⟩
      rw [mem_expiredAttachmentsCandidates]
      exact ⟨ha, heligA, hnotarcha⟩
    · rw [sweep_archivedattachment_messages, List.mem_append, List.mem_map]
      refine Or.inr ⟨l1, ?_, ?_⟩
      · rw [mem_expiredLinkCandidates]
        exact ⟨hl1, heligL, hnotarchl1⟩
      · rw [hl1a, hl1m]
    · -- m2 is not an archive candidate, so its message and hence l2 survive,
      -- keeping a live link on the attachment
      have harchm4 : archivedMsgId (move_expired_attachments_message_rows_to_archive now
          (move_expired_attachments_to_archive now
            (move_expired_user_messages_to_archive now
              (move_expired_messages_to_archive now st)))) m2.id = false := by
        unfold archivedMsgId
        rw [moves_archivedmessages, List.any_append]
        have h1 : (st.archivedmessages.any fun am => am.msg.id == m2.id) = false :=
          hnotarchm2
        rw [h1, Bool.false_or]
        rcases Bool.eq_false_or_eq_true
            (((expiredMessagesCandidates now st).map
              (fun m => (⟨m, now⟩ : ArchivedMessage))).any
              fun am => am.msg.id == m2.id) with ht | hf
        · exfalso
          rw [List.any_eq_true] at ht
          obtain ⟨am, ham, hid⟩ := ht
          rw [List.mem_map] at ham
          obtain ⟨m', hm', heq⟩ := ham
          rw [← heq, beq_iff_eq] at hid
          rw [mem_expiredMessagesCandidates] at hm'
          have heq2 : m' = m2 := hm2uniq m' hm'.1 hid
          rw [heq2, hexp2] at hm'
          exact Bool.false_ne_true hm'.2.1
        · exact hf
      have hnorm : ∀ rm ∈ removing_messages (delete_expired_user_messages
          (move_expired_attachments_message_rows_to_archive now
            (move_expired_attachments_to_archive now
              (move_expired_user_messages_to_archive now
                (move_expired_messages_to_archive now st))))), rm.id ≠ l2.message_id := by
        intro rm hrm hid
        rw [mem_removing_messages] at hrm
        have harch := hrm.2.2
        rw [archivedMsgId_congr rm.id (delete_expired_user_messages_archivedmessages _)]
          at harch
        rw [hid, hl2m] at harch
        rw [harchm4] at harch
        exact Bool.false_ne_true harch
      have ha4 : a ∈ (move_expired_attachments_message_rows_to_archive now
          (move_expired_attachments_to_archive now
            (move_expired_user_messages_to_archive now
              (move_expired_messages_to_archive now st)))).attachments := by
        rw [moves_attachments]
        exact ha
      have hl24 : l2 ∈ (move_expired_attachments_message_rows_to_archive now
          (move_expired_attachments_to_archive now
            (move_expired_user_messages_to_archive now
              (move_expired_messages_to_archive now st)))).attachment_messages := by
        rw [moves_attachment_messages]
        exact hl2
      rw [archive_messages_false_eq]
      exact (deletechain_attachment_with_live_link_survives _ a ha4 l2 hl24 hl2a hnorm).1
  · intro now st a ha hnot
    rw [archive_messages_false_eq] at hnot ⊢
    have ha4 : a ∈ (move_expired_attachments_message_rows_to_archive now
        (move_expired_attachments_to_archive now
          (move_expired_user_messages_to_archive now
            (move_expired_messages_to_archive now st)))).attachments := by
      rw [moves_attachments]
      exact ha
    exact deletechain_removed_attachment_no_link _ a ha4 hnot

/-- Concrete store for the attachment-gating witness: attachment 1 is linked
to message 1 (50 days old, expired for realm 1 with retention 30) and to
message 2 (1 day old, not expired). -/
def storeAttGate : Store :=
  { realms := [⟨1, some 30⟩]
  , userprofiles := [⟨1, 1⟩]
  , messages := [⟨1, 1, 50⟩, ⟨2, 1, 99⟩]
  , usermessages := [⟨1, 1, 1⟩, ⟨2, 1, 2⟩]
  , attachments := [⟨1, 7⟩]
  , attachment_messages := [⟨1, 1, 1⟩, ⟨2, 1, 2⟩]
  , archivedmessages := [], archivedusermessages := []
  , archivedattachments := [], archivedattachment_messages := [] }

/-- Witness for C4 at `now = 100` on `storeAttGate`. -/
theorem c4_witness :
    (⟨⟨1, 7⟩, 100⟩ : ArchivedAttachment) ∈
      ((archive_messages false 100 storeAttGate).1).archivedattachments ∧
    (⟨1, 1, 1⟩ : ArchivedAttachmentMessage) ∈
      ((archive_messages false 100 storeAttGate).1).archivedattachment_messages ∧
    (⟨1, 7⟩ : Attachment) ∈ ((archive_messages false 100 storeAttGate).1).attachments :=
  c4_attachment_gating.1 100 storeAttGate ⟨1, 7⟩ ⟨1, 1, 50⟩ ⟨2, 1, 99⟩ ⟨1, 1, 1⟩ ⟨2, 1, 2⟩
    (List.Mem.head _) (List.Mem.head _) rfl rfl
    (by exact List.Mem.tail _ (List.Mem.head _)) rfl rfl
    (List.Mem.head _) (by decide) (by decide) (by decide)
    (by decide) (by decide) (by decide)

@[simp] theorem purge_arc_usermessages_realms (c : Int) (st : Store) :
    (purge_arc_usermessages c st).realms = st.realms := rfl

@[simp] theorem purge_arc_usermessages_userprofiles (c : Int) (st : Store) :
    (purge_arc_usermessages c st).userprofiles = st.userprofiles := rfl

@[simp] theorem purge_arc_usermessages_messages (c : Int) (st : Store) :
    (purge_arc_usermessages c st).messages = st.messages := rfl

@[simp] theorem purge_arc_usermessages_usermessages (c : Int) (st : Store) :
    (purge_arc_usermessages c st).usermessages = st.usermessages := rfl

@[simp] theorem purge_arc_usermessages_attachments (c : Int) (st : Store) :
    (purge_arc_usermessages c st).attachments = st.attachments := rfl

@[simp] theorem purge_arc_usermessages_attachment_messages (c : Int) (st : Store) :
    (purge_arc_usermessages c st).attachment_messages = st.attachment_messages := rfl

@[simp] theorem purge_arc_usermessages_archivedmessages (c : Int) (st : Store) :
    (purge_arc_usermessages c st).archivedmessages = st.archivedmessages := rfl

@[simp] theorem purge_arc_usermessages_archivedusermessages (c : Int) (st : Store) :
    (purge_arc_usermessages c st).archivedusermessages = st.archivedusermessages.filter fun aum => !(decide (aum.archive_timestamp < c)) := rfl

@[simp] theorem purge_arc_usermessages_archivedattachments (c : Int) (st : Store) :
    (purge_arc_usermessages c st).archivedattachments = st.archivedattachments := rfl

@[simp] theorem purge_arc_usermessages_archivedattachment_messages (c : Int) (st : Store) :
    (purge_arc_usermessages c st).archivedattachment_messages = st.archivedattachment_messages := rfl

@[simp] theorem purge_arc_messages_realms (c : Int) (st : Store) :
    (purge_arc_messages c st).realms = st.realms := rfl

@[simp] theorem purge_arc_messages_userprofiles (c : Int) (st : Store) :
    (purge_arc_messages c st).userprofiles = st.userprofiles := rfl

@[simp] theorem purge_arc_messages_messages (c : Int) (st : Store) :
    (purge_arc_messages c st).messages = st.messages := rfl

@[simp] theorem purge_arc_messages_usermessages (c : Int) (st : Store) :
    (purge_arc_messages c st).usermessages = st.usermessages := rfl

@[simp] theorem purge_arc_messages_attachments (c : Int) (st : Store) :
    (purge_arc_messages c st).attachments = st.attachments := rfl

@[simp] theorem purge_arc_messages_attachment_messages (c : Int) (st : Store) :
    (purge_arc_messages c st).attachment_messages = st.attachment_messages := rfl

@[simp] theorem purge_arc_messages_archivedmessages (c : Int) (st : Store) :
    (purge_arc_messages c st).archivedmessages = st.archivedmessages.filter fun am => !((removing_arc_messages c st).any fun d => d.msg.id == am.msg.id) := rfl

@[simp] theorem purge_arc_messages_archivedusermessages (c : Int) (st : Store) :
    (purge_arc_messages c st).archivedusermessages = st.archivedusermessages := rfl

@[simp] theorem purge_arc_messages_archivedattachments (c : Int) (st : Store) :
    (purge_arc_messages c st).archivedattachments = st.archivedattachments := rfl

@[simp] theorem purge_arc_messages_archivedattachment_messages (c : Int) (st : Store) :
    (purge_arc_messages c st).archivedattachment_messages = st.archivedattachment_messages.filter fun al => !((removing_arc_messages c st).any fun d => d.msg.id == al.archivedmessage_id) := rfl

@[simp] theorem delete_expired_archived_attachments_realms (query : List ArchivedAttachment) (st : Store) (blobs : List Nat) :
    ((delete_expired_archived_attachments query st blobs).1).realms = st.realms := rfl

@[simp] theorem delete_expired_archived_attachments_userprofiles (query : List ArchivedAttachment) (st : Store) (blobs : List Nat) :
    ((delete_expired_archived_attachments query st blobs).1).userprofiles = st.userprofiles := rfl

@[simp] theorem delete_expired_archived_attachments_messages (query : List ArchivedAttachment) (st : Store) (blobs : List Nat) :
    ((delete_expired_archived_attachments query st blobs).1).messages = st.messages := rfl

@[simp] theorem delete_expired_archived_attachments_usermessages (query : List ArchivedAttachment) (st : Store) (blobs : List Nat) :
    ((delete_expired_archived_attachments query st blobs).1).usermessages = st.usermessages := rfl

@[simp] theorem delete_expired_archived_attachments_attachments (query : List ArchivedAttachment) (st : Store) (blobs : List Nat) :
    ((delete_expired_archived_attachments query st blobs).1).attachments = st.attachments := rfl

@[simp] theorem delete_expired_archived_attachments_attachment_messages (query : List ArchivedAttachment) (st : Store) (blobs : List Nat) :
    ((delete_expired_archived_attachments query st blobs).1).attachment_messages = st.attachment_messages := rfl

@[simp] theorem delete_expired_archived_attachments_archivedmessages (query : List ArchivedAttachment) (st : Store) (blobs : List Nat) :
    ((delete_expired_archived_attachments query st blobs).1).archivedmessages = st.archivedmessages := rfl

@[simp] theorem delete_expired_archived_attachments_archivedusermessages (query : List ArchivedAttachment) (st : Store) (blobs : List Nat) :
    ((delete_expired_archived_attachments query st blobs).1).archivedusermessages = st.archivedusermessages := rfl

@[simp] theorem delete_expired_archived_attachments_archivedattachments (query : List ArchivedAttachment) (st : Store) (blobs : List Nat) :
    ((delete_expired_archived_attachments query st blobs).1).archivedattachments = st.archivedattachments.filter fun aa => !((arc_attachments query st).any fun d => d.att.id == aa.att.id) := rfl

@[simp] theorem delete_expired_archived_attachments_archivedattachment_messages (query : List ArchivedAttachment) (st : Store) (blobs : List Nat) :
    ((delete_expired_archived_attachments query st blobs).1).archivedattachment_messages = st.archivedattachment_messages.filter fun al => !((arc_attachments query st).any fun d => d.att.id == al.archivedattachment_id) := rfl


theorem mem_purge_arc_usermessages {c : Int} {st : Store} {aum : ArchivedUserMessage} :
    aum ∈ (purge_arc_usermessages c st).archivedusermessages ↔
      aum ∈ st.archivedusermessages ∧ ¬(aum.archive_timestamp < c) := by
  rw [purge_arc_usermessages_archivedusermessages, List.mem_filter]
  simp only [Bool.not_eq_true', decide_eq_false_iff_not]

/-- The lazily-evaluated `removing_arc_messages` queryset, expressed against
the entry state of `delete_expired_archived_data`. -/
theorem mem_removing_arc_messages {c : Int} {st : Store} {rm : ArchivedMessage} :
    rm ∈ removing_arc_messages c (purge_arc_usermessages c st) ↔
      rm ∈ st.archivedmessages ∧ rm.archive_timestamp < c ∧
        ¬∃ aum ∈ st.archivedusermessages,
          ¬(aum.archive_timestamp < c) ∧ aum.um.message_id = rm.msg.id := by
  unfold removing_arc_messages
  rw [List.mem_filter]
  rw [purge_arc_usermessages_archivedmessages, purge_arc_usermessages_archivedusermessages]
  simp only [Bool.and_eq_true, decide_eq_true_eq, Bool.not_eq_true', List.any_eq_false,
    List.mem_filter, beq_iff_eq, decide_eq_false_iff_not, not_exists]
  constructor
  · rintro ⟨h1, h2, h3⟩
    exact ⟨h1, h2, fun x hx => (h3 x ⟨hx.1, hx.2.1⟩) hx.2.2⟩
  · rintro ⟨h1, h2, h3⟩
    exact ⟨h1, h2, fun x hx hr => h3 x ⟨hx.1, hx.2, hr⟩⟩


theorem removing_arc_messages_subset {c : Int} {s : Store} {rm : ArchivedMessage}
    (h : rm ∈ removing_arc_messages c s) : rm ∈ s.archivedmessages := by
  unfold removing_arc_messages at h
  exact (List.mem_filter.mp h).1

theorem mem_purge_arc_messages {c : Int} {sA : Store}
    (huniq : ∀ x ∈ sA.archivedmessages, ∀ y ∈ sA.archivedmessages,
      x.msg.id = y.msg.id → x = y) {am : ArchivedMessage} :
    am ∈ (purge_arc_messages c sA).archivedmessages ↔
      am ∈ sA.archivedmessages ∧ am ∉ removing_arc_messages c sA := by
  rw [purge_arc_messages_archivedmessages, List.mem_filter]
  simp only [Bool.not_eq_true', List.any_eq_false, beq_iff_eq]
  constructor
  · rintro ⟨h1, h2⟩
    exact ⟨h1, fun hmem => (h2 am hmem) rfl⟩
  · rintro ⟨h1, h2⟩
    refine ⟨h1, fun d hd heq => ?_⟩
    have hdm : d ∈ sA.archivedmessages := removing_arc_messages_subset hd
    rw [huniq d hdm am h1 heq] at hd
    exact h2 hd

theorem mem_purge_arc_messages_links {c : Int} {sA : Store} {al : ArchivedAttachmentMessage} :
    al ∈ (purge_arc_messages c sA).archivedattachment_messages ↔
      al ∈ sA.archivedattachment_messages ∧
        ¬∃ rm ∈ removing_arc_messages c sA, rm.msg.id = al.archivedmessage_id := by
  rw [purge_arc_messages_archivedattachment_messages, List.mem_filter]
  simp only [Bool.not_eq_true', List.any_eq_false, beq_iff_eq, not_exists]
  constructor
  · rintro ⟨h1, h2⟩
    exact ⟨h1, fun x hx => (h2 x hx.1) hx.2⟩
  · rintro ⟨h1, h2⟩
    exact ⟨h1, fun x hx heq => h2 x ⟨hx, heq⟩⟩

theorem mem_del_arc_attachments {c : Int} {s : Store} {x : ArchivedAttachment} :
    x ∈ del_arc_attachments c s ↔
      x ∈ s.archivedattachments ∧ x.archive_timestamp < c ∧
        liveAttId s x.att.id = false := by
  unfold del_arc_attachments
  rw [List.mem_filter]
  simp only [Bool.and_eq_true, decide_eq_true_eq, Bool.not_eq_true']

theorem mem_arc_attachments {q : List ArchivedAttachment} {s : Store} {x : ArchivedAttachment} :
    x ∈ arc_attachments q s ↔
      x ∈ q ∧ ¬∃ al ∈ s.archivedattachment_messages,
        al.archivedattachment_id = x.att.id := by
  unfold arc_attachments
  rw [List.mem_filter]
  simp only [Bool.not_eq_true', List.any_eq_false, beq_iff_eq, not_exists]
  constructor
  · rintro ⟨h1, h2⟩
    exact ⟨h1, fun al h => (h2 al h.1) h.2⟩
  · rintro ⟨h1, h2⟩
    exact ⟨h1, fun al hal heq => h2 al ⟨hal, heq⟩⟩

theorem mem_delete_expired_archived_attachments {q : List ArchivedAttachment} {s : Store}
    {blobs : List Nat}
    (hsub : ∀ x ∈ q, x ∈ s.archivedattachments)
    (huniq : ∀ x ∈ s.archivedattachments, ∀ y ∈ s.archivedattachments,
      x.att.id = y.att.id → x = y) {aa : ArchivedAttachment} :
    aa ∈ ((delete_expired_archived_attachments q s blobs).1).archivedattachments ↔
      aa ∈ s.archivedattachments ∧ aa ∉ arc_attachments q s := by
  rw [delete_expired_archived_attachments_archivedattachments, List.mem_filter]
  simp only [Bool.not_eq_true', List.any_eq_false, beq_iff_eq]
  constructor
  · rintro ⟨h1, h2⟩
    exact ⟨h1, fun hmem => (h2 aa hmem) rfl⟩
  · rintro ⟨h1, h2⟩
    refine ⟨h1, fun d hd heq => ?_⟩
    have hdq : d ∈ q := by
      unfold arc_attachments at hd
      exact (List.mem_filter.mp hd).1
    have hdm : d ∈ s.archivedattachments := hsub d hdq
    rw [huniq d hdm aa h1 heq] at hd
    exact h2 hd

theorem liveAttId_congr {s t : Store} (i : Nat) (h : s.attachments = t.attachments) :
    liveAttId s i = liveAttId t i := by
  unfold liveAttId
  rw [h]

/-- The store produced by the non-dry-run `delete_expired_archived_data`. -/
theorem delete_expired_archived_data_false_store (arc_retention_days : Nat) (now : Int)
    (st : Store) (blobs : List Nat) :
    (delete_expired_archived_data false arc_retention_days now st blobs).store =
      (delete_expired_archived_attachments
        (del_arc_attachments (now - (arc_retention_days : Int))
          (purge_arc_messages (now - (arc_retention_days : Int))
            (purge_arc_usermessages (now - (arc_retention_days : Int)) st)))
        (purge_arc_messages (now - (arc_retention_days : Int))
          (purge_arc_usermessages (now - (arc_retention_days : Int)) st)) blobs).1 := rfl


/-- C6 (amended): archive TTL purge.  A non-dry-run
`delete_expired_archived_data` removes exactly: the archived user messages
stamped before `now - ARCHIVED_DATA_RETENTION_DAYS`; the archived messages
stamped before the cutoff that no remaining (younger) archived user message
references; and the archived attachments stamped before the cutoff that have
no live counterpart and no remaining archived link (links disappear only with
their archived message).  Younger rows are untouched, an archived attachment
is never deleted while a live `Attachment` row with its id exists, and no
realm's retention configuration is consulted (the characterizations below
mention none). -/
theorem c6_archive_ttl_purge_amended (arc : Nat) (now : Int) (st : Store) (blobs : List Nat)
    (humsg : ∀ x ∈ st.archivedmessages, ∀ y ∈ st.archivedmessages,
      x.msg.id = y.msg.id → x = y)
    (huatt : ∀ x ∈ st.archivedattachments, ∀ y ∈ st.archivedattachments,
      x.att.id = y.att.id → x = y) :
    (∀ aum : ArchivedUserMessage,
      aum ∈ (delete_expired_archived_data false arc now st blobs).store.archivedusermessages ↔
        aum ∈ st.archivedusermessages ∧ ¬(aum.archive_timestamp < now - (arc : Int))) ∧
    (∀ am : ArchivedMessage,
      am ∈ (delete_expired_archived_data false arc now st blobs).store.archivedmessages ↔
        am ∈ st.archivedmessages ∧
          ¬(am.archive_timestamp < now - (arc : Int) ∧
            ¬∃ aum ∈ st.archivedusermessages,
              ¬(aum.archive_timestamp < now - (arc : Int)) ∧
                aum.um.message_id = am.msg.id)) ∧
    (∀ aa : ArchivedAttachment,
      aa ∈ (delete_expired_archived_data false arc now st blobs).store.archivedattachments ↔
        aa ∈ st.archivedattachments ∧
          ¬(aa.archive_timestamp < now - (arc : Int) ∧ liveAttId st aa.att.id = false ∧
            ¬∃ al : ArchivedAttachmentMessage,
              (al ∈ st.archivedattachment_messages ∧
                ¬∃ rm : ArchivedMessage,
                  (rm ∈ st.archivedmessages ∧ rm.archive_timestamp < now - (arc : Int) ∧
                    ¬∃ aum ∈ st.archivedusermessages,
                      ¬(aum.archive_timestamp < now - (arc : Int)) ∧
                        aum.um.message_id = rm.msg.id) ∧
                  rm.msg.id = al.archivedmessage_id) ∧
              al.archivedattachment_id = aa.att.id)) ∧
    (∀ aa ∈ st.archivedattachments, liveAttId st aa.att.id = true →
      aa ∈ (delete_expired_archived_data false arc now st blobs).store.archivedattachments) := by
  have huniqA : ∀ x ∈ (purge_arc_usermessages (now - (arc : Int)) st).archivedmessages,
      ∀ y ∈ (purge_arc_usermessages (now - (arc : Int)) st).archivedmessages,
      x.msg.id = y.msg.id → x = y := by
    rw [purge_arc_usermessages_archivedmessages]
    exact humsg
  have huniqB : ∀ x ∈ (purge_arc_messages (now - (arc : Int))
      (purge_arc_usermessages (now - (arc : Int)) st)).archivedattachments,
      ∀ y ∈ (purge_arc_messages (now - (arc : Int))
        (purge_arc_usermessages (now - (arc : Int)) st)).archivedattachments,
      x.att.id = y.att.id → x = y := by
    rw [purge_arc_messages_archivedattachments, purge_arc_usermessages_archivedattachments]
    exact huatt
  have hliveB : ∀ i : Nat, liveAttId (purge_arc_messages (now - (arc : Int))
      (purge_arc_usermessages (now - (arc : Int)) st)) i = liveAttId st i := by
    intro i
    refine liveAttId_congr i ?_
    rw [purge_arc_messages_attachments, purge_arc_usermessages_attachments]
  have key3 : ∀ aa : ArchivedAttachment,
      aa ∈ (delete_expired_archived_data false arc now st blobs).store.archivedattachments ↔
        aa ∈ st.archivedattachments ∧
          ¬(aa.archive_timestamp < now - (arc : Int) ∧ liveAttId st aa.att.id = false ∧
            ¬∃ al : ArchivedAttachmentMessage,
              (al ∈ st.archivedattachment_messages ∧
                ¬∃ rm : ArchivedMessage,
                  (rm ∈ st.archivedmessages ∧ rm.archive_timestamp < now - (arc : Int) ∧
                    ¬∃ aum ∈ st.archivedusermessages,
                      ¬(aum.archive_timestamp < now - (arc : Int)) ∧
                        aum.um.message_id = rm.msg.id) ∧
                  rm.msg.id = al.archivedmessage_id) ∧
              al.archivedattachment_id = aa.att.id) := by
    intro aa
    rw [delete_expired_archived_data_false_store]
    rw [mem_delete_expired_archived_attachments
      (fun x hx => (mem_del_arc_attachments.mp hx).1) huniqB]
    rw [purge_arc_messages_archivedattachments, purge_arc_usermessages_archivedattachments]
    simp only [mem_arc_attachments, mem_del_arc_attachments, mem_purge_arc_messages_links,
      mem_removing_arc_messages, purge_arc_messages_archivedattachments,
      purge_arc_usermessages_archivedattachments,
      purge_arc_usermessages_archivedattachment_messages, hliveB, not_exists]
    constructor
    · rintro ⟨h1, h2⟩
      exact ⟨h1, fun hc => h2 ⟨⟨h1, hc.1, hc.2.1⟩, hc.2.2⟩⟩
    · rintro ⟨h1, h2⟩
      exact ⟨h1, fun hc => h2 ⟨hc.1.2.1, hc.1.2.2, hc.2⟩⟩
  refine ⟨?_, ?_, key3, ?_⟩
  · intro aum
    rw [delete_expired_archived_data_false_store,
      delete_expired_archived_attachments_archivedusermessages,
      purge_arc_messages_archivedusermessages]
    exact mem_purge_arc_usermessages
  · intro am
    rw [delete_expired_archived_data_false_store,
      delete_expired_archived_attachments_archivedmessages,
      mem_purge_arc_messages huniqA, purge_arc_usermessages_archivedmessages,
      mem_removing_arc_messages]
    constructor
    · rintro ⟨h1, h2⟩
      exact ⟨h1, fun hc => h2 ⟨h1, hc.1, hc.2⟩⟩
    · rintro ⟨h1, h2⟩
      exact ⟨h1, fun hc => h2 ⟨hc.2.1, hc.2.2⟩⟩
  · intro aa haa hlive
    rw [key3 aa]
    refine ⟨haa, fun hc => ?_⟩
    rw [hlive] at hc
    exact Bool.noConfusion hc.2.1


/-- Concrete archive store for the TTL-purge counterexample: archived message
1 was stamped at day 0, but an archived delivery record referencing it was
stamped at day 95 (younger than the cutoff `100 - 10 = 90`). -/
def storeArcTTL : Store :=
  { realms := [], userprofiles := [], messages := [], usermessages := []
  , attachments := [], attachment_messages := []
  , archivedmessages := [⟨⟨1, 0, 0⟩, 0⟩]
  , archivedusermessages := [⟨⟨2, 1, 1⟩, 95⟩]
  , archivedattachments := [], archivedattachment_messages := [] }

/-- Counterexample to C6 as stated: at `now = 100` with
`ARCHIVED_DATA_RETENTION_DAYS = 10`, archived message 1 is stamped before the
cutoff (`0 < 90`), yet the non-dry-run purge leaves it in the archive, because
a younger archived delivery record still references it — the claim says every
archived message older than the threshold is removed. -/
theorem c6_counterexample :
    ((0 : Int) < 100 - ((10 : Nat) : Int)) ∧
    (⟨⟨1, 0, 0⟩, 0⟩ : ArchivedMessage) ∈
      (delete_expired_archived_data false 10 100 storeArcTTL []).store.archivedmessages := by
  constructor
  · decide
  · rw [show (delete_expired_archived_data false 10 100 storeArcTTL
        []).store.archivedmessages = [⟨⟨1, 0, 0⟩, 0⟩] from rfl]
    exact List.Mem.head _

/-- Witness for C6 (amended) at a concrete input: the younger archived
delivery record of `storeArcTTL` survives the purge. -/
theorem c6_witness :
    (⟨⟨2, 1, 1⟩, 95⟩ : ArchivedUserMessage) ∈
      (delete_expired_archived_data false 10 100 storeArcTTL []).store.archivedusermessages :=
  ((c6_archive_ttl_purge_amended 10 100 storeArcTTL [] (by decide) (by decide)).1
    ⟨⟨2, 1, 1⟩, 95⟩).mpr ⟨List.Mem.head _, by decide⟩


theorem blob_foldl_log (l : List ArchivedAttachment) (bs acc : List Nat) :
    (l.foldl (fun (acc : List Nat × List Nat) aa =>
        ((delete_message_image acc.1 aa.att.path_id).1, acc.2 ++ [aa.att.path_id]))
      (bs, acc)).2 = acc ++ l.map fun aa => aa.att.path_id := by
  induction l generalizing bs acc with
  | nil =>
    rw [List.foldl_nil, List.map_nil, List.append_nil]
  | cons aa l ih =>
    rw [List.foldl_cons, ih, List.map_cons]
    simp

/-- C7: blob deletion during archive purge.  (i) `delete_expired_archived_attachments`
invokes `delete_message_image` exactly once per selected archived attachment,
on its `path_id`, in queryset order, before returning the store with those
rows removed.  (ii) The metadata purge is the same whatever the blob store
holds — in particular a delete that finds the blob already absent (or fails
inside the collaborator, which per the spec returns instead of raising) does
not prevent the rows from being purged.  (iii) Every selected row is removed:
no surviving archived attachment shares an id with a selected one.
(iv) The modelled collaborator reports a missing blob as `not_found`, which by
(ii) the engine treats as success. -/
theorem c7_blob_delete_per_attachment :
    (∀ (q : List ArchivedAttachment) (st : Store) (blobs : List Nat),
      (delete_expired_archived_attachments q st blobs).2.2 =
        (arc_attachments q st).map fun aa => aa.att.path_id) ∧
    (∀ (q : List ArchivedAttachment) (st : Store) (blobs blobs' : List Nat),
      (delete_expired_archived_attachments q st blobs).1 =
        (delete_expired_archived_attachments q st blobs').1) ∧
    (∀ (q : List ArchivedAttachment) (st : Store) (blobs : List Nat)
        (aa : ArchivedAttachment), aa ∈ arc_attachments q st →
      ∀ x ∈ ((delete_expired_archived_attachments q st blobs).1).archivedattachments,
        x.att.id ≠ aa.att.id) ∧
    (∀ p : Nat, (delete_message_image [] p).2 = BlobDeleteResult.not_found) := by
  refine ⟨?_, ?_, ?_, ?_⟩
  · intro q st blobs
    exact blob_foldl_log (arc_attachments q st) blobs []
  · intro q st blobs blobs'
    rfl
  · intro q st blobs aa haa x hx hid
    rw [delete_expired_archived_attachments_archivedattachments, List.mem_filter] at hx
    have hkeep := hx.2
    rw [Bool.not_eq_true'] at hkeep
    have : ((arc_attachments q st).any fun d => d.att.id == x.att.id) = true := by
      rw [List.any_eq_true]
      exact ⟨aa, haa, by rw [beq_iff_eq, hid]⟩
    rw [hkeep] at this
    exact Bool.noConfusion this
  · intro p
    rfl

/-- Concrete queryset for the blob-deletion witness: archived attachment 1
(path 7) has no archived link; archived attachment 2 (path 8) still has one
and so is filtered out of `arc_attachments`. -/
def storeBlob : Store :=
  { realms := [], userprofiles := [], messages := [], usermessages := []
  , attachments := [], attachment_messages := []
  , archivedmessages := [], archivedusermessages := []
  , archivedattachments := [⟨⟨1, 7⟩, 0⟩, ⟨⟨2, 8⟩, 0⟩]
  , archivedattachment_messages := [⟨5, 2, 9⟩] }

/-- Witness for C7 at a concrete input: exactly one blob delete, on path 7;
the purged metadata is independent of the blob store; attachment 1's row is
gone. -/
theorem c7_witness :
    (delete_expired_archived_attachments storeBlob.archivedattachments storeBlob [7]).2.2 =
      [7] ∧
    (delete_expired_archived_attachments storeBlob.archivedattachments storeBlob [7]).1 =
      (delete_expired_archived_attachments storeBlob.archivedattachments storeBlob []).1 ∧
    (∀ x ∈ ((delete_expired_archived_attachments storeBlob.archivedattachments storeBlob
        [7]).1).archivedattachments, x.att.id ≠ 1) ∧
    (delete_message_image [] 7).2 = BlobDeleteResult.not_found :=
  ⟨c7_blob_delete_per_attachment.1 storeBlob.archivedattachments storeBlob [7],
   c7_blob_delete_per_attachment.2.1 storeBlob.archivedattachments storeBlob [7] [],
   fun x hx => c7_blob_delete_per_attachment.2.2.1 storeBlob.archivedattachments storeBlob
     [7] ⟨⟨1, 7⟩, 0⟩ (List.Mem.head _) x hx,
   c7_blob_delete_per_attachment.2.2.2 7⟩


theorem restoreAttachmentsCandidates_stable (rid : Nat) (st : Store) :
    restoreAttachmentsCandidates rid
      (restore_archived_usermessages_by_realm rid
        (restore_archived_messages_by_realm rid st)) =
      restoreAttachmentsCandidates rid st := rfl

theorem restoreLinkCandidates_stable (rid : Nat) (st : Store) :
    restoreLinkCandidates rid
      (restore_archived_attachments_by_realm rid
        (restore_archived_usermessages_by_realm rid
          (restore_archived_messages_by_realm rid st))) =
      restoreLinkCandidates rid st := rfl

theorem restore_false_messages (rid : Nat) (st : Store) :
    ((restore_realm_archived_data false rid st).1).messages =
      st.messages ++ (restoreMessagesCandidates rid st).map (·.msg) := rfl

theorem restore_false_usermessages (rid : Nat) (st : Store) :
    ((restore_realm_archived_data false rid st).1).usermessages =
      st.usermessages ++ (restoreUserMessagesCandidates rid
        (restore_archived_messages_by_realm rid st)).map (·.um) := rfl

theorem restore_false_attachments (rid : Nat) (st : Store) :
    ((restore_realm_archived_data false rid st).1).attachments =
      st.attachments ++ (restoreAttachmentsCandidates rid st).map (·.att) := rfl

theorem restore_false_attachment_messages (rid : Nat) (st : Store) :
    ((restore_realm_archived_data false rid st).1).attachment_messages =
      st.attachment_messages ++ (restoreLinkCandidates rid st).map
        (fun al => ⟨al.id, al.archivedattachment_id, al.archivedmessage_id⟩) := rfl

theorem restore_false_realms (rid : Nat) (st : Store) :
    ((restore_realm_archived_data false rid st).1).realms =
      st.realms.map fun r =>
        if r.id == rid then { r with message_retention_days := none } else r := rfl

theorem restore_false_archive_tables (rid : Nat) (st : Store) :
    ((restore_realm_archived_data false rid st).1).archivedmessages = st.archivedmessages ∧
    ((restore_realm_archived_data false rid st).1).archivedusermessages =
      st.archivedusermessages ∧
    ((restore_realm_archived_data false rid st).1).archivedattachments =
      st.archivedattachments ∧
    ((restore_realm_archived_data false rid st).1).archivedattachment_messages =
      st.archivedattachment_messages ∧
    ((restore_realm_archived_data false rid st).1).userprofiles = st.userprofiles :=
  ⟨rfl, rfl, rfl, rfl, rfl⟩


/-- C8 (amended): dry runs are pure and report queryset sizes.
`archive_messages(dry_run=True)` mutates nothing and returns, for each of the
four entity kinds, exactly the number of rows the non-dry-run invocation
inserts into the corresponding archive table.
`restore_realm_archived_data(realm_id, dry_run=True)` mutates nothing (in
particular it does not clear the tenant's retention window) and its message,
attachment and attachment-link counts equal the numbers of rows the
non-dry-run invocation inserts; its user-message count, however, is the total
number of the realm's archived user messages — the queryset its dry-run
branch returns — which can exceed the number of rows the non-dry-run
invocation would insert. -/
theorem c8_dry_run_amended :
    (∀ (now : Int) (st : Store),
      (archive_messages true now st).1 = st ∧
      ∀ c : ArchiveCounts, (archive_messages true now st).2 = some c →
        st.archivedmessages.length + c.exp_messages =
          ((archive_messages false now st).1).archivedmessages.length ∧
        st.archivedusermessages.length + c.exp_user_messages =
          ((archive_messages false now st).1).archivedusermessages.length ∧
        st.archivedattachments.length + c.exp_attachments =
          ((archive_messages false now st).1).archivedattachments.length ∧
        st.archivedattachment_messages.length + c.exp_attachments_messages =
          ((archive_messages false now st).1).archivedattachment_messages.length) ∧
    (∀ (rid : Nat) (st : Store),
      (restore_realm_archived_data true rid st).1 = st ∧
      ∀ c : RestoreCounts, (restore_realm_archived_data true rid st).2 = some c →
        st.messages.length + c.restoring_arc_messages =
          ((restore_realm_archived_data false rid st).1).messages.length ∧
        c.restoring_arc_user_messages =
          (st.archivedusermessages.filter fun aum =>
            st.userprofiles.any fun up =>
              up.id == aum.um.user_profile_id && up.realm_id == rid).length ∧
        st.attachments.length + c.restoring_arc_attachemnts =
          ((restore_realm_archived_data false rid st).1).attachments.length ∧
        st.attachment_messages.length + c.rest_arc_attachments_messages =
          ((restore_realm_archived_data false rid st).1).attachment_messages.length) := by
  constructor
  · intro now st
    refine ⟨rfl, ?_⟩
    intro c hc
    have hceq : c = (⟨(expiredMessagesCandidates now st).length,
        (expiredUserMessagesCandidates now st).length,
        (expiredAttachmentsCandidates now st).length,
        (expiredLinkCandidates now st).length⟩ : ArchiveCounts) := by
      have h2 : some ((⟨(expiredMessagesCandidates now st).length,
          (expiredUserMessagesCandidates now st).length,
          (expiredAttachmentsCandidates now st).length,
          (expiredLinkCandidates now st).length⟩ : ArchiveCounts)) = some c := hc
      exact (Option.some.injEq _ _).mp h2.symm
    subst hceq
    refine ⟨?_, ?_, ?_, ?_⟩
    · rw [sweep_archivedmessages, List.length_append, List.length_map]
    · rw [sweep_archivedusermessages, List.length_append, List.length_map]
    · rw [sweep_archivedattachments, List.length_append, List.length_map]
    · rw [sweep_archivedattachment_messages, List.length_append, List.length_map]
  · intro rid st
    refine ⟨rfl, ?_⟩
    intro c hc
    have hceq : c = (⟨(restoreMessagesCandidates rid st).length,
        (st.archivedusermessages.filter fun aum =>
          st.userprofiles.any fun up =>
            up.id == aum.um.user_profile_id && up.realm_id == rid).length,
        (restoreAttachmentsCandidates rid st).length,
        (restoreLinkCandidates rid st).length⟩ : RestoreCounts) := by
      have h2 : some ((⟨(restoreMessagesCandidates rid st).length,
          (st.archivedusermessages.filter fun aum =>
            st.userprofiles.any fun up =>
              up.id == aum.um.user_profile_id && up.realm_id == rid).length,
          (restoreAttachmentsCandidates rid st).length,
          (restoreLinkCandidates rid st).length⟩ : RestoreCounts)) = some c := hc
      exact (Option.some.injEq _ _).mp h2.symm
    subst hceq
    refine ⟨?_, rfl, ?_, ?_⟩
    · rw [restore_false_messages, List.length_append, List.length_map]
    · rw [restore_false_attachments, List.length_append, List.length_map]
    · rw [restore_false_attachment_messages, List.length_append, List.length_map]

/-- Concrete store for the dry-run counterexample: realm 1 has an archived
delivery record whose message (id 9) is not in the archive and not live, so
the non-dry-run restore inserts nothing, yet the dry run reports one user
message. -/
def storeRestoreDry : Store :=
  { realms := [⟨1, some 30⟩], userprofiles := [⟨1, 1⟩]
  , messages := [], usermessages := []
  , attachments := [], attachment_messages := []
  , archivedmessages := [], archivedusermessages := [⟨⟨4, 1, 9⟩, 0⟩]
  , archivedattachments := [], archivedattachment_messages := [] }

/-- Counterexample to C8 as stated: on `storeRestoreDry` the dry-run restore
reports `restoring_arc_user_messages = 1`, but the non-dry-run restore
inserts no user-message row (the insert select anti-joins and requires the
message to be live), so the reported size is not the size of the inserted
candidate set. -/
theorem c8_counterexample :
    ((restore_realm_archived_data true 1 storeRestoreDry).2.map
      (fun c => c.restoring_arc_user_messages)) = some 1 ∧
    storeRestoreDry.usermessages = [] ∧
    ((restore_realm_archived_data false 1 storeRestoreDry).1).usermessages = [] := by
  refine ⟨rfl, rfl, ?_⟩
  rw [restore_false_usermessages]
  rfl

/-- Witness for C8 (amended) on `storeRestoreDry`. -/
theorem c8_witness :
    (restore_realm_archived_data true 1 storeRestoreDry).1 = storeRestoreDry ∧
    (0 : Nat) + ((restore_realm_archived_data true 1
        storeRestoreDry).2.getD ⟨0, 0, 0, 0⟩).restoring_arc_messages =
      ((restore_realm_archived_data false 1 storeRestoreDry).1).messages.length :=
  ⟨(c8_dry_run_amended.2 1 storeRestoreDry).1,
   by
    have h := ((c8_dry_run_amended.2 1 storeRestoreDry).2
      ((restore_realm_archived_data true 1 storeRestoreDry).2.getD ⟨0, 0, 0, 0⟩) rfl).1
    rw [show storeRestoreDry.messages.length = 0 from rfl] at h
    exact h⟩


/-! ## Idempotence of the sweep. -/

theorem move_expired_messages_to_archive_id (now : Int) (s : Store)
    (h : expiredMessagesCandidates now s = []) :
    move_expired_messages_to_archive now s = s := by
  unfold move_expired_messages_to_archive
  rw [h, List.map_nil, List.append_nil]

theorem move_expired_user_messages_to_archive_id (now : Int) (s : Store)
    (h : expiredUserMessagesCandidates now s = []) :
    move_expired_user_messages_to_archive now s = s := by
  unfold move_expired_user_messages_to_archive
  rw [h, List.map_nil, List.append_nil]

theorem move_expired_attachments_to_archive_id (now : Int) (s : Store)
    (h : expiredAttachmentsCandidates now s = []) :
    move_expired_attachments_to_archive now s = s := by
  unfold move_expired_attachments_to_archive
  rw [h, List.map_nil, List.append_nil]

theorem move_expired_attachments_message_rows_to_archive_id (now : Int) (s : Store)
    (h : expiredLinkCandidates now s = []) :
    move_expired_attachments_message_rows_to_archive now s = s := by
  unfold move_expired_attachments_message_rows_to_archive
  rw [h, List.map_nil, List.append_nil]

theorem delete_expired_user_messages_id (s : Store)
    (h : ∀ um ∈ s.usermessages, archivedUMId s um.id = false) :
    delete_expired_user_messages s = s := by
  unfold delete_expired_user_messages
  rw [List.filter_eq_self.mpr]
  intro um hum
  rw [h um hum]
  rfl

theorem delete_expired_messages_id (s : Store) (h : removing_messages s = []) :
    delete_expired_messages s = s := by
  unfold delete_expired_messages
  rw [h]
  simp only [List.any_nil, Bool.not_false, List.filter_true]

theorem delete_expired_attachments_id (s : Store) (h : attachments_to_remove s = []) :
    delete_expired_attachments s = s := by
  unfold delete_expired_attachments
  rw [h]
  simp only [List.any_nil, Bool.not_false, List.filter_true]

theorem sweep_archivedusermessages_eq_moves (now : Int) (st : Store) :
    ((archive_messages false now st).1).archivedusermessages =
      (move_expired_attachments_message_rows_to_archive now
        (move_expired_attachments_to_archive now
          (move_expired_user_messages_to_archive now
            (move_expired_messages_to_archive now st)))).archivedusermessages := by
  rw [sweep_archivedusermessages, moves_archivedusermessages]

theorem sweep_archivedmessages_eq_moves (now : Int) (st : Store) :
    ((archive_messages false now st).1).archivedmessages =
      (move_expired_attachments_message_rows_to_archive now
        (move_expired_attachments_to_archive now
          (move_expired_user_messages_to_archive now
            (move_expired_messages_to_archive now st)))).archivedmessages := by
  rw [sweep_archivedmessages, moves_archivedmessages]

theorem sweep_archivedattachments_eq_moves (now : Int) (st : Store) :
    ((archive_messages false now st).1).archivedattachments =
      (move_expired_attachments_message_rows_to_archive now
        (move_expired_attachments_to_archive now
          (move_expired_user_messages_to_archive now
            (move_expired_messages_to_archive now st)))).archivedattachments := by
  rw [sweep_archivedattachments, moves_archivedattachments]

/-- After the four copy phases, every eligible live delivery record has an
archive copy (by id). -/
theorem moves_umEligible_archived (now : Int) (st : Store) (um : UserMessage)
    (hum : um ∈ st.usermessages) (helig : umEligible st now um = true) :
    archivedUMId (move_expired_attachments_message_rows_to_archive now
      (move_expired_attachments_to_archive now
        (move_expired_user_messages_to_archive now
          (move_expired_messages_to_archive now st)))) um.id = true := by
  unfold archivedUMId
  rw [moves_archivedusermessages, List.any_append]
  rcases Bool.eq_false_or_eq_true (archivedUMId st um.id) with ht | hf
  · have h1 : (st.archivedusermessages.any fun aum => aum.um.id == um.id) = true := ht
    rw [h1, Bool.true_or]
  · have h2 : (((expiredUserMessagesCandidates now st).map
        (fun um => (⟨um, now⟩ : ArchivedUserMessage))).any
        fun aum => aum.um.id == um.id) = true := by
      rw [List.any_eq_true]
      refine ⟨⟨um, now⟩, ?_, by rw [beq_iff_eq]⟩
      rw [List.mem_map]
      refine ⟨um, ?_, rfl⟩
      rw [mem_expiredUserMessagesCandidates]
      exact ⟨hum, helig, hf⟩
    rw [h2, Bool.or_true]


/-- A delivery record that is live after a sweep run was live before and has
no archive copy by id after the copy phases. -/
theorem sweep_post_um_mem (now : Int) (st : Store) (um : UserMessage)
    (h : um ∈ ((archive_messages false now st).1).usermessages) :
    um ∈ st.usermessages ∧
      archivedUMId (move_expired_attachments_message_rows_to_archive now
        (move_expired_attachments_to_archive now
          (move_expired_user_messages_to_archive now
            (move_expired_messages_to_archive now st)))) um.id = false := by
  rw [archive_messages_false_eq, delete_expired_attachments_usermessages,
    delete_expired_messages_usermessages, List.mem_filter] at h
  obtain ⟨h5, hk⟩ := h
  rw [delete_expired_user_messages_usermessages, List.mem_filter] at h5
  obtain ⟨h4, hpred⟩ := h5
  rw [Bool.not_eq_true'] at hpred
  rw [moves_usermessages] at h4
  exact ⟨h4, hpred⟩

theorem sweep_post_messages_subset (now : Int) (st : Store) (m : Message)
    (h : m ∈ ((archive_messages false now st).1).messages) : m ∈ st.messages := by
  rw [archive_messages_false_eq, delete_expired_attachments_messages,
    delete_expired_messages_messages, List.mem_filter] at h
  have h5 := h.1
  rw [delete_expired_user_messages_messages, moves_messages] at h5
  exact h5

/-- After a sweep run, no live delivery record is still eligible, and none has
an archive copy by id. -/
theorem sweep_post_um_facts (now : Int) (st : Store) :
    ∀ um ∈ ((archive_messages false now st).1).usermessages,
      umEligible ((archive_messages false now st).1) now um = false ∧
        archivedUMId ((archive_messages false now st).1) um.id = false := by
  intro um hum
  obtain ⟨hst, harch4⟩ := sweep_post_um_mem now st um hum
  have harchP : archivedUMId ((archive_messages false now st).1) um.id = false := by
    rw [archivedUMId_congr um.id (sweep_archivedusermessages_eq_moves now st)]
    exact harch4
  refine ⟨?_, harchP⟩
  rcases Bool.eq_false_or_eq_true (umEligible ((archive_messages false now st).1) now um)
    with ht | hf
  · exfalso
    have helig : umEligible st now um = true :=
      umEligible_mono now um (fun m hm => sweep_post_messages_subset now st m hm)
        (sweep_userprofiles now st) (sweep_realms now st) ht
    have := moves_umEligible_archived now st um hst helig
    rw [this] at harch4
    exact Bool.noConfusion harch4
  · exact hf

/-- After a sweep run, no live message is still expired. -/
theorem sweep_post_no_expired_message (now : Int) (st : Store) :
    ∀ m ∈ ((archive_messages false now st).1).messages,
      messageExpired ((archive_messages false now st).1) now m = false := by
  intro m hm
  rcases Bool.eq_false_or_eq_true (messageExpired ((archive_messages false now st).1) now m)
    with ht | hf
  · exfalso
    unfold messageExpired at ht
    rw [List.any_eq_true] at ht
    obtain ⟨um, hum, hcond⟩ := ht
    rw [Bool.and_eq_true] at hcond
    have helig : umEligible ((archive_messages false now st).1) now um = true := by
      unfold umEligible
      rw [List.any_eq_true]
      refine ⟨m, hm, ?_⟩
      rw [Bool.and_eq_true, beq_iff_eq]
      rw [beq_iff_eq] at hcond
      exact ⟨hcond.1.symm, hcond.2⟩
    have := (sweep_post_um_facts now st um hum).1
    rw [helig] at this
    exact Bool.noConfusion this
  · exact hf

theorem sweep_post_no_msg_candidates (now : Int) (st : Store) :
    expiredMessagesCandidates now ((archive_messages false now st).1) = [] := by
  unfold expiredMessagesCandidates
  rw [List.filter_eq_nil]
  intro m hm
  rw [sweep_post_no_expired_message now st m hm]
  simp

theorem sweep_post_no_um_candidates (now : Int) (st : Store) :
    expiredUserMessagesCandidates now ((archive_messages false now st).1) = [] := by
  unfold expiredUserMessagesCandidates
  rw [List.filter_eq_nil]
  intro um hum
  rw [(sweep_post_um_facts now st um hum).1]
  simp

theorem sweep_post_no_att_candidates (now : Int) (st : Store) :
    expiredAttachmentsCandidates now ((archive_messages false now st).1) = [] := by
  unfold expiredAttachmentsCandidates
  rw [List.filter_eq_nil]
  intro a ha
  have helig : attachmentEligible ((archive_messages false now st).1) now a = false := by
    rcases Bool.eq_false_or_eq_true
        (attachmentEligible ((archive_messages false now st).1) now a) with ht | hf
    · exfalso
      unfold attachmentEligible at ht
      rw [List.any_eq_true] at ht
      obtain ⟨l, hl, hcond⟩ := ht
      rw [Bool.and_eq_true, List.any_eq_true] at hcond
      obtain ⟨m, hm, hcond2⟩ := hcond.2
      rw [Bool.and_eq_true] at hcond2
      have := sweep_post_no_expired_message now st m hm
      rw [this] at hcond2
      exact Bool.noConfusion hcond2.2
    · exact hf
  rw [helig]
  simp

theorem sweep_post_no_link_candidates (now : Int) (st : Store) :
    expiredLinkCandidates now ((archive_messages false now st).1) = [] := by
  unfold expiredLinkCandidates
  rw [List.filter_eq_nil]
  intro l hl
  have helig : linkEligible ((archive_messages false now st).1) now l = false := by
    rcases Bool.eq_false_or_eq_true
        (linkEligible ((archive_messages false now st).1) now l) with ht | hf
    · exfalso
      unfold linkEligible at ht
      rw [List.any_eq_true] at ht
      obtain ⟨m, hm, hcond⟩ := ht
      rw [Bool.and_eq_true] at hcond
      have := sweep_post_no_expired_message now st m hm
      rw [this] at hcond
      exact Bool.noConfusion hcond.2
    · exact hf
  rw [helig]
  simp


/-- After a sweep run, the `removing_messages` queryset is empty: every live
message with an archive copy still has a live delivery record. -/
theorem sweep_post_no_removable_message (now : Int) (st : Store) :
    removing_messages ((archive_messages false now st).1) = [] := by
  unfold removing_messages
  rw [List.filter_eq_nil]
  intro m hm hcond
  rw [Bool.and_eq_true, Bool.not_eq_true'] at hcond
  obtain ⟨hnoUM, harch⟩ := hcond
  have hm' := hm
  rw [archive_messages_false_eq, delete_expired_attachments_messages,
    delete_expired_messages_messages, List.mem_filter] at hm'
  obtain ⟨hm5, hkeep⟩ := hm'
  rw [Bool.not_eq_true'] at hkeep
  have hnoUM5 : hasLiveUM (delete_expired_user_messages
      (move_expired_attachments_message_rows_to_archive now
        (move_expired_attachments_to_archive now
          (move_expired_user_messages_to_archive now
            (move_expired_messages_to_archive now st))))) m.id = false := by
    rcases Bool.eq_false_or_eq_true (hasLiveUM (delete_expired_user_messages
        (move_expired_attachments_message_rows_to_archive now
          (move_expired_attachments_to_archive now
            (move_expired_user_messages_to_archive now
              (move_expired_messages_to_archive now st))))) m.id) with ht | hf
    · exfalso
      unfold hasLiveUM at ht
      rw [List.any_eq_true] at ht
      obtain ⟨um, hum5, hmid⟩ := ht
      rw [beq_iff_eq] at hmid
      have humP : um ∈ ((archive_messages false now st).1).usermessages := by
        rw [archive_messages_false_eq, delete_expired_attachments_usermessages,
          delete_expired_messages_usermessages, List.mem_filter]
        refine ⟨hum5, ?_⟩
        rw [hmid, hkeep]
        rfl
      have hlive : hasLiveUM ((archive_messages false now st).1) m.id = true := by
        unfold hasLiveUM
        rw [List.any_eq_true]
        exact ⟨um, humP, by rw [beq_iff_eq, hmid]⟩
      rw [hnoUM] at hlive
      exact Bool.noConfusion hlive
    · exact hf
  have harch5 : archivedMsgId (delete_expired_user_messages
      (move_expired_attachments_message_rows_to_archive now
        (move_expired_attachments_to_archive now
          (move_expired_user_messages_to_archive now
            (move_expired_messages_to_archive now st))))) m.id = true := by
    calc archivedMsgId (delete_expired_user_messages
          (move_expired_attachments_message_rows_to_archive now
            (move_expired_attachments_to_archive now
              (move_expired_user_messages_to_archive now
                (move_expired_messages_to_archive now st))))) m.id
        = archivedMsgId (move_expired_attachments_message_rows_to_archive now
            (move_expired_attachments_to_archive now
              (move_expired_user_messages_to_archive now
                (move_expired_messages_to_archive now st)))) m.id :=
          archivedMsgId_congr m.id (delete_expired_user_messages_archivedmessages _)
      _ = archivedMsgId ((archive_messages false now st).1) m.id :=
          (archivedMsgId_congr m.id (sweep_archivedmessages_eq_moves now st)).symm
      _ = true := harch
  have hmem : m ∈ removing_messages (delete_expired_user_messages
      (move_expired_attachments_message_rows_to_archive now
        (move_expired_attachments_to_archive now
          (move_expired_user_messages_to_archive now
            (move_expired_messages_to_archive now st))))) := by
    rw [mem_removing_messages]
    exact ⟨hm5, hnoUM5, harch5⟩
  have hany : ((removing_messages (delete_expired_user_messages
      (move_expired_attachments_message_rows_to_archive now
        (move_expired_attachments_to_archive now
          (move_expired_user_messages_to_archive now
            (move_expired_messages_to_archive now st)))))).any
      fun rm => rm.id == m.id) = true := by
    rw [List.any_eq_true]
    exact ⟨m, hmem, by rw [beq_iff_eq]⟩
  rw [hkeep] at hany
  exact Bool.noConfusion hany

/-- After a sweep run, the `attachments_to_remove` queryset is empty: every
live attachment with an archive copy still has a live m2m link. -/
theorem sweep_post_no_removable_attachment (now : Int) (st : Store) :
    attachments_to_remove ((archive_messages false now st).1) = [] := by
  unfold attachments_to_remove
  rw [List.filter_eq_nil]
  intro a ha hcond
  rw [Bool.and_eq_true, Bool.not_eq_true'] at hcond
  obtain ⟨hnoL, harch⟩ := hcond
  have ha' := ha
  rw [archive_messages_false_eq, delete_expired_attachments_attachments,
    List.mem_filter] at ha'
  obtain ⟨ha6, hkeep⟩ := ha'
  rw [Bool.not_eq_true'] at hkeep
  have hnoL6 : hasLiveLink (delete_expired_messages (delete_expired_user_messages
      (move_expired_attachments_message_rows_to_archive now
        (move_expired_attachments_to_archive now
          (move_expired_user_messages_to_archive now
            (move_expired_messages_to_archive now st)))))) a.id = false := by
    rcases Bool.eq_false_or_eq_true (hasLiveLink (delete_expired_messages
        (delete_expired_user_messages
          (move_expired_attachments_message_rows_to_archive now
            (move_expired_attachments_to_archive now
              (move_expired_user_messages_to_archive now
                (move_expired_messages_to_archive now st)))))) a.id) with ht | hf
    · exfalso
      unfold hasLiveLink at ht
      rw [List.any_eq_true] at ht
      obtain ⟨l, hl6, haid⟩ := ht
      rw [beq_iff_eq] at haid
      have hlP : l ∈ ((archive_messages false now st).1).attachment_messages := by
        rw [archive_messages_false_eq, delete_expired_attachments_attachment_messages,
          List.mem_filter]
        refine ⟨hl6, ?_⟩
        rw [haid, hkeep]
        rfl
      have hlive : hasLiveLink ((archive_messages false now st).1) a.id = true := by
        unfold hasLiveLink
        rw [List.any_eq_true]
        exact ⟨l, hlP, by rw [beq_iff_eq, haid]⟩
      rw [hnoL] at hlive
      exact Bool.noConfusion hlive
    · exact hf
  have harch6 : archivedAttId (delete_expired_messages (delete_expired_user_messages
      (move_expired_attachments_message_rows_to_archive now
        (move_expired_attachments_to_archive now
          (move_expired_user_messages_to_archive now
            (move_expired_messages_to_archive now st)))))) a.id = true := by
    calc archivedAttId (delete_expired_messages (delete_expired_user_messages
          (move_expired_attachments_message_rows_to_archive now
            (move_expired_attachments_to_archive now
              (move_expired_user_messages_to_archive now
                (move_expired_messages_to_archive now st)))))) a.id
        = archivedAttId (delete_expired_user_messages
            (move_expired_attachments_message_rows_to_archive now
              (move_expired_attachments_to_archive now
                (move_expired_user_messages_to_archive now
                  (move_expired_messages_to_archive now st))))) a.id :=
          archivedAttId_congr a.id (delete_expired_messages_archivedattachments _)
      _ = archivedAttId (move_expired_attachments_message_rows_to_archive now
            (move_expired_attachments_to_archive now
              (move_expired_user_messages_to_archive now
                (move_expired_messages_to_archive now st)))) a.id :=
          archivedAttId_congr a.id (delete_expired_user_messages_archivedattachments _)
      _ = archivedAttId ((archive_messages false now st).1) a.id :=
          (archivedAttId_congr a.id (sweep_archivedattachments_eq_moves now st)).symm
      _ = true := harch
  have hmem : a ∈ attachments_to_remove (delete_expired_messages
      (delete_expired_user_messages
        (move_expired_attachments_message_rows_to_archive now
          (move_expired_attachments_to_archive now
            (move_expired_user_messages_to_archive now
              (move_expired_messages_to_archive now st)))))) := by
    rw [mem_attachments_to_remove]
    exact ⟨ha6, hnoL6, harch6⟩
  have hany : ((attachments_to_remove (delete_expired_messages
      (delete_expired_user_messages
        (move_expired_attachments_message_rows_to_archive now
          (move_expired_attachments_to_archive now
            (move_expired_user_messages_to_archive now
              (move_expired_messages_to_archive now st))))))).any
      fun ra => ra.id == a.id) = true := by
    rw [List.any_eq_true]
    exact ⟨a, hmem, by rw [beq_iff_eq]⟩
  rw [hkeep] at hany
  exact Bool.noConfusion hany

theorem archive_messages_false_pair (now : Int) (st : Store) :
    archive_messages false now st = ((archive_messages false now st).1, none) := rfl

/-- C1: re-running the sweep is idempotent.  Running `archive_messages` a
second time with the same current time copies no new rows into any of the
four archive tables and deletes no additional live rows: the store after two
runs equals the store after one run (so in particular the archive content is
identical). -/
theorem c1_sweep_idempotent (now : Int) (st : Store) :
    archive_messages false now ((archive_messages false now st).1) =
      ((archive_messages false now st).1, none) := by
  rw [archive_messages_false_pair now ((archive_messages false now st).1)]
  simp only [Prod.mk.injEq, and_true]
  rw [archive_messages_false_eq]
  rw [move_expired_messages_to_archive_id now _ (sweep_post_no_msg_candidates now st)]
  rw [move_expired_user_messages_to_archive_id now _ (sweep_post_no_um_candidates now st)]
  rw [move_expired_attachments_to_archive_id now _ (sweep_post_no_att_candidates now st)]
  rw [move_expired_attachments_message_rows_to_archive_id now _
    (sweep_post_no_link_candidates now st)]
  rw [delete_expired_user_messages_id _ (fun um hum => (sweep_post_um_facts now st um hum).2)]
  rw [delete_expired_messages_id _ (sweep_post_no_removable_message now st)]
  rw [delete_expired_attachments_id _ (sweep_post_no_removable_attachment now st)]


/-! ## Restore round trip. -/

theorem mem_restoreMessagesCandidates {rid : Nat} {s : Store} {am : ArchivedMessage} :
    am ∈ restoreMessagesCandidates rid s ↔
      am ∈ s.archivedmessages ∧
        (∃ aum ∈ s.archivedusermessages, aum.um.message_id = am.msg.id ∧
          ∃ up ∈ s.userprofiles, up.id = aum.um.user_profile_id ∧ up.realm_id = rid) ∧
        liveMsgId s am.msg.id = false := by
  unfold restoreMessagesCandidates
  rw [List.mem_filter]
  simp only [Bool.and_eq_true, List.any_eq_true, beq_iff_eq, Bool.not_eq_true']

theorem mem_restoreUserMessagesCandidates {rid : Nat} {s : Store}
    {aum : ArchivedUserMessage} :
    aum ∈ restoreUserMessagesCandidates rid s ↔
      aum ∈ s.archivedusermessages ∧
        (∃ up ∈ s.userprofiles, up.id = aum.um.user_profile_id ∧ up.realm_id = rid) ∧
        liveUMId s aum.um.id = false ∧ liveMsgId s aum.um.message_id = true := by
  unfold restoreUserMessagesCandidates
  rw [List.mem_filter]
  simp only [Bool.and_eq_true, List.any_eq_true, beq_iff_eq, Bool.not_eq_true']
  tauto

theorem mem_restoreAttachmentsCandidates {rid : Nat} {s : Store} {aa : ArchivedAttachment} :
    aa ∈ restoreAttachmentsCandidates rid s ↔
      aa ∈ s.archivedattachments ∧
        (∃ al ∈ s.archivedattachment_messages, al.archivedattachment_id = aa.att.id ∧
          ∃ am ∈ s.archivedmessages, am.msg.id = al.archivedmessage_id ∧
            ∃ aum ∈ s.archivedusermessages, aum.um.message_id = am.msg.id ∧
              ∃ up ∈ s.userprofiles, up.id = aum.um.user_profile_id ∧ up.realm_id = rid) ∧
        liveAttId s aa.att.id = false := by
  unfold restoreAttachmentsCandidates
  rw [List.mem_filter]
  simp only [Bool.and_eq_true, List.any_eq_true, beq_iff_eq, Bool.not_eq_true']

theorem mem_restoreLinkCandidates {rid : Nat} {s : Store} {al : ArchivedAttachmentMessage} :
    al ∈ restoreLinkCandidates rid s ↔
      al ∈ s.archivedattachment_messages ∧
        (∃ am ∈ s.archivedmessages, am.msg.id = al.archivedmessage_id ∧
          ∃ aum ∈ s.archivedusermessages, aum.um.message_id = am.msg.id ∧
            ∃ up ∈ s.userprofiles, up.id = aum.um.user_profile_id ∧ up.realm_id = rid) ∧
        liveLinkId s al.id = false := by
  unfold restoreLinkCandidates
  rw [List.mem_filter]
  simp only [Bool.and_eq_true, List.any_eq_true, beq_iff_eq, Bool.not_eq_true']

theorem sweep_post_attachments_subset (now : Int) (st : Store) (a : Attachment)
    (h : a ∈ ((archive_messages false now st).1).attachments) : a ∈ st.attachments := by
  rw [archive_messages_false_eq, delete_expired_attachments_attachments,
    List.mem_filter] at h
  have h6 := h.1
  rw [delete_expired_messages_attachments, delete_expired_user_messages_attachments,
    moves_attachments] at h6
  exact h6

theorem sweep_post_links_subset (now : Int) (st : Store) (l : AttachmentMessage)
    (h : l ∈ ((archive_messages false now st).1).attachment_messages) :
    l ∈ st.attachment_messages := by
  rw [archive_messages_false_eq, delete_expired_attachments_attachment_messages,
    List.mem_filter] at h
  have h6 := h.1
  rw [delete_expired_messages_attachment_messages, List.mem_filter] at h6
  have h5 := h6.1
  rw [delete_expired_user_messages_attachment_messages, moves_attachment_messages] at h5
  exact h5


/-- With an initially empty archive, a message the sweep removed was an
archive candidate (in particular, it was expired). -/
theorem sweep_removed_message_candidate (now : Int) (st : Store)
    (hA : st.archivedmessages = [])
    (huniq : ∀ x ∈ st.messages, ∀ y ∈ st.messages, x.id = y.id → x = y)
    (m : Message) (hm : m ∈ st.messages)
    (hnot : m ∉ ((archive_messages false now st).1).messages) :
    m ∈ expiredMessagesCandidates now st := by
  have hm5 : m ∈ (delete_expired_user_messages
      (move_expired_attachments_message_rows_to_archive now
        (move_expired_attachments_to_archive now
          (move_expired_user_messages_to_archive now
            (move_expired_messages_to_archive now st))))).messages := by
    rw [delete_expired_user_messages_messages, moves_messages]
    exact hm
  have hnot6 : m ∉ (delete_expired_messages (delete_expired_user_messages
      (move_expired_attachments_message_rows_to_archive now
        (move_expired_attachments_to_archive now
          (move_expired_user_messages_to_archive now
            (move_expired_messages_to_archive now st)))))).messages := by
    intro hc
    apply hnot
    rw [archive_messages_false_eq, delete_expired_attachments_messages]
    exact hc
  have harch := (delete_expired_messages_removed hm5 hnot6).1
  rw [archivedMsgId_congr m.id (delete_expired_user_messages_archivedmessages _)] at harch
  unfold archivedMsgId at harch
  rw [moves_archivedmessages, hA, List.nil_append, List.any_eq_true] at harch
  obtain ⟨amrow, hmem, hid⟩ := harch
  rw [List.mem_map] at hmem
  obtain ⟨m', hm', heq⟩ := hmem
  rw [← heq, beq_iff_eq] at hid
  have hmm : m' = m := huniq m' (mem_expiredMessagesCandidates.mp hm').1 m hm hid
  rw [← hmm]
  exact hm'

/-- With an initially empty archive, a delivery record the sweep removed was
an archive candidate. -/
theorem sweep_removed_um_candidate (now : Int) (st : Store)
    (hA : st.archivedusermessages = [])
    (huniq : ∀ x ∈ st.usermessages, ∀ y ∈ st.usermessages, x.id = y.id → x = y)
    (um : UserMessage) (hum : um ∈ st.usermessages)
    (hnot : um ∉ ((archive_messages false now st).1).usermessages) :
    um ∈ expiredUserMessagesCandidates now st := by
  have hum4 : um ∈ (move_expired_attachments_message_rows_to_archive now
      (move_expired_attachments_to_archive now
        (move_expired_user_messages_to_archive now
          (move_expired_messages_to_archive now st)))).usermessages := by
    rw [moves_usermessages]
    exact hum
  have hnotD : um ∉ (delete_expired_attachments (delete_expired_messages
      (delete_expired_user_messages
        (move_expired_attachments_message_rows_to_archive now
          (move_expired_attachments_to_archive now
            (move_expired_user_messages_to_archive now
              (move_expired_messages_to_archive now st))))))).usermessages := by
    intro hc
    apply hnot
    rw [archive_messages_false_eq]
    exact hc
  have harch := deletechain_um_live_or_archived _ um hum4 hnotD
  unfold archivedUMId at harch
  rw [moves_archivedusermessages, hA, List.nil_append, List.any_eq_true] at harch
  obtain ⟨aumrow, hmem, hid⟩ := harch
  rw [List.mem_map] at hmem
  obtain ⟨um', hum', heq⟩ := hmem
  rw [← heq, beq_iff_eq] at hid
  have hmm : um' = um := huniq um' (mem_expiredUserMessagesCandidates.mp hum').1 um hum hid
  rw [← hmm]
  exact hum'

/-- With an initially empty archive, an attachment the sweep removed was an
archive candidate. -/
theorem sweep_removed_attachment_candidate (now : Int) (st : Store)
    (hA : st.archivedattachments = [])
    (huniq : ∀ x ∈ st.attachments, ∀ y ∈ st.attachments, x.id = y.id → x = y)
    (a : Attachment) (ha : a ∈ st.attachments)
    (hnot : a ∉ ((archive_messages false now st).1).attachments) :
    a ∈ expiredAttachmentsCandidates now st := by
  have ha6 : a ∈ (delete_expired_messages (delete_expired_user_messages
      (move_expired_attachments_message_rows_to_archive now
        (move_expired_attachments_to_archive now
          (move_expired_user_messages_to_archive now
            (move_expired_messages_to_archive now st)))))).attachments := by
    rw [delete_expired_messages_attachments, delete_expired_user_messages_attachments,
      moves_attachments]
    exact ha
  have hnot6 : a ∉ (delete_expired_attachments (delete_expired_messages
      (delete_expired_user_messages
        (move_expired_attachments_message_rows_to_archive now
          (move_expired_attachments_to_archive now
            (move_expired_user_messages_to_archive now
              (move_expired_messages_to_archive now st))))))).attachments := by
    intro hc
    apply hnot
    rw [archive_messages_false_eq]
    exact hc
  have harch := (delete_expired_attachments_removed ha6 hnot6).1
  rw [archivedAttId_congr a.id (delete_expired_messages_archivedattachments _)] at harch
  rw [archivedAttId_congr a.id (delete_expired_user_messages_archivedattachments _)] at harch
  unfold archivedAttId at harch
  rw [moves_archivedattachments, hA, List.nil_append, List.any_eq_true] at harch
  obtain ⟨aarow, hmem, hid⟩ := harch
  rw [List.mem_map] at hmem
  obtain ⟨a', ha', heq⟩ := hmem
  rw [← heq, beq_iff_eq] at hid
  have hmm : a' = a := huniq a' (mem_expiredAttachmentsCandidates.mp ha').1 a ha hid
  rw [← hmm]
  exact ha'

/-- With an initially empty archive, an m2m link row the sweep removed was an
archive candidate. -/
theorem sweep_removed_link_candidate (now : Int) (st : Store)
    (hAm : st.archivedmessages = []) (hAl : st.archivedattachment_messages = [])
    (huniqM : ∀ x ∈ st.messages, ∀ y ∈ st.messages, x.id = y.id → x = y)
    (l : AttachmentMessage) (hl : l ∈ st.attachment_messages)
    (hnot : l ∉ ((archive_messages false now st).1).attachment_messages) :
    l ∈ expiredLinkCandidates now st := by
  by_cases h6 : l ∈ (delete_expired_messages (delete_expired_user_messages
      (move_expired_attachments_message_rows_to_archive now
        (move_expired_attachments_to_archive now
          (move_expired_user_messages_to_archive now
            (move_expired_messages_to_archive now st)))))).attachment_messages
  · -- dropped by the attachment cascade — impossible, it is itself a live link
    exfalso
    have hnotP := hnot
    rw [archive_messages_false_eq, delete_expired_attachments_attachment_messages,
      List.mem_filter] at hnotP
    have hany : ((attachments_to_remove (delete_expired_messages
        (delete_expired_user_messages
          (move_expired_attachments_message_rows_to_archive now
            (move_expired_attachments_to_archive now
              (move_expired_user_messages_to_archive now
                (move_expired_messages_to_archive now st))))))).any
        fun ra => ra.id == l.attachment_id) = true := by
      rcases Bool.eq_false_or_eq_true ((attachments_to_remove (delete_expired_messages
          (delete_expired_user_messages
            (move_expired_attachments_message_rows_to_archive now
              (move_expired_attachments_to_archive now
                (move_expired_user_messages_to_archive now
                  (move_expired_messages_to_archive now st))))))).any
          fun ra => ra.id == l.attachment_id) with ht | hf
      · exact ht
      · exact absurd ⟨h6, by simp [hf]⟩ hnotP
    rw [List.any_eq_true] at hany
    obtain ⟨ra, hra, hid⟩ := hany
    rw [beq_iff_eq] at hid
    rw [mem_attachments_to_remove] at hra
    have hlive : hasLiveLink (delete_expired_messages (delete_expired_user_messages
        (move_expired_attachments_message_rows_to_archive now
          (move_expired_attachments_to_archive now
            (move_expired_user_messages_to_archive now
              (move_expired_messages_to_archive now st)))))) ra.id = true := by
      unfold hasLiveLink
      rw [List.any_eq_true]
      exact ⟨l, h6, by rw [beq_iff_eq, hid]⟩
    rw [hra.2.1] at hlive
    exact Bool.noConfusion hlive
  · -- dropped by the message cascade: its message was purged, hence expired
    have hl5 : l ∈ (delete_expired_user_messages
        (move_expired_attachments_message_rows_to_archive now
          (move_expired_attachments_to_archive now
            (move_expired_user_messages_to_archive now
              (move_expired_messages_to_archive now st))))).attachment_messages := by
      rw [delete_expired_user_messages_attachment_messages, moves_attachment_messages]
      exact hl
    rw [delete_expired_messages_attachment_messages, List.mem_filter] at h6
    have hany : ((removing_messages (delete_expired_user_messages
        (move_expired_attachments_message_rows_to_archive now
          (move_expired_attachments_to_archive now
            (move_expired_user_messages_to_archive now
              (move_expired_messages_to_archive now st)))))).any
        fun rm => rm.id == l.message_id) = true := by
      rcases Bool.eq_false_or_eq_true ((removing_messages (delete_expired_user_messages
          (move_expired_attachments_message_rows_to_archive now
            (move_expired_attachments_to_archive now
              (move_expired_user_messages_to_archive now
                (move_expired_messages_to_archive now st)))))).any
          fun rm => rm.id == l.message_id) with ht | hf
      · exact ht
      · exact absurd ⟨hl5, by simp [hf]⟩ h6
    rw [List.any_eq_true] at hany
    obtain ⟨rm, hrm, hid⟩ := hany
    rw [beq_iff_eq] at hid
    rw [mem_removing_messages] at hrm
    have hrmst : rm ∈ st.messages := by
      have := hrm.1
      rw [delete_expired_user_messages_messages, moves_messages] at this
      exact this
    have harch := hrm.2.2
    rw [archivedMsgId_congr rm.id (delete_expired_user_messages_archivedmessages _)] at harch
    unfold archivedMsgId at harch
    rw [moves_archivedmessages, hAm, List.nil_append, List.any_eq_true] at harch
    obtain ⟨amrow, hmem, hid2⟩ := harch
    rw [List.mem_map] at hmem
    obtain ⟨m', hm', heq⟩ := hmem
    rw [← heq, beq_iff_eq] at hid2
    have hmm : m' = rm :=
      huniqM m' (mem_expiredMessagesCandidates.mp hm').1 rm hrmst hid2
    rw [mem_expiredLinkCandidates]
    refine ⟨hl, ?_, by unfold archivedLinkId; rw [hAl]; rfl⟩
    unfold linkEligible
    rw [List.any_eq_true]
    refine ⟨rm, hrmst, ?_⟩
    rw [Bool.and_eq_true, beq_iff_eq]
    refine ⟨hid, ?_⟩
    have hexp := (mem_expiredMessagesCandidates.mp hm').2.1
    rw [hmm] at hexp
    exact hexp


/-- An expired live message leaves, after the sweep's copy phases, an archived
delivery record referencing it whose user profile belongs to the sole
retention-configured realm. -/
theorem expired_gives_archived_chain (now : Int) (rid : Nat) (st : Store)
    (hrealm : ∀ r ∈ st.realms, r.message_retention_days ≠ none → r.id = rid)
    (hAum : st.archivedusermessages = [])
    (m : Message) (hm : m ∈ st.messages) (hexp : messageExpired st now m = true) :
    ∃ aum ∈ ((archive_messages false now st).1).archivedusermessages,
      aum.um.message_id = m.id ∧
        ∃ up ∈ st.userprofiles, up.id = aum.um.user_profile_id ∧ up.realm_id = rid := by
  obtain ⟨um, hum, hmid, up, hup, hupid, r, hr, hrid, d, hrd, hage⟩ :=
    (messageExpired_iff st now m).mp hexp
  have hchain : umChainElapsed st now um m = true := by
    unfold umChainElapsed
    rw [List.any_eq_true]
    refine ⟨up, hup, ?_⟩
    rw [Bool.and_eq_true, beq_iff_eq]
    refine ⟨hupid, ?_⟩
    rw [List.any_eq_true]
    refine ⟨r, hr, ?_⟩
    rw [Bool.and_eq_true, beq_iff_eq]
    exact ⟨hrid, (retentionElapsed_iff r now m).mpr ⟨d, hrd, hage⟩⟩
  have helig : umEligible st now um = true := by
    unfold umEligible
    rw [List.any_eq_true]
    refine ⟨m, hm, ?_⟩
    rw [Bool.and_eq_true, beq_iff_eq]
    exact ⟨hmid.symm, hchain⟩
  have hcand : um ∈ expiredUserMessagesCandidates now st := by
    rw [mem_expiredUserMessagesCandidates]
    exact ⟨hum, helig, by unfold archivedUMId; rw [hAum]; rfl⟩
  have hridrid : r.id = rid := hrealm r hr (by rw [hrd]; exact fun hc => Option.noConfusion hc)
  have hupr : up.realm_id = rid := by
    rw [← hrid]
    exact hridrid
  refine ⟨⟨um, now⟩, ?_, hmid, up, hup, hupid, hupr⟩
  rw [sweep_archivedusermessages, hAum, List.nil_append, List.mem_map]
  exact ⟨um, hcand, rfl⟩

/-- Round trip for the message table (initially empty archive, `rid` the only
retention-configured realm, unique message ids). -/
theorem c3_messages_iff (now : Int) (rid : Nat) (st : Store)
    (hrealm : ∀ r ∈ st.realms, r.message_retention_days ≠ none → r.id = rid)
    (hAm : st.archivedmessages = []) (hAum : st.archivedusermessages = [])
    (hUm : ∀ x ∈ st.messages, ∀ y ∈ st.messages, x.id = y.id → x = y) :
    ∀ m : Message,
      m ∈ ((restore_realm_archived_data false rid
        ((archive_messages false now st).1)).1).messages ↔ m ∈ st.messages := by
  intro m
  rw [restore_false_messages, List.mem_append]
  constructor
  · rintro (h | h)
    · exact sweep_post_messages_subset now st m h
    · rw [List.mem_map] at h
      obtain ⟨am, ham, heq⟩ := h
      have h1 := (mem_restoreMessagesCandidates.mp ham).1
      rw [sweep_archivedmessages, hAm, List.nil_append, List.mem_map] at h1
      obtain ⟨m', hm', heq2⟩ := h1
      have : m' = m := by
        rw [← heq, ← heq2]
      rw [← this]
      exact (mem_expiredMessagesCandidates.mp hm').1
  · intro hm
    by_cases hP : m ∈ ((archive_messages false now st).1).messages
    · exact Or.inl hP
    · right
      rw [List.mem_map]
      refine ⟨⟨m, now⟩, ?_, rfl⟩
      have hcand := sweep_removed_message_candidate now st hAm hUm m hm hP
      rw [mem_restoreMessagesCandidates]
      refine ⟨?_, ?_, ?_⟩
      · rw [sweep_archivedmessages, hAm, List.nil_append, List.mem_map]
        exact ⟨m, hcand, rfl⟩
      · obtain ⟨aum, haum, hmid, up, hup, hchain⟩ := expired_gives_archived_chain now rid st
          hrealm hAum m hm (mem_expiredMessagesCandidates.mp hcand).2.1
        refine ⟨aum, haum, hmid, up, ?_, hchain⟩
        rw [sweep_userprofiles]
        exact hup
      · rcases Bool.eq_false_or_eq_true
            (liveMsgId ((archive_messages false now st).1) m.id) with ht | hf
        · exfalso
          unfold liveMsgId at ht
          rw [List.any_eq_true] at ht
          obtain ⟨m', hm', hid⟩ := ht
          rw [beq_iff_eq] at hid
          have : m' = m := hUm m' (sweep_post_messages_subset now st m' hm') m hm hid
          rw [this] at hm'
          exact hP hm'
        · exact hf


/-- Round trip for the delivery-record table. -/
theorem c3_usermessages_iff (now : Int) (rid : Nat) (st : Store)
    (hrealm : ∀ r ∈ st.realms, r.message_retention_days ≠ none → r.id = rid)
    (hAm : st.archivedmessages = []) (hAum : st.archivedusermessages = [])
    (hUm : ∀ x ∈ st.messages, ∀ y ∈ st.messages, x.id = y.id → x = y)
    (hUum : ∀ x ∈ st.usermessages, ∀ y ∈ st.usermessages, x.id = y.id → x = y) :
    ∀ um : UserMessage,
      um ∈ ((restore_realm_archived_data false rid
        ((archive_messages false now st).1)).1).usermessages ↔ um ∈ st.usermessages := by
  intro um
  rw [restore_false_usermessages, List.mem_append]
  constructor
  · rintro (h | h)
    · exact (sweep_post_um_mem now st um h).1
    · rw [List.mem_map] at h
      obtain ⟨aum, haum, heq⟩ := h
      have h1 := (mem_restoreUserMessagesCandidates.mp haum).1
      rw [restore_archived_messages_by_realm_archivedusermessages,
        sweep_archivedusermessages, hAum, List.nil_append, List.mem_map] at h1
      obtain ⟨um', hum', heq2⟩ := h1
      have : um' = um := by
        rw [← heq, ← heq2]
      rw [← this]
      exact (mem_expiredUserMessagesCandidates.mp hum').1
  · intro hum
    by_cases hP : um ∈ ((archive_messages false now st).1).usermessages
    · exact Or.inl hP
    · right
      rw [List.mem_map]
      refine ⟨⟨um, now⟩, ?_, rfl⟩
      have hcand := sweep_removed_um_candidate now st hAum hUum um hum hP
      have helig := (mem_expiredUserMessagesCandidates.mp hcand).2.1
      -- unpack the eligibility chain
      have helig' := helig
      unfold umEligible at helig'
      rw [List.any_eq_true] at helig'
      obtain ⟨m, hmst, hcond⟩ := helig'
      rw [Bool.and_eq_true, beq_iff_eq] at hcond
      obtain ⟨hmid, hchain⟩ := hcond
      unfold umChainElapsed at hchain
      rw [List.any_eq_true] at hchain
      obtain ⟨up, hup, hc2⟩ := hchain
      rw [Bool.and_eq_true, beq_iff_eq] at hc2
      obtain ⟨hupid, hc3⟩ := hc2
      rw [List.any_eq_true] at hc3
      obtain ⟨r, hr, hc4⟩ := hc3
      rw [Bool.and_eq_true, beq_iff_eq] at hc4
      obtain ⟨hrid, helapsed⟩ := hc4
      have hrsome : r.message_retention_days ≠ none := by
        intro hc
        unfold retentionElapsed at helapsed
        rw [hc] at helapsed
        exact Bool.noConfusion helapsed
      have hupr : up.realm_id = rid := by
        rw [← hrid]
        exact hrealm r hr hrsome
      rw [mem_restoreUserMessagesCandidates]
      refine ⟨?_, ?_, ?_, ?_⟩
      · rw [restore_archived_messages_by_realm_archivedusermessages,
          sweep_archivedusermessages, hAum, List.nil_append, List.mem_map]
        exact ⟨um, hcand, rfl⟩
      · refine ⟨up, ?_, hupid, hupr⟩
        rw [restore_archived_messages_by_realm_userprofiles, sweep_userprofiles]
        exact hup
      · rcases Bool.eq_false_or_eq_true (liveUMId (restore_archived_messages_by_realm rid
            ((archive_messages false now st).1)) um.id) with ht | hf
        · exfalso
          unfold liveUMId at ht
          rw [restore_archived_messages_by_realm_usermessages, List.any_eq_true] at ht
          obtain ⟨um', hum', hid⟩ := ht
          rw [beq_iff_eq] at hid
          have : um' = um :=
            hUum um' ((sweep_post_um_mem now st um' hum').1) um hum hid
          rw [this] at hum'
          exact hP hum'
        · exact hf
      · unfold liveMsgId
        rw [restore_archived_messages_by_realm_messages, List.any_eq_true]
        have hmfin : m ∈ ((restore_realm_archived_data false rid
            ((archive_messages false now st).1)).1).messages :=
          (c3_messages_iff now rid st hrealm hAm hAum hUm m).mpr hmst
        rw [restore_false_messages] at hmfin
        exact ⟨m, hmfin, by rw [beq_iff_eq, hmid]⟩


/-- Round trip for the attachment table. -/
theorem c3_attachments_iff (now : Int) (rid : Nat) (st : Store)
    (hrealm : ∀ r ∈ st.realms, r.message_retention_days ≠ none → r.id = rid)
    (hAm : st.archivedmessages = []) (hAum : st.archivedusermessages = [])
    (hAa : st.archivedattachments = []) (hAl : st.archivedattachment_messages = [])
    (hUa : ∀ x ∈ st.attachments, ∀ y ∈ st.attachments, x.id = y.id → x = y) :
    ∀ a : Attachment,
      a ∈ ((restore_realm_archived_data false rid
        ((archive_messages false now st).1)).1).attachments ↔ a ∈ st.attachments := by
  intro a
  rw [restore_false_attachments, List.mem_append]
  constructor
  · rintro (h | h)
    · exact sweep_post_attachments_subset now st a h
    · rw [List.mem_map] at h
      obtain ⟨aa, haa, heq⟩ := h
      have h1 := (mem_restoreAttachmentsCandidates.mp haa).1
      rw [sweep_archivedattachments, hAa, List.nil_append, List.mem_map] at h1
      obtain ⟨a', ha', heq2⟩ := h1
      have : a' = a := by
        rw [← heq, ← heq2]
      rw [← this]
      exact (mem_expiredAttachmentsCandidates.mp ha').1
  · intro ha
    by_cases hP : a ∈ ((archive_messages false now st).1).attachments
    · exact Or.inl hP
    · right
      rw [List.mem_map]
      refine ⟨⟨a, now⟩, ?_, rfl⟩
      have hcand := sweep_removed_attachment_candidate now st hAa hUa a ha hP
      have heligA := (mem_expiredAttachmentsCandidates.mp hcand).2.1
      unfold attachmentEligible at heligA
      rw [List.any_eq_true] at heligA
      obtain ⟨l1, hl1, hcondA⟩ := heligA
      rw [Bool.and_eq_true, beq_iff_eq] at hcondA
      obtain ⟨hl1a, hcondB⟩ := hcondA
      rw [List.any_eq_true] at hcondB
      obtain ⟨m1, hm1, hcond1⟩ := hcondB
      rw [Bool.and_eq_true, beq_iff_eq] at hcond1
      obtain ⟨hm1id, hexp1⟩ := hcond1
      have hl1cand : l1 ∈ expiredLinkCandidates now st := by
        rw [mem_expiredLinkCandidates]
        refine ⟨hl1, ?_, by unfold archivedLinkId; rw [hAl]; rfl⟩
        unfold linkEligible
        rw [List.any_eq_true]
        exact ⟨m1, hm1, by rw [Bool.and_eq_true, beq_iff_eq]; exact ⟨hm1id, hexp1⟩⟩
      obtain ⟨aum, haum, haumid, up, hup, hchain⟩ :=
        expired_gives_archived_chain now rid st hrealm hAum m1 hm1 hexp1
      rw [mem_restoreAttachmentsCandidates]
      refine ⟨?_, ?_, ?_⟩
      · rw [sweep_archivedattachments, hAa, List.nil_append, List.mem_map]
        exact ⟨a, hcand, rfl⟩
      · refine ⟨⟨l1.id, l1.attachment_id, l1.message_id⟩, ?_, hl1a, ⟨m1, now⟩, ?_,
          hm1id, aum, haum, haumid, up, ?_, hchain⟩
        · rw [sweep_archivedattachment_messages, hAl, List.nil_append, List.mem_map]
          exact ⟨l1, hl1cand, rfl⟩
        · rw [sweep_archivedmessages, hAm, List.nil_append, List.mem_map]
          refine ⟨m1, ?_, rfl⟩
          rw [mem_expiredMessagesCandidates]
          exact ⟨hm1, hexp1, by unfold archivedMsgId; rw [hAm]; rfl⟩
        · rw [sweep_userprofiles]
          exact hup
      · rcases Bool.eq_false_or_eq_true
            (liveAttId ((archive_messages false now st).1) a.id) with ht | hf
        · exfalso
          unfold liveAttId at ht
          rw [List.any_eq_true] at ht
          obtain ⟨a', ha', hid⟩ := ht
          rw [beq_iff_eq] at hid
          have : a' = a := hUa a' (sweep_post_attachments_subset now st a' ha') a ha hid
          rw [this] at ha'
          exact hP ha'
        · exact hf

/-- Round trip for the m2m link table. -/
theorem c3_links_iff (now : Int) (rid : Nat) (st : Store)
    (hrealm : ∀ r ∈ st.realms, r.message_retention_days ≠ none → r.id = rid)
    (hAm : st.archivedmessages = []) (hAum : st.archivedusermessages = [])
    (hAl : st.archivedattachment_messages = [])
    (hUm : ∀ x ∈ st.messages, ∀ y ∈ st.messages, x.id = y.id → x = y)
    (hUl : ∀ x ∈ st.attachment_messages, ∀ y ∈ st.attachment_messages,
      x.id = y.id → x = y) :
    ∀ l : AttachmentMessage,
      l ∈ ((restore_realm_archived_data false rid
        ((archive_messages false now st).1)).1).attachment_messages ↔
        l ∈ st.attachment_messages := by
  intro l
  rw [restore_false_attachment_messages, List.mem_append]
  constructor
  · rintro (h | h)
    · exact sweep_post_links_subset now st l h
    · rw [List.mem_map] at h
      obtain ⟨al, hal, heq⟩ := h
      have h1 := (mem_restoreLinkCandidates.mp hal).1
      rw [sweep_archivedattachment_messages, hAl, List.nil_append, List.mem_map] at h1
      obtain ⟨l0, hl0, heq2⟩ := h1
      have hll : l = l0 := by
        rw [← heq, ← heq2]
      rw [hll]
      exact (mem_expiredLinkCandidates.mp hl0).1
  · intro hl
    by_cases hP : l ∈ ((archive_messages false now st).1).attachment_messages
    · exact Or.inl hP
    · right
      rw [List.mem_map]
      refine ⟨⟨l.id, l.attachment_id, l.message_id⟩, ?_, rfl⟩
      have hcand := sweep_removed_link_candidate now st hAm hAl hUm l hl hP
      have helig := (mem_expiredLinkCandidates.mp hcand).2.1
      unfold linkEligible at helig
      rw [List.any_eq_true] at helig
      obtain ⟨m, hm, hcond⟩ := helig
      rw [Bool.and_eq_true, beq_iff_eq] at hcond
      obtain ⟨hmid, hexp⟩ := hcond
      obtain ⟨aum, haum, haumid, up, hup, hchain⟩ :=
        expired_gives_archived_chain now rid st hrealm hAum m hm hexp
      rw [mem_restoreLinkCandidates]
      refine ⟨?_, ?_, ?_⟩
      · rw [sweep_archivedattachment_messages, hAl, List.nil_append, List.mem_map]
        exact ⟨l, hcand, rfl⟩
      · refine ⟨⟨m, now⟩, ?_, hmid, aum, haum, haumid, up, ?_, hchain⟩
        · rw [sweep_archivedmessages, hAm, List.nil_append, List.mem_map]
          refine ⟨m, ?_, rfl⟩
          rw [mem_expiredMessagesCandidates]
          exact ⟨hm, hexp, by unfold archivedMsgId; rw [hAm]; rfl⟩
        · rw [sweep_userprofiles]
          exact hup
      · rcases Bool.eq_false_or_eq_true
            (liveLinkId ((archive_messages false now st).1) l.id) with ht | hf
        · exfalso
          unfold liveLinkId at ht
          rw [List.any_eq_true] at ht
          obtain ⟨l', hl', hid⟩ := ht
          rw [beq_iff_eq] at hid
          have : l' = l := hUl l' (sweep_post_links_subset now st l' hl') l hl hid
          rw [this] at hl'
          exact hP hl'
        · exact hf


/-- C3 (amended): restore round trip.  Starting from a store with empty
archive tables, in which `rid` is the only realm with a configured retention
window and ids are unique per live table, running `archive_messages`
(non-dry-run) followed by `restore_realm_archived_data rid` (non-dry-run)
yields a live store whose message, delivery-record, attachment and
attachment-link rows are exactly the pre-sweep ones, and realm `rid`'s
`message_retention_days` is set to `None`.  (As stated over every store the
claim is false: `c3_counterexample`.) -/
theorem c3_restore_round_trip_amended (now : Int) (rid : Nat) (st : Store)
    (hrealm : ∀ r ∈ st.realms, r.message_retention_days ≠ none → r.id = rid)
    (hAm : st.archivedmessages = []) (hAum : st.archivedusermessages = [])
    (hAa : st.archivedattachments = []) (hAl : st.archivedattachment_messages = [])
    (hUm : ∀ x ∈ st.messages, ∀ y ∈ st.messages, x.id = y.id → x = y)
    (hUum : ∀ x ∈ st.usermessages, ∀ y ∈ st.usermessages, x.id = y.id → x = y)
    (hUa : ∀ x ∈ st.attachments, ∀ y ∈ st.attachments, x.id = y.id → x = y)
    (hUl : ∀ x ∈ st.attachment_messages, ∀ y ∈ st.attachment_messages,
      x.id = y.id → x = y) :
    (∀ m : Message, m ∈ ((restore_realm_archived_data false rid
        ((archive_messages false now st).1)).1).messages ↔ m ∈ st.messages) ∧
    (∀ um : UserMessage, um ∈ ((restore_realm_archived_data false rid
        ((archive_messages false now st).1)).1).usermessages ↔ um ∈ st.usermessages) ∧
    (∀ a : Attachment, a ∈ ((restore_realm_archived_data false rid
        ((archive_messages false now st).1)).1).attachments ↔ a ∈ st.attachments) ∧
    (∀ l : AttachmentMessage, l ∈ ((restore_realm_archived_data false rid
        ((archive_messages false now st).1)).1).attachment_messages ↔
        l ∈ st.attachment_messages) ∧
    (∀ r ∈ ((restore_realm_archived_data false rid
        ((archive_messages false now st).1)).1).realms,
      r.id = rid → r.message_retention_days = none) := by
  refine ⟨c3_messages_iff now rid st hrealm hAm hAum hUm,
    c3_usermessages_iff now rid st hrealm hAm hAum hUm hUum,
    c3_attachments_iff now rid st hrealm hAm hAum hAa hAl hUa,
    c3_links_iff now rid st hrealm hAm hAum hAl hUm hUl, ?_⟩
  intro r hr hid
  rw [restore_false_realms, sweep_realms, List.mem_map] at hr
  obtain ⟨r0, hr0, heq⟩ := hr
  cases hb : (r0.id == rid) with
  | false =>
    exfalso
    rw [hb, if_neg (fun h => Bool.noConfusion h)] at heq
    rw [← heq] at hid
    have hbt : (r0.id == rid) = true := beq_iff_eq.mpr hid
    rw [hb] at hbt
    exact Bool.noConfusion hbt
  | true =>
    rw [hb, if_pos rfl] at heq
    rw [← heq]

/-- A store whose archive already holds a message (id 5) and a delivery
record for it, with the corresponding live tables empty: the rows were put
there by an earlier sweep (or never had live counterparts).  Restoring after
a (vacuous) sweep resurrects message 5 into the live store. -/
def c3st : Store :=
  { realms := [⟨1, some 30⟩], userprofiles := [⟨1, 1⟩]
  , messages := [], usermessages := []
  , attachments := [], attachment_messages := []
  , archivedmessages := [⟨⟨5, 1, 0⟩, 0⟩]
  , archivedusermessages := [⟨⟨7, 1, 5⟩, 0⟩]
  , archivedattachments := [], archivedattachment_messages := [] }

/-- Counterexample to C3 as stated ("for every store state"): on `c3st`,
sweep at time 100 followed by restore of realm 1 yields a live message table
containing message 5, which the pre-sweep live store does not contain: the
restore resurrects pre-existing archive rows, so the round trip is not the
identity on arbitrary stores. -/
theorem c3_counterexample :
    (⟨5, 1, 0⟩ : Message) ∈ ((restore_realm_archived_data false 1
      ((archive_messages false 100 c3st).1)).1).messages ∧
    (⟨5, 1, 0⟩ : Message) ∉ c3st.messages :=
  ⟨List.Mem.head _, by
    rw [show c3st.messages = ([] : List Message) from rfl]
    exact List.not_mem_nil _⟩

/-- A concrete store with live data only: realm 1 (retention 30 days),
an expired message 1 and a fresh message 2, three delivery records, one
attachment linked to both messages. -/
def storeC3W : Store :=
  { realms := [⟨1, some 30⟩], userprofiles := [⟨10, 1⟩, ⟨11, 1⟩]
  , messages := [⟨1, 10, 60⟩, ⟨2, 10, 99⟩]
  , usermessages := [⟨1, 10, 1⟩, ⟨2, 11, 1⟩, ⟨3, 10, 2⟩]
  , attachments := [⟨1, 500⟩]
  , attachment_messages := [⟨1, 1, 1⟩, ⟨2, 1, 2⟩]
  , archivedmessages := [], archivedusermessages := []
  , archivedattachments := [], archivedattachment_messages := [] }

/-- Witness for C3 (amended) on `storeC3W` at time 100: the hypotheses hold
and the round trip preserves the expired message 1's row. -/
theorem c3_witness :
    (∀ r ∈ storeC3W.realms, r.message_retention_days ≠ none → r.id = 1) ∧
    ((⟨1, 10, 60⟩ : Message) ∈ ((restore_realm_archived_data false 1
      ((archive_messages false 100 storeC3W).1)).1).messages ↔
      (⟨1, 10, 60⟩ : Message) ∈ storeC3W.messages) :=
  ⟨by decide,
    (c3_restore_round_trip_amended 100 1 storeC3W (by decide) rfl rfl rfl rfl
      (by decide) (by decide) (by decide) (by decide)).1 ⟨1, 10, 60⟩⟩

end Retention
